import Mathlib

/-!
# Remote control firmware: notification delivery engine and state machine

A shallow embedding of `notifications.c` (the ring buffer that holds outbound
notifications until the link can take them), of `state.c` (the connection and
advertising state machine) and of the signal handlers of `event_handler.c`
that drive them, followed by the properties proved about them.

Conventions of the embedding

* The firmware runs on a 16-bit word machine: `uint16` values are natural
  numbers and `uint16` arithmetic is taken modulo `2 ^ 16`.
* A C array is a function from indices to elements; `a[i] = v` is
  `Function.update a i v`.
* A pointer argument (`uint16 *data`) is the function that gives the word
  found at each offset from the pointer.
* The static variables of `notifications.c` are the fields of
  `NotificationModule`, passed explicitly. `localData` is only read by that
  module and is a parameter of its functions.
* The calls of the external primitive `GattCharValueNotification` are recorded,
  oldest first, in the field `gattCharValueNotifications`.
* The state machine and the signal handlers act on `Firmware`: the session
  record `localData`, the notification engine, the data of the HID service and
  the record `sdkCalls` of the calls made to the SDK.
-/

namespace Remote

/-! ## Machine arithmetic -/

/-- Addition of two `uint16` values. -/
def uint16_add (a b : Nat) : Nat := (a % 65536 + b % 65536) % 65536

/-- Subtraction of two `uint16` values (wraps around below zero). -/
def uint16_sub (a b : Nat) : Nat := (a % 65536 + 65536 - b % 65536) % 65536

/-! ## SDK types and constants

The SDK headers are not among the sources. Enumerations of the SDK whose
numeric values the application never inspects are inductive types with the
enumerators the application names. -/

/-- Modelled from the spec: `TIMER_INVALID`, the timer identifier the SDK uses
for "no timer" (declared in the SDK header timer.h). -/
def TIMER_INVALID : Nat := 0

/-- Invalid UCID indicating we are not currently connected (`app_gatt.h`). -/
def GATT_INVALID_UCID : Nat := 0xFFFF

/-- A Bluetooth device address (`BD_ADDR_T` of the SDK): lower, upper and
non-significant address parts. -/
structure BD_ADDR_T where
  lap : Nat := 0
  uap : Nat := 0
  nap : Nat := 0
  deriving DecidableEq, Repr

/-- A device address with its type (`TYPED_BD_ADDR_T` of the SDK). -/
structure TYPED_BD_ADDR_T where
  type : Nat := 0
  addr : BD_ADDR_T := {}
  deriving DecidableEq, Repr

/-- Modelled from the spec: `L2CA_RANDOM_ADDR_TYPE`, the address type of a
random address (SDK constant). -/
def L2CA_RANDOM_ADDR_TYPE : Nat := 1

/-- Modelled from the spec: `BD_ADDR_NAP_RANDOM_TYPE_MASK`, the two top bits of
the `nap` part, which give the kind of a random address (SDK constant). -/
def BD_ADDR_NAP_RANDOM_TYPE_MASK : Nat := 0xC000

/-- Modelled from the spec: `BD_ADDR_NAP_RANDOM_TYPE_RESOLVABLE`, the top bits
of a resolvable private address (SDK constant). -/
def BD_ADDR_NAP_RANDOM_TYPE_RESOLVABLE : Nat := 0x4000

/-- Modelled from the spec: `BD_ADDR_NAP_RANDOM_TYPE_NONRESOLV`, the top bits
of a non-resolvable private address (SDK constant). -/
def BD_ADDR_NAP_RANDOM_TYPE_NONRESOLV : Nat := 0x0000

/-- The reason codes of the link supervisor (`ls_err` of the SDK) that the
application names; `ls_err_other` stands for every other code. -/
inductive ls_err where
  | ls_err_none
  | ls_err_authentication
  | ls_err_oetc_user
  | ls_err_other (code : Nat)
  deriving DecidableEq, Repr

/-- Default reason generated for disconnection events (`remote.h`). -/
def DEFAULT_DISCONNECTION_REASON : ls_err := ls_err.ls_err_oetc_user

/-- Modelled from the spec: the SDK constant `SECOND`, one second in the
microseconds in which the SDK counts time; the background tick comes every 15
of them. -/
def SECOND : Nat := 1000000

/-- Modelled from the spec: `HCI_ERROR_CONN_TIMEOUT`, the disconnect reason that
reports a link loss (supervision timeout); an SDK constant. -/
def HCI_ERROR_CONN_TIMEOUT : Nat := 0x08

/-- Modelled from the spec: `HCI_ERROR_DIRECTED_ADVERTISING_TIMEOUT`, the result
of a connect request whose directed advertising ended without a connection; an
SDK constant, different from the code for success. -/
def HCI_ERROR_DIRECTED_ADVERTISING_TIMEOUT : Nat := 0x3C

/-- The connect modes of the SDK (`gap_mode_connect`) that the application
uses. -/
inductive gap_mode_connect where
  | gap_mode_connect_directed
  | gap_mode_connect_undirected
  deriving DecidableEq, Repr

/-- The flags of a connect request that the application combines with `|`. -/
inductive L2CAP_CONNECT_FLAG where
  | L2CAP_CONNECTION_SLAVE_UNDIRECTED
  | L2CAP_CONNECTION_SLAVE_WHITELIST
  | L2CAP_CONNECTION_SLAVE_DIRECTED
  | L2CAP_OWN_ADDR_TYPE_PUBLIC
  deriving DecidableEq, Repr

/-! ## `state.h` -/

/-- The application states and the convenience values declared with them. -/
inductive CURRENT_STATE_T where
  /-- Initial state. -/
  | STATE_INIT
  /-- Transmitting directed advertisements. -/
  | STATE_DIRECT_ADVERT
  /-- Transmitting undirected advertisements (at a fast rate). -/
  | STATE_FAST_ADVERT
  /-- Transmitting undirected advertisements (at a slow rate). -/
  | STATE_SLOW_ADVERT
  /-- Generic "advertising" state, an argument of `stateSet` only. -/
  | STATE_ADVERTISING
  /-- Connected, not currently sending data. -/
  | STATE_CONNECTED_IDLE
  /-- Connected, currently sending non-audio data. -/
  | STATE_CONNECTED_MOTION
  /-- Connected, currently sending audio data. -/
  | STATE_CONNECTED_AUDIO
  /-- Convenience value used for checking for some sort of connection. -/
  | STATE_CONNECTED
  /-- Convenience value used for checking for a non-audio connection. -/
  | STATE_CONNECTED_NON_AUDIO
  /-- Entered when disconnect is initiated by this device. -/
  | STATE_DISCONNECTING
  /-- The remote control is idle, with no connections. -/
  | STATE_IDLE
  deriving DecidableEq, Repr

/-- The numeric value of each enumerator. -/
def CURRENT_STATE_T.toNat : CURRENT_STATE_T → Nat
  | STATE_INIT => 0x0
  | STATE_DIRECT_ADVERT => 0x01
  | STATE_FAST_ADVERT => 0x02
  | STATE_SLOW_ADVERT => 0x03
  | STATE_ADVERTISING => 0x04
  | STATE_CONNECTED_IDLE => 0x20
  | STATE_CONNECTED_MOTION => 0x40
  | STATE_CONNECTED_AUDIO => 0x80
  | STATE_CONNECTED => 0x20 ||| 0x40 ||| 0x80
  | STATE_CONNECTED_NON_AUDIO => 0x20 ||| 0x40
  | STATE_DISCONNECTING => 0x05
  | STATE_IDLE => 0x06

/-! ## Session record (`remote.h`) -/

/-- Central device IRK (`CENTRAL_DEVICE_IRK_T`): `MAX_WORDS_IRK` words. -/
structure CENTRAL_DEVICE_IRK_T where
  irk : Nat → Nat := fun _ => 0

/-- The data structure used by the remote application (`LOCAL_DATA_T`), for the
build configuration of `configuration.h` (`DISCONNECT_ON_IDLE` defined, no
motion sensor, no speech, no infra-red protocol). -/
structure LOCAL_DATA_T where
  /-- The current application state. -/
  state : CURRENT_STATE_T := CURRENT_STATE_T.STATE_INIT
  /-- The "when to stop advertising" timer. -/
  advertising_tid : Nat := TIMER_INVALID
  /-- Timer to allow the remote device to re-encrypt a bonded link using the
  old keys. -/
  recrypt_tid : Nat := TIMER_INVALID
  /-- The connection-parameter-update mechanism is active. -/
  conn_param_counter_active : Bool := false
  /-- The number of times connection parameter update requests have been sent. -/
  conn_param_update_count : Nat := 0
  /-- The tick count (interval) between update requests. -/
  conn_param_update_tick_count : Nat := 0
  /-- The number of ticks received on the way to disconnecting from the central
  device. -/
  disconnect_counter : Nat := 0
  /-- Reason to use when disconnecting through the state machine. -/
  disconnect_reason : ls_err := DEFAULT_DISCONNECTION_REASON
  /-- The address of the Central to which this remote is connected. -/
  con_bd_addr : TYPED_BD_ADDR_T := {}
  /-- Track the UCID as clients connect and disconnect. -/
  st_ucid : Nat := 0
  /-- Whether the device is bonded. -/
  bonded : Bool := false
  /-- Address of the host to which the remote is bonded. -/
  bonded_bd_addr : TYPED_BD_ADDR_T := {}
  /-- Diversifier associated with the LTK of the bonded device. -/
  diversifier : Nat := 0
  /-- Central private address resolution IRK. -/
  central_device_irk : CENTRAL_DEVICE_IRK_T := {}
  /-- Whether encryption is enabled with the bonded host. -/
  encrypt_enabled : Bool := false
  /-- Set to indicate pairing button press. -/
  pairing_button_pressed : Bool := false
  /-- The latest button-press activity that may still need to be sent. -/
  latest_button_report : Nat → Nat := fun _ => 0
  /-- Timer that spaces two input reports. -/
  next_report_timer_id : Nat := TIMER_INVALID
  actual_latency : Nat := 0
  actual_timeout : Nat := 0
  actual_interval : Nat := 0
  /-- Flag to indicate whether transmission of notifications can happen at this
  moment (or not). -/
  blockNotifications : Bool := false

/-! ## `notifications.c`: private definitions -/

/-- The number of notifications that can be buffered. -/
def MAX_BUFFERED_NOTIFICATIONS : Nat := 20

/-- The maximum length of a notification. -/
def MAX_NOTIFICATION_DATA_LEN_BYTES : Nat := 20

/-- Number of items in the buffer, taking the ring-buffer structure into
account: `(r <= w) ? (w - r) : ((MAX_BUFFERED_NOTIFICATIONS - r) + w)`. -/
def NUM_BUFFERED_ITEMS (r w : Nat) : Nat :=
  if r ≤ w then uint16_sub w r
  else uint16_add (uint16_sub MAX_BUFFERED_NOTIFICATIONS r) w

/-- Value given to a cursor by the statement macro `SET_NEXT_POSITION`. -/
def SET_NEXT_POSITION (v : Nat) : Nat :=
  if v < MAX_BUFFERED_NOTIFICATIONS - 1 then v + 1 else 0

/-- Value given to a cursor by the statement macro `SET_PREV_POSITION`. -/
def SET_PREV_POSITION (v : Nat) : Nat :=
  if v > 0 then v - 1 else MAX_BUFFERED_NOTIFICATIONS - 1

/-- The possible internal states of the module. -/
inductive NOTIFICATION_STATE where
  /-- No notification/indication response is outstanding. -/
  | ALL_QUIET
  /-- A notification has been sent and the response is outstanding. -/
  | NOTIFICATION_OUTSTANDING
  deriving DecidableEq, Repr

/-- One element of the notification buffer array. The payload array
`notification` has `MAX_NOTIFICATION_DATA_LEN_BYTES` elements, at the indices
`0 .. 19`; larger indices are not part of the array, and no store writes the
function there: the word that follows element 19 is the handle of the next
item of the buffer. -/
structure NOTIFICATION_ITEM where
  handle : Nat
  dataLenInBytes : Nat
  notification : Nat → Nat

/-- The arguments of one call of the firmware primitive
`GattCharValueNotification(cid, handle, size_value, value)`; `value` is the
content of the array the pointer argument designates when the call is made,
which is the payload array of an item, of 20 elements. -/
structure GattCharValueNotification where
  cid : Nat
  handle : Nat
  size_value : Nat
  value : Nat → Nat

/-- The private data of `notifications.c`, and the transmissions it has
requested from the firmware so far. -/
structure NotificationModule where
  /-- The notification buffer. The array has `MAX_BUFFERED_NOTIFICATIONS` items,
  at the indices `0 .. 19`; larger indices stand for the words that follow the
  array in memory, taken one item size at a time. The sources do not tell what
  the linker places there; these words are kept apart from the other variables
  of the module. -/
  notificationBuffer : Nat → NOTIFICATION_ITEM
  /-- The position that the next notification (to be buffered) is written to. -/
  notificationWritePosition : Nat
  /-- The position that the next notification (to be sent) is read from. -/
  notificationReadPosition : Nat
  /-- The current state of the module. -/
  currentState : NOTIFICATION_STATE
  /-- All data is to be dropped the next time the transmission result is
  received. -/
  dropOnNextRegistration : Bool
  /-- Calls of `GattCharValueNotification` made so far, oldest first. -/
  gattCharValueNotifications : List GattCharValueNotification

/-- The SDK routine `MemCopy(dst, src, n)`: the first `n` words at `dst` become
those found at `src`. -/
def MemCopy (dst src : Nat → Nat) (n : Nat) : Nat → Nat :=
  fun i => if i < n then src i else dst i

/-- The static initialisers of the module: both cursors zero, `ALL_QUIET`, no
deferred drop. The array starts zeroed and nothing has been transmitted. -/
def initialModule : NotificationModule :=
  { notificationBuffer := fun _ => { handle := 0, dataLenInBytes := 0, notification := fun _ => 0 }
    notificationWritePosition := 0
    notificationReadPosition := 0
    currentState := NOTIFICATION_STATE.ALL_QUIET
    dropOnNextRegistration := false
    gattCharValueNotifications := [] }

/-! ## `notifications.c`: functions -/

/-- If there are notifications waiting to be sent, send the next notification
to the remote device. -/
def sendNextNotification (localData : LOCAL_DATA_T) (s : NotificationModule) :
    NotificationModule :=
  if s.currentState = NOTIFICATION_STATE.ALL_QUIET ∧
      NUM_BUFFERED_ITEMS s.notificationReadPosition s.notificationWritePosition > 0 then
    { s with
      gattCharValueNotifications := s.gattCharValueNotifications ++
        [{ cid := localData.st_ucid
           handle := (s.notificationBuffer s.notificationReadPosition).handle
           size_value := (s.notificationBuffer s.notificationReadPosition).dataLenInBytes
           value := (s.notificationBuffer s.notificationReadPosition).notification }]
      currentState := NOTIFICATION_STATE.NOTIFICATION_OUTSTANDING }
  else s

/-- Send the next notification from the buffer (if any), unless one is already
scheduled or notifications are blocked. -/
def notificationSendNext (localData : LOCAL_DATA_T) (s : NotificationModule) :
    NotificationModule :=
  if s.currentState = NOTIFICATION_STATE.ALL_QUIET ∧ localData.blockNotifications = false then
    sendNextNotification localData s
  else s

/-- Return the number of empty notification buffer positions. -/
def notificationBufferRemaining (s : NotificationModule) : Nat :=
  uint16_sub MAX_BUFFERED_NOTIFICATIONS
    (NUM_BUFFERED_ITEMS s.notificationReadPosition s.notificationWritePosition)

/-- The size of a `NOTIFICATION_ITEM` in words: one for the handle, one for the
length and one for each element of the payload array (a `uint8` occupies one
word on this machine). -/
def sizeof_NOTIFICATION_ITEM : Nat := 2 + MAX_NOTIFICATION_DATA_LEN_BYTES

/-- The SDK routine `MemCopy(dst, src, n)` when `dst` points into the buffer
array, `start` words after its beginning: the `n` words of the array from
there on become those found at `src`. The items lie one after the other, so
that word `f` of item `i` (0 the handle, 1 the length, `2 + j` element `j` of
the payload) is word `sizeof_NOTIFICATION_ITEM * i + f` of the array, and a
copy that is longer than what is left of an item runs on into the items that
follow. -/
def MemCopyToBuffer (buf : Nat → NOTIFICATION_ITEM) (start : Nat) (src : Nat → Nat)
    (n : Nat) : Nat → NOTIFICATION_ITEM :=
  fun i =>
    let word := fun (f old : Nat) =>
      if start ≤ sizeof_NOTIFICATION_ITEM * i + f ∧
          sizeof_NOTIFICATION_ITEM * i + f < start + n then
        src (sizeof_NOTIFICATION_ITEM * i + f - start)
      else old
    { handle := word 0 (buf i).handle
      dataLenInBytes := word 1 (buf i).dataLenInBytes
      notification := fun j =>
        if j < MAX_NOTIFICATION_DATA_LEN_BYTES then word (2 + j) ((buf i).notification j)
        else (buf i).notification j }

/-- The buffer after the copy of `bufferItem` into the item at `pos`: handle and
length are assigned; the payload is copied with `MemCopy` when
`dataLenInBytes > 1`, and otherwise only element 0 is assigned, with
`(*data) & 0xff`. The length is not compared with the size of the payload
array. -/
def copyNotification (buf : Nat → NOTIFICATION_ITEM) (pos handle dataLenInBytes : Nat)
    (data : Nat → Nat) : Nat → NOTIFICATION_ITEM :=
  let buf1 : Nat → NOTIFICATION_ITEM :=
    Function.update buf pos { buf pos with handle := handle, dataLenInBytes := dataLenInBytes }
  if dataLenInBytes > 1 then
    MemCopyToBuffer buf1 (sizeof_NOTIFICATION_ITEM * pos + 2) data dataLenInBytes
  else
    Function.update buf1 pos
      { buf1 pos with
        notification := Function.update (buf1 pos).notification 0 (data 0 &&& 0xff) }

/-- The item that `copyNotification` leaves in its slot when the payload fits
the payload array; no other item is written then. -/
def storedItem (old : NOTIFICATION_ITEM) (handle dataLenInBytes : Nat)
    (data : Nat → Nat) : NOTIFICATION_ITEM :=
  { handle := handle
    dataLenInBytes := dataLenInBytes
    notification :=
      if dataLenInBytes > 1 then MemCopy old.notification data dataLenInBytes
      else Function.update old.notification 0 (data 0 &&& 0xff) }

/-- Store a notification in the local buffer, ready to send to the remote
device, and trigger sending. Returns whether the item was buffered. -/
def bufferItem (localData : LOCAL_DATA_T) (handle dataLenInBytes : Nat) (data : Nat → Nat)
    (forceBuffering : Bool) (s : NotificationModule) : Bool × NotificationModule :=
  -- no buffer space remaining but buffering is forced: overwrite the previous entry
  let s1 : NotificationModule :=
    if notificationBufferRemaining s ≤ 1 ∧ forceBuffering = true then
      { s with notificationWritePosition := SET_PREV_POSITION s.notificationWritePosition }
    else s
  if notificationBufferRemaining s1 > 1 then
    let s2 : NotificationModule :=
      { s1 with
        notificationBuffer := copyNotification s1.notificationBuffer
          s1.notificationWritePosition handle dataLenInBytes data
        notificationWritePosition := SET_NEXT_POSITION s1.notificationWritePosition }
    (true, notificationSendNext localData s2)
  else
    (false, notificationSendNext localData s1)

/-- Force buffering a notification (overwrites previously-buffered data). -/
def notificationForceBufferItem (localData : LOCAL_DATA_T) (handle dataLenInBytes : Nat)
    (data : Nat → Nat) (s : NotificationModule) : Bool × NotificationModule :=
  bufferItem localData handle dataLenInBytes data true s

/-- Buffer a notification to send to the remote device. -/
def notificationBufferItem (localData : LOCAL_DATA_T) (handle dataLenInBytes : Nat)
    (data : Nat → Nat) (s : NotificationModule) : Bool × NotificationModule :=
  bufferItem localData handle dataLenInBytes data false s

/-- Drop all data from the notification buffers. -/
def notificationDropAll (s : NotificationModule) : NotificationModule :=
  if s.currentState = NOTIFICATION_STATE.ALL_QUIET then
    { s with notificationWritePosition := 0, notificationReadPosition := 0 }
  else
    { s with dropOnNextRegistration := true }

/-- Register the result of the last notification-send attempt. -/
def notificationRegisterResult (transmitSucceeded : Bool) (s : NotificationModule) :
    NotificationModule :=
  let s1 : NotificationModule :=
    if transmitSucceeded = true then
      { s with notificationReadPosition := SET_NEXT_POSITION s.notificationReadPosition }
    else s
  let s2 : NotificationModule := { s1 with currentState := NOTIFICATION_STATE.ALL_QUIET }
  if s2.dropOnNextRegistration = true then
    { notificationDropAll s2 with dropOnNextRegistration := false }
  else s2

/-! ## `event_handler.c`: the confirmation handler -/

/-- Modelled from the spec: the SDK status code that reports success
(`sys_status_success`, declared in an SDK header that is not among the
sources); the transmission-result signal carries it when the transmission
succeeded. -/
def sys_status_success : Nat := 0

/-- The signal `GATT_CHAR_VAL_IND_CFM` (the field the handler reads). -/
structure GATT_CHAR_VAL_IND_CFM_T where
  result : Nat

/-- Handler of the signals `GATT_CHAR_VAL_NOT_CFM` and `GATT_CHAR_VAL_IND_CFM`. -/
def handleCharValIndCfm (localData : LOCAL_DATA_T) (cfm : GATT_CHAR_VAL_IND_CFM_T)
    (s : NotificationModule) : NotificationModule :=
  let success : Bool := decide (cfm.result = sys_status_success)
  let s1 := notificationRegisterResult success s
  if success = true then notificationSendNext localData s1 else s1

/-! ## The application as a whole

The state machine and the signal handlers act on the session record, on the
notification engine, on the data of the HID service and on the SDK. The calls
made to the SDK, and to the collaborators of the application that the sources
leave out or that only drive hardware, are recorded oldest first in
`sdkCalls`. -/

/-- The periods for which the application creates timers, by the name of the
constant that gives the period. -/
inductive TIMER_PERIOD where
  | FAST_CONNECTION_ADVERT_TIMEOUT_VALUE
  | SLOW_CONNECTION_ADVERT_TIMEOUT_VALUE
  | BONDING_CHANCE_TIMER
  | NOTIFICATION_DELAY_AFTER_RECONNECTION
  deriving DecidableEq, Repr

/-- The functions that the application hands to `TimerCreate`. -/
inductive TIMER_HANDLER where
  | advertisingTimerHandler
  | handleBondingChanceTimerExpiry
  | notificationConnectionDelay
  deriving DecidableEq, Repr

/-- The radio events that the application asks to be notified of. -/
inductive radio_event where
  | radio_event_none
  deriving DecidableEq, Repr

/-- The connection parameters of an update request (`ble_con_params` of the
SDK). -/
structure ble_con_params where
  con_max_interval : Nat
  con_min_interval : Nat
  con_slave_latency : Nat
  con_super_timeout : Nat
  deriving DecidableEq, Repr

/-- One call to the SDK or to a collaborator, with its arguments. -/
inductive SdkCall where
  | PioCtrlrStart
  | hwSetControllerForKeyscan (interruptController forceSlowClock : Bool)
  | LsResetWhiteList
  | LsAddWhiteListDevice (addr : TYPED_BD_ADDR_T)
  | LsRadioEventNotification (cid : Nat) (events : radio_event)
  | TimerDelete (tid : Nat)
  | TimerCreate (timeout : TIMER_PERIOD) (relative : Bool) (handler : TIMER_HANDLER)
  | setAdvertisingParameters (fast_connection : Bool) (connect_mode : gap_mode_connect)
  | GattConnectReq (flags : List L2CAP_CONNECT_FLAG)
  | GattCancelConnectReq
  | GattDisconnectReasonReq (cid : Nat) (reason : ls_err)
  | AppBackgroundTick (enable : Bool)
  | Nvm_Write (words : List Nat) (offset : Nat)
  | GapDataInit
  | BatteryDataInit
  | GattOnConnection
  | SMRequestSecurityLevel (addr : TYPED_BD_ADDR_T)
  | OtaReset
  /-- The call `Nvm_Write` whose buffer is a typed address: the words written
  are the memory image of the address. -/
  | Nvm_Write_TYPED_BD_ADDR_T (addr : TYPED_BD_ADDR_T) (offset : Nat)
  | BatteryUpdateLevel (ucid : Nat)
  | LsConnectionParamUpdateReq (addr : TYPED_BD_ADDR_T) (conn_params : ble_con_params)
  deriving DecidableEq, Repr

/-- The data of the HID service (`HID_DATA_T` of `service_hid.c`). -/
structure HID_DATA_T where
  /-- Reports client configuration. -/
  consumer_client_config : Nat := 0
  /-- Set to TRUE if the HID device is suspended. -/
  suspended : Bool := false
  /-- NVM offset at which HID data is stored. -/
  nvm_offset : Nat := 0
  deriving DecidableEq, Repr

/-- Value of `gatt_client_config_none` (`app_gatt.h`). -/
def gatt_client_config_none : Nat := 0x0000

/-- Offset of the consumer report configuration in the HID region of the NVM
(`service_hid.c`). -/
def HID_NVM_CONSUMER_REPORT_CONFIG_OFFSET : Nat := 0

/-- Offset of the bonded flag in the NVM (`nvm_access.h`). -/
def NVM_OFFSET_BONDED_FLAG : Nat := 0 + 1

/-- The size in words of `TYPED_BD_ADDR_T`: one word for the type, two for the
24-bit `lap`, one each for `uap` and `nap`. -/
def sizeof_TYPED_BD_ADDR_T : Nat := 5

/-- Offset of the bonded device address in the NVM (`nvm_access.h`); the bonded
flag takes one word. -/
def NVM_OFFSET_BONDED_ADDR : Nat := NVM_OFFSET_BONDED_FLAG + 1

/-- Offset of the diversifier in the NVM (`nvm_access.h`). -/
def NVM_OFFSET_SM_DIV : Nat := NVM_OFFSET_BONDED_ADDR + sizeof_TYPED_BD_ADDR_T

/-- Offset of the IRK in the NVM (`nvm_access.h`); the diversifier takes one
word. -/
def NVM_OFFSET_SM_IRK : Nat := NVM_OFFSET_SM_DIV + 1

/-- Number of words of an IRK (`remote.h`). -/
def MAX_WORDS_IRK : Nat := 8

/-- The preferred connection parameters, constants of the header
`gap_conn_params.h`, which is not among the sources, with the two other
configuration constants that the sources use and do not define: the cap on
the connection parameter update requests and the idle time after which the
application disconnects (in the time unit of the SDK). -/
structure GAP_CONN_PARAMS where
  PREFERRED_MAX_CON_INTERVAL : Nat
  PREFERRED_MIN_CON_INTERVAL : Nat
  PREFERRED_SLAVE_LATENCY : Nat
  PREFERRED_SUPERVISION_TIMEOUT : Nat
  MAX_NUM_CONN_PARAM_UPDATE_REQS : Nat
  CONNECTED_IDLE_TIMEOUT_VALUE : Nat
  deriving DecidableEq, Repr

/-- The application and what surrounds it. -/
structure Firmware where
  /-- The constants of `gap_conn_params.h`. -/
  gap_conn_params : GAP_CONN_PARAMS
  /-- The session record. -/
  localData : LOCAL_DATA_T := {}
  /-- The statics of `notifications.c`. -/
  notifications : NotificationModule := initialModule
  /-- The data of the HID service. -/
  hid_data : HID_DATA_T := {}
  /-- Set when the device is to switch into OTA-update mode
  (`service_csr_ota.c`). -/
  g_ota_reset_required : Bool := false
  /-- The calls made so far, oldest first. -/
  sdkCalls : List SdkCall := []
  /-- The identifiers that the coming calls of `TimerCreate` return, in order
  (`TIMER_INVALID` when no timer is left). -/
  timerPool : Nat → Nat := fun n => n + 1
  /-- The answer of the SDK routine `SMPrivacyMatchAddress` for an address
  and a list of IRKs: negative when the address matches none of them. -/
  SMPrivacyMatchAddress : TYPED_BD_ADDR_T → (Nat → Nat) → Int := fun _ _ => 0

/-- Record one call. -/
def Firmware.call (fw : Firmware) (c : SdkCall) : Firmware :=
  { fw with sdkCalls := fw.sdkCalls ++ [c] }

/-- The SDK routine `TimerCreate`: the call is recorded and the next
identifier of the pool is returned. -/
def TimerCreate (timeout : TIMER_PERIOD) (relative : Bool) (handler : TIMER_HANDLER)
    (fw : Firmware) : Nat × Firmware :=
  (fw.timerPool 0,
    { fw with
      sdkCalls := fw.sdkCalls ++ [SdkCall.TimerCreate timeout relative handler]
      timerPool := fun n => fw.timerPool (n + 1) })

/-! ### `remote_gatt.c` -/

/-- Checks if the address is resolvable random or not. -/
def IsAddressResolvableRandom (addr : TYPED_BD_ADDR_T) : Bool :=
  if addr.type ≠ L2CA_RANDOM_ADDR_TYPE ∨
      (addr.addr.nap &&& BD_ADDR_NAP_RANDOM_TYPE_MASK) ≠ BD_ADDR_NAP_RANDOM_TYPE_RESOLVABLE then
    false
  else true

/-- Checks if the address is non-resolvable random (reconnection address) or
not. -/
def IsAddressNonResolvableRandom (addr : TYPED_BD_ADDR_T) : Bool :=
  if addr.type ≠ L2CA_RANDOM_ADDR_TYPE ∨
      (addr.addr.nap &&& BD_ADDR_NAP_RANDOM_TYPE_MASK) ≠ BD_ADDR_NAP_RANDOM_TYPE_NONRESOLV then
    false
  else true

/-! ### `service_hid.c` -/

/-- Initialise HID service data structure. -/
def HidDataInit (fw : Firmware) : Firmware :=
  let fw1 : Firmware :=
    if fw.localData.bonded = false then
      ({ fw with hid_data.consumer_client_config := gatt_client_config_none }).call
        (SdkCall.Nvm_Write [gatt_client_config_none]
          (uint16_add fw.hid_data.nvm_offset HID_NVM_CONSUMER_REPORT_CONFIG_OFFSET))
    else fw
  { fw1 with hid_data.suspended := false }

/-! ### `remote.c` -/

/-- Update the whitelist with the bonded device address if it is not private. -/
def AppUpdateWhiteList (fw : Firmware) : Firmware :=
  let fw1 := fw.call SdkCall.LsResetWhiteList
  if fw1.localData.bonded = true ∧
      (!IsAddressResolvableRandom fw1.localData.bonded_bd_addr) = true ∧
      (!IsAddressNonResolvableRandom fw1.localData.bonded_bd_addr) = true then
    fw1.call (SdkCall.LsAddWhiteListDevice fw1.localData.bonded_bd_addr)
  else fw1

/-! ### `advertise.c` -/

/-- Start advertisements. The static routine `setAdvertisingParameters`, which
only packs the advertising payload and hands it to the SDK, is recorded as one
call. -/
def AdvStart (fast_connection : Bool) (connect_mode : gap_mode_connect) (fw : Firmware) :
    Firmware :=
  let fw1 : Firmware := { fw with localData.st_ucid := GATT_INVALID_UCID }
  let fw2 := fw1.call (SdkCall.setAdvertisingParameters fast_connection connect_mode)
  let connect_flags : List L2CAP_CONNECT_FLAG :=
    if fw2.localData.bonded = true ∧
        (!IsAddressResolvableRandom fw2.localData.bonded_bd_addr) = true then
      if connect_mode = gap_mode_connect.gap_mode_connect_directed then
        [L2CAP_CONNECT_FLAG.L2CAP_CONNECTION_SLAVE_WHITELIST,
          L2CAP_CONNECT_FLAG.L2CAP_OWN_ADDR_TYPE_PUBLIC,
          L2CAP_CONNECT_FLAG.L2CAP_CONNECTION_SLAVE_DIRECTED]
      else
        [L2CAP_CONNECT_FLAG.L2CAP_CONNECTION_SLAVE_WHITELIST,
          L2CAP_CONNECT_FLAG.L2CAP_OWN_ADDR_TYPE_PUBLIC]
    else
      [L2CAP_CONNECT_FLAG.L2CAP_CONNECTION_SLAVE_UNDIRECTED,
        L2CAP_CONNECT_FLAG.L2CAP_OWN_ADDR_TYPE_PUBLIC]
  let fw3 := fw2.call (SdkCall.GattConnectReq connect_flags)
  if connect_mode = gap_mode_connect.gap_mode_connect_undirected then
    let timeout : TIMER_PERIOD :=
      if fast_connection = true then TIMER_PERIOD.FAST_CONNECTION_ADVERT_TIMEOUT_VALUE
      else TIMER_PERIOD.SLOW_CONNECTION_ADVERT_TIMEOUT_VALUE
    let fw4 := fw3.call (SdkCall.TimerDelete fw3.localData.advertising_tid)
    let created := TimerCreate timeout true TIMER_HANDLER.advertisingTimerHandler fw4
    { created.2 with localData.advertising_tid := created.1 }
  else fw3

/-! ### `event_handler.c`: helpers of the state machine -/

/-- Reset the idle-disconnect counter. -/
def handleResetIdleTimer (fw : Firmware) : Firmware :=
  { fw with localData.disconnect_counter := 0 }

/-! ### `state.c` -/

/-- Choose directed advertisements for a bonded host whose address is not
resolvable random, fast undirected advertisements otherwise
(`__GAP_PRIVACY_SUPPORT__` is not defined). -/
def determineAdvertisingType (fw : Firmware) : CURRENT_STATE_T :=
  if fw.localData.bonded = true ∧
      IsAddressResolvableRandom fw.localData.bonded_bd_addr = false then
    CURRENT_STATE_T.STATE_DIRECT_ADVERT
  else CURRENT_STATE_T.STATE_FAST_ADVERT

/-- Called upon exiting from INIT state. -/
def exitInitState (fw : Firmware) : Firmware :=
  AppUpdateWhiteList
    ((fw.call SdkCall.PioCtrlrStart).call (SdkCall.hwSetControllerForKeyscan true true))

/-- Called upon exiting from CONNECTED state. -/
def exitConnectedState (fw : Firmware) : Firmware :=
  handleResetIdleTimer fw

/-- Called upon exiting from ACTIVE state. -/
def exitMotionState (fw : Firmware) : Firmware :=
  let fw1 := fw.call
    (SdkCall.LsRadioEventNotification fw.localData.st_ucid radio_event.radio_event_none)
  let fw2 := fw1.call (SdkCall.TimerDelete fw1.localData.next_report_timer_id)
  { fw2 with localData.next_report_timer_id := TIMER_INVALID }

/-- Called upon exiting from IDLE state. -/
def exitIdleState (fw : Firmware) : Firmware := fw

/-- Actions generic to all advertising states. -/
def enterAdvertisingState (fw : Firmware) : Firmware :=
  if fw.localData.state = CURRENT_STATE_T.STATE_DIRECT_ADVERT then
    AdvStart false gap_mode_connect.gap_mode_connect_directed fw
  else
    AdvStart (decide (fw.localData.state = CURRENT_STATE_T.STATE_FAST_ADVERT))
      gap_mode_connect.gap_mode_connect_undirected fw

/-- Put the remote into CONNECTED_IDLE state. -/
def enterConnectedIdleState (fw : Firmware) : Firmware :=
  (handleResetIdleTimer fw).call (SdkCall.AppBackgroundTick true)

/-- Put the remote into DISCONNECTING state. -/
def enterDisconnectingState (fw : Firmware) : Firmware :=
  let fw1 := fw.call
    (SdkCall.GattDisconnectReasonReq fw.localData.st_ucid fw.localData.disconnect_reason)
  { fw1 with localData.disconnect_reason := DEFAULT_DISCONNECTION_REASON }

/-- Put the remote into IDLE state. -/
def enterIdleState (fw : Firmware) : Firmware :=
  ({ fw with notifications := notificationDropAll fw.notifications }).call
    (SdkCall.AppBackgroundTick false)

/-- Put the remote into CONNECTED_MOTION state: no motion data is sent in this
build (`if(0)`), so the state machine is asked for CONNECTED_IDLE again. The
argument is `stateSet`, which this routine calls back. -/
def enterConnectedMotionState (stateSet : CURRENT_STATE_T → Firmware → Option Firmware)
    (fw : Firmware) : Option Firmware :=
  stateSet CURRENT_STATE_T.STATE_CONNECTED_IDLE fw

/-- The first `switch` of `stateSet`: handle exiting the old state. -/
def exitAction (fw : Firmware) : Firmware :=
  match fw.localData.state with
  | CURRENT_STATE_T.STATE_INIT => exitInitState fw
  | CURRENT_STATE_T.STATE_CONNECTED_IDLE => exitConnectedState fw
  | CURRENT_STATE_T.STATE_CONNECTED_AUDIO => exitConnectedState fw
  | CURRENT_STATE_T.STATE_CONNECTED_MOTION => exitMotionState fw
  | CURRENT_STATE_T.STATE_IDLE => exitIdleState fw
  | _ => fw

/-- The body of `stateSet`, with a bound on the depth of the calls of `stateSet`
from within itself; `none` when the bound is exceeded. -/
def stateSetFuel : Nat → CURRENT_STATE_T → Firmware → Option Firmware
  | 0, _, _ => none
  | fuel + 1, new_state, fw =>
    let old_state := fw.localData.state
    if new_state ≠ old_state then
      -- handle exiting old state
      let fw1 : Firmware := exitAction fw
      -- set new state
      let new_state1 : CURRENT_STATE_T :=
        if new_state = CURRENT_STATE_T.STATE_ADVERTISING then determineAdvertisingType fw1
        else new_state
      let fw2 : Firmware := { fw1 with localData.state := new_state1 }
      -- handle entering new state
      match new_state1 with
      | CURRENT_STATE_T.STATE_DIRECT_ADVERT => some (enterAdvertisingState fw2)
      | CURRENT_STATE_T.STATE_FAST_ADVERT => some (enterAdvertisingState fw2)
      | CURRENT_STATE_T.STATE_SLOW_ADVERT => some (enterAdvertisingState fw2)
      | CURRENT_STATE_T.STATE_CONNECTED_AUDIO => some (enterConnectedIdleState fw2)
      | CURRENT_STATE_T.STATE_CONNECTED_IDLE => some (enterConnectedIdleState fw2)
      | CURRENT_STATE_T.STATE_DISCONNECTING => some (enterDisconnectingState fw2)
      | CURRENT_STATE_T.STATE_IDLE => some (enterIdleState fw2)
      | CURRENT_STATE_T.STATE_CONNECTED_MOTION =>
          enterConnectedMotionState (stateSetFuel fuel) fw2
      | _ => some fw2
    else some fw

/-- Set the state of the application. A depth of two calls is enough for
every request (see `stateSetFuel_eq_stateSet`). -/
def stateSet (new_state : CURRENT_STATE_T) (fw : Firmware) : Firmware :=
  (stateSetFuel 2 new_state fw).getD fw

/-- Set the application state to disconnecting, ensuring that a specific error
code is sent in the disconnect message. -/
def stateSetDisconnect (disconnect_reason : ls_err) (fw : Firmware) : Firmware :=
  stateSet CURRENT_STATE_T.STATE_DISCONNECTING
    { fw with localData.disconnect_reason := disconnect_reason }

/-! ### `remote.c` and `event_handler.c`: the signal handlers -/

/-- The SDK routine `MemSet(dst, v, n)`: the first `n` words at `dst` become
`v`. -/
def MemSet (dst : Nat → Nat) (v n : Nat) : Nat → Nat :=
  fun i => if i < n then v else dst i

/-- The length of the keypress data in bytes (`configuration.h`). -/
def HID_KEYPRESS_DATA_LENGTH : Nat := 2

/-- Initialise the remote application data structure. The initialisation of
the GAP and battery services, whose sources are left out, is recorded as a
call. -/
def RemoteDataInit (fw : Firmware) : Firmware :=
  let fw1 := fw.call (SdkCall.TimerDelete fw.localData.advertising_tid)
  let fw2 : Firmware := { fw1 with localData.advertising_tid := TIMER_INVALID }
  let fw3 := fw2.call (SdkCall.TimerDelete fw2.localData.recrypt_tid)
  let fw4 : Firmware :=
    { fw3 with
      localData :=
        { fw3.localData with
          recrypt_tid := TIMER_INVALID
          st_ucid := GATT_INVALID_UCID
          encrypt_enabled := false
          pairing_button_pressed := false
          blockNotifications := true
          actual_interval := fw3.gap_conn_params.PREFERRED_MIN_CON_INTERVAL
          actual_latency := uint16_add fw3.gap_conn_params.PREFERRED_SLAVE_LATENCY 1
          actual_timeout := uint16_add fw3.gap_conn_params.PREFERRED_SUPERVISION_TIMEOUT 1
          disconnect_reason := DEFAULT_DISCONNECTION_REASON
          latest_button_report :=
            MemSet fw3.localData.latest_button_report 0 HID_KEYPRESS_DATA_LENGTH } }
  let fw5 := fw4.call (SdkCall.TimerDelete fw4.localData.next_report_timer_id)
  let fw6 : Firmware := { fw5 with localData.next_report_timer_id := TIMER_INVALID }
  (HidDataInit (fw6.call SdkCall.GapDataInit)).call SdkCall.BatteryDataInit

/-- Clear the existing pairing information. -/
def handleClearPairing (fw : Firmware) : Firmware :=
  let fw1 : Firmware := { fw with localData.bonded := false }
  let fw2 := AppUpdateWhiteList fw1
  let fw3 : Firmware := { fw2 with localData.encrypt_enabled := false }
  let fw4 := fw3.call
    (SdkCall.Nvm_Write [if fw3.localData.bonded = true then 1 else 0] NVM_OFFSET_BONDED_FLAG)
  (HidDataInit (fw4.call SdkCall.GapDataInit)).call SdkCall.BatteryDataInit

/-- The signal `GATT_CONNECT_CFM` (the fields the handler reads). -/
structure GATT_CONNECT_CFM_T where
  result : Nat
  cid : Nat
  bd_addr : TYPED_BD_ADDR_T

/-- Handler of the signal `GATT_CONNECT_CFM`. -/
def handleSignalGattConnectCfm (event_data : GATT_CONNECT_CFM_T) (fw : Firmware) : Firmware :=
  if fw.localData.state = CURRENT_STATE_T.STATE_FAST_ADVERT ∨
      fw.localData.state = CURRENT_STATE_T.STATE_SLOW_ADVERT ∨
      fw.localData.state = CURRENT_STATE_T.STATE_DIRECT_ADVERT then
    if event_data.result = sys_status_success then
      -- store received UCID
      let fw1 : Firmware := { fw with localData.st_ucid := event_data.cid }
      if fw1.localData.bonded = true ∧
          IsAddressResolvableRandom fw1.localData.bonded_bd_addr = true ∧
          fw1.SMPrivacyMatchAddress event_data.bd_addr fw1.localData.central_device_irk.irk < 0
      then
        stateSetDisconnect ls_err.ls_err_authentication fw1
      else
        let fw2 : Firmware := { fw1 with localData.con_bd_addr := event_data.bd_addr }
        let fw3 : Firmware :=
          if fw2.localData.bonded = true then fw2.call SdkCall.GattOnConnection else fw2
        let fw4 : Firmware :=
          if IsAddressResolvableRandom fw3.localData.con_bd_addr = false then
            fw3.call (SdkCall.SMRequestSecurityLevel fw3.localData.con_bd_addr)
          else fw3
        let fw5 := stateSet CURRENT_STATE_T.STATE_CONNECTED_IDLE fw4
        let created := TimerCreate TIMER_PERIOD.NOTIFICATION_DELAY_AFTER_RECONNECTION true
          TIMER_HANDLER.notificationConnectionDelay fw5
        if created.1 = TIMER_INVALID then
          { created.2 with localData.blockNotifications := false }
        else created.2
    else if event_data.result = HCI_ERROR_DIRECTED_ADVERTISING_TIMEOUT then
      let fw1 : Firmware :=
        if fw.localData.pairing_button_pressed = true then handleClearPairing fw else fw
      -- drop any pending notifications
      let fw2 : Firmware := { fw1 with notifications := notificationDropAll fw1.notifications }
      stateSet CURRENT_STATE_T.STATE_FAST_ADVERT fw2
    else fw
  else fw

/-- Handler of the signal `GATT_CANCEL_CONNECT_CFM`. -/
def handleSignalGattCancelConnectCfm (fw : Firmware) : Firmware :=
  if fw.localData.state = CURRENT_STATE_T.STATE_FAST_ADVERT then
    if fw.localData.pairing_button_pressed = true then
      let fw1 := handleClearPairing fw
      let fw2 : Firmware := { fw1 with localData.pairing_button_pressed := false }
      AdvStart true gap_mode_connect.gap_mode_connect_undirected fw2
    else
      stateSet CURRENT_STATE_T.STATE_SLOW_ADVERT fw
  else if fw.localData.state = CURRENT_STATE_T.STATE_SLOW_ADVERT then
    if fw.localData.pairing_button_pressed = true then
      let fw1 := handleClearPairing fw
      let fw2 : Firmware := { fw1 with localData.pairing_button_pressed := false }
      stateSet CURRENT_STATE_T.STATE_FAST_ADVERT fw2
    else
      stateSet CURRENT_STATE_T.STATE_IDLE fw
  else fw

/-- The data of the event `LM_EV_DISCONNECT_COMPLETE` (the field the handler
reads). -/
structure HCI_EV_DATA_DISCONNECT_COMPLETE_T where
  reason : Nat

/-- Handler of the signal `LM_EV_DISCONNECT_COMPLETE`. When an OTA reset is
required the handler calls `OtaReset`, which does not return. -/
def handleSignalLmEvDisconnectComplete (p_event_data : HCI_EV_DATA_DISCONNECT_COMPLETE_T)
    (fw : Firmware) : Firmware :=
  if fw.g_ota_reset_required = true then fw.call SdkCall.OtaReset
  else
    -- don't try to send notifications if we're not connected
    let fw1 : Firmware := { fw with localData.blockNotifications := true }
    -- delete the bonding chance timer
    let fw2 := fw1.call (SdkCall.TimerDelete fw1.localData.recrypt_tid)
    let fw3 : Firmware := { fw2 with localData.recrypt_tid := TIMER_INVALID }
    if fw3.localData.state = CURRENT_STATE_T.STATE_DISCONNECTING ∨
        fw3.localData.state = CURRENT_STATE_T.STATE_CONNECTED_IDLE ∨
        fw3.localData.state = CURRENT_STATE_T.STATE_CONNECTED_MOTION ∨
        fw3.localData.state = CURRENT_STATE_T.STATE_CONNECTED_AUDIO then
      let fw4 := RemoteDataInit fw3
      if p_event_data.reason = HCI_ERROR_CONN_TIMEOUT ∨ fw4.localData.bonded = false then
        stateSet CURRENT_STATE_T.STATE_ADVERTISING fw4
      else
        stateSet CURRENT_STATE_T.STATE_IDLE fw4
    else fw3

/-! ### `event_handler.c`: timers, ticks, security and connection parameters -/

/-- Addition on `uint8`: an `unsigned char` occupies one 16-bit word on this
machine, so the sum wraps like a `uint16` sum. -/
def uint8_add (a b : Nat) : Nat := uint16_add a b

/-- Check if the HID host has entered the suspend state (`service_hid.c`). -/
def HidIsStateSuspended (fw : Firmware) : Bool := fw.hid_data.suspended

/-- Time after which a connection parameter update request is re-sent upon
failure of an earlier request. -/
def GAP_CONN_PARAM_TIMEOUT : Nat := 30 * SECOND

/-- The local constant `connectionParamUpdateTicks` of
`handleBackgroundTickInd`, a `uint8`. -/
def connectionParamUpdateTicks : Nat := (GAP_CONN_PARAM_TIMEOUT / (15 * SECOND) + 1) % 65536

/-- The local constant `disconnectionTimeoutTicks` of
`handleBackgroundTickInd`, a `uint8`. -/
def disconnectionTimeoutTicks (p : GAP_CONN_PARAMS) : Nat :=
  (p.CONNECTED_IDLE_TIMEOUT_VALUE / (15 * SECOND) + 1) % 65536

/-- Send a connection parameter update request to the remote device when an
earlier request had failed. -/
def requestConnParamUpdate (fw : Firmware) : Firmware :=
  if HidIsStateSuspended fw = false then
    if fw.localData.actual_latency > fw.gap_conn_params.PREFERRED_SLAVE_LATENCY ∨
        fw.localData.actual_timeout > fw.gap_conn_params.PREFERRED_SUPERVISION_TIMEOUT ∨
        fw.localData.actual_interval > fw.gap_conn_params.PREFERRED_MAX_CON_INTERVAL then
      let fw1 := fw.call (SdkCall.LsConnectionParamUpdateReq fw.localData.con_bd_addr
        { con_max_interval := fw.gap_conn_params.PREFERRED_MAX_CON_INTERVAL
          con_min_interval := fw.gap_conn_params.PREFERRED_MIN_CON_INTERVAL
          con_slave_latency := fw.gap_conn_params.PREFERRED_SLAVE_LATENCY
          con_super_timeout := fw.gap_conn_params.PREFERRED_SUPERVISION_TIMEOUT })
      { fw1 with
        localData :=
          { fw1.localData with
            conn_param_update_count := uint8_add fw1.localData.conn_param_update_count 1
            conn_param_counter_active := false } }
    else fw
  else fw

/-- Expiry of the bonding chance timer: the remote device has not encrypted the
link using the old keys, so the link is disconnected. -/
def handleBondingChanceTimerExpiry (fw : Firmware) : Firmware :=
  stateSet CURRENT_STATE_T.STATE_DISCONNECTING
    { fw with localData.recrypt_tid := TIMER_INVALID }

/-- Expiry of the timer created on connection: it is now safe to send
notifications again. -/
def notificationConnectionDelay (fw : Firmware) : Firmware :=
  let fw1 : Firmware := { fw with localData.blockNotifications := false }
  -- send the first queued notification (if any)
  { fw1 with notifications := notificationSendNext fw1.localData fw1.notifications }

/-- The first part of `handleBackgroundTickInd`, compiled under
`DISCONNECT_ON_IDLE`: count the tick and, when enough ticks have been received,
disconnect in CONNECTED_IDLE and restart the count in any other state. -/
def handleBackgroundTickInd_idle (fw : Firmware) : Firmware :=
  let fw1 : Firmware :=
    { fw with localData.disconnect_counter := uint8_add fw.localData.disconnect_counter 1 }
  if fw1.localData.disconnect_counter ≥ disconnectionTimeoutTicks fw1.gap_conn_params then
    if fw1.localData.state = CURRENT_STATE_T.STATE_CONNECTED_IDLE then
      -- we don't seem to be doing much useful, so disconnect now
      stateSet CURRENT_STATE_T.STATE_DISCONNECTING fw1
    else handleResetIdleTimer fw1
  else fw1

/-- The second part of `handleBackgroundTickInd`: when the application waits
to update the connection parameters and enough ticks have been received,
request a change to the current connection parameters. -/
def handleBackgroundTickInd_conn_param (fw : Firmware) : Firmware :=
  if fw.localData.conn_param_counter_active = true then
    let fw1 : Firmware :=
      { fw with
        localData.conn_param_update_tick_count :=
          uint8_add fw.localData.conn_param_update_tick_count 1 }
    if fw1.localData.conn_param_update_tick_count ≥ connectionParamUpdateTicks then
      requestConnParamUpdate fw1
    else fw1
  else fw

/-- Handler of the background tick, received every 15 seconds: the two parts
in the order of the source. -/
def handleBackgroundTickInd (fw : Firmware) : Firmware :=
  handleBackgroundTickInd_conn_param (handleBackgroundTickInd_idle fw)

/-- The signal `GATT_ADD_DB_CFM` (the field the handler reads). -/
structure GATT_ADD_DB_CFM_T where
  result : Nat

/-- Handler of the signal `GATT_ADD_DB_CFM`. -/
def handleSignalGattAddDBCfm (event_data : GATT_ADD_DB_CFM_T) (fw : Firmware) : Firmware :=
  if fw.localData.state = CURRENT_STATE_T.STATE_INIT ∧
      event_data.result = sys_status_success then
    stateSet CURRENT_STATE_T.STATE_ADVERTISING fw
  else fw

/-- The data of the event `LM_EV_ENCRYPTION_CHANGE` (the fields the handler
reads). -/
structure HCI_EV_DATA_ENCRYPTION_CHANGE_T where
  status : Nat
  enc_enable : Bool

/-- Handler of the signal `LM_EV_ENCRYPTION_CHANGE`. -/
def handleSignalLMEncryptionChange (pEvDataEncryptChange : HCI_EV_DATA_ENCRYPTION_CHANGE_T)
    (fw : Firmware) : Firmware :=
  if fw.localData.state = CURRENT_STATE_T.STATE_CONNECTED_IDLE ∨
      fw.localData.state = CURRENT_STATE_T.STATE_CONNECTED_MOTION ∨
      fw.localData.state = CURRENT_STATE_T.STATE_CONNECTED_AUDIO then
    if pEvDataEncryptChange.status = sys_status_success then
      let fw1 : Firmware :=
        { fw with localData.encrypt_enabled := pEvDataEncryptChange.enc_enable }
      if fw1.localData.encrypt_enabled = true then
        -- delete the bonding chance timer
        let fw2 := fw1.call (SdkCall.TimerDelete fw1.localData.recrypt_tid)
        let fw3 : Firmware := { fw2 with localData.recrypt_tid := TIMER_INVALID }
        let fw4 : Firmware :=
          if fw3.localData.conn_param_counter_active = false then
            { fw3 with
              localData :=
                { fw3.localData with
                  conn_param_update_count := 0
                  conn_param_counter_active := true } }
          else fw3
        fw4.call (SdkCall.BatteryUpdateLevel fw4.localData.st_ucid)
      else fw1
    else fw
  else fw

/-- The keys of the signal `SM_KEYS_IND` (the fields the handler reads). -/
structure SM_KEYS_T where
  div : Nat
  irk : Nat → Nat

/-- The signal `SM_KEYS_IND`. -/
structure SM_KEYS_IND_T where
  keys : SM_KEYS_T

/-- Handler of the signal `SM_KEYS_IND`. -/
def handleSignalSmKeysInd (event_data : SM_KEYS_IND_T) (fw : Firmware) : Firmware :=
  if fw.localData.state = CURRENT_STATE_T.STATE_CONNECTED_IDLE ∨
      fw.localData.state = CURRENT_STATE_T.STATE_CONNECTED_MOTION ∨
      fw.localData.state = CURRENT_STATE_T.STATE_CONNECTED_AUDIO then
    -- store the diversifier and write it to NVM
    let fw1 : Firmware := { fw with localData.diversifier := event_data.keys.div }
    let fw2 := fw1.call (SdkCall.Nvm_Write [fw1.localData.diversifier] NVM_OFFSET_SM_DIV)
    -- store IRK if the connected host is using a random resolvable address
    if IsAddressResolvableRandom fw2.localData.con_bd_addr = true then
      let fw3 : Firmware :=
        { fw2 with
          localData.central_device_irk :=
            { irk := MemCopy fw2.localData.central_device_irk.irk event_data.keys.irk
                MAX_WORDS_IRK } }
      fw3.call (SdkCall.Nvm_Write
        ((List.range MAX_WORDS_IRK).map fw3.localData.central_device_irk.irk)
        NVM_OFFSET_SM_IRK)
    else fw2
  else fw

/-- Modelled from the spec: the values of `sys_status` that the
pairing-complete handler tells apart: success, the failure for repeated
attempts, and any other failure. The SDK header that numbers them is not among
the sources. -/
inductive sm_pairing_status where
  | sys_status_success
  | sm_status_repeated_attempts
  | sm_status_other (code : Nat)
  deriving DecidableEq, Repr

/-- The signal `SM_SIMPLE_PAIRING_COMPLETE_IND` (the fields the handler
reads). -/
structure SM_SIMPLE_PAIRING_COMPLETE_IND_T where
  status : sm_pairing_status
  bd_addr : TYPED_BD_ADDR_T

/-- Handler of the signal `SM_SIMPLE_PAIRING_COMPLETE_IND`. -/
def handleSignalSmSimplePairingCompleteInd (event_data : SM_SIMPLE_PAIRING_COMPLETE_IND_T)
    (fw : Firmware) : Firmware :=
  if fw.localData.state = CURRENT_STATE_T.STATE_CONNECTED_IDLE ∨
      fw.localData.state = CURRENT_STATE_T.STATE_CONNECTED_MOTION ∨
      fw.localData.state = CURRENT_STATE_T.STATE_CONNECTED_AUDIO then
    if event_data.status = sm_pairing_status.sys_status_success then
      let fw1 : Firmware :=
        { fw with
          localData := { fw.localData with bonded := true, bonded_bd_addr := event_data.bd_addr } }
      -- store bonded host typed bd address to NVM
      let fw2 := fw1.call
        (SdkCall.Nvm_Write [if fw1.localData.bonded = true then 1 else 0] NVM_OFFSET_BONDED_FLAG)
      let fw3 := fw2.call
        (SdkCall.Nvm_Write_TYPED_BD_ADDR_T fw2.localData.bonded_bd_addr NVM_OFFSET_BONDED_ADDR)
      -- white list is configured with the bonded host address
      let fw4 := AppUpdateWhiteList fw3
      -- send an updated battery level to the remote device
      fw4.call (SdkCall.BatteryUpdateLevel fw4.localData.st_ucid)
    else if event_data.status = sm_pairing_status.sm_status_repeated_attempts then
      stateSet CURRENT_STATE_T.STATE_DISCONNECTING fw
    else if fw.localData.bonded = true then
      let fw1 : Firmware := { fw with localData.encrypt_enabled := false }
      let created := TimerCreate TIMER_PERIOD.BONDING_CHANCE_TIMER true
        TIMER_HANDLER.handleBondingChanceTimerExpiry fw1
      { created.2 with localData.recrypt_tid := created.1 }
    else fw
  else fw

/-- The signal `LS_CONNECTION_PARAM_UPDATE_CFM` (the field the handler
reads). -/
structure LS_CONNECTION_PARAM_UPDATE_CFM_T where
  status : ls_err

/-- Handler of the signal `LS_CONNECTION_PARAM_UPDATE_CFM`. -/
def handleSignalLsConnParamUpdateCfm (event_data : LS_CONNECTION_PARAM_UPDATE_CFM_T)
    (fw : Firmware) : Firmware :=
  if fw.localData.state = CURRENT_STATE_T.STATE_CONNECTED_IDLE ∨
      fw.localData.state = CURRENT_STATE_T.STATE_CONNECTED_MOTION ∨
      fw.localData.state = CURRENT_STATE_T.STATE_CONNECTED_AUDIO then
    if event_data.status ≠ ls_err.ls_err_none ∧
        fw.localData.conn_param_update_count ≤
          fw.gap_conn_params.MAX_NUM_CONN_PARAM_UPDATE_REQS then
      { fw with
        localData :=
          { fw.localData with
            conn_param_update_tick_count := 0
            conn_param_counter_active := true } }
    else fw
  else fw

/-- The signal `LS_CONNECTION_PARAM_UPDATE_IND` (the fields the handler
reads). -/
structure LS_CONNECTION_PARAM_UPDATE_IND_T where
  conn_interval : Nat
  conn_latency : Nat

/-- Handler of the signal `LS_CONNECTION_PARAM_UPDATE_IND`. -/
def handleSignalLsConnParamUpdateInd (p_event_data : LS_CONNECTION_PARAM_UPDATE_IND_T)
    (fw : Firmware) : Firmware :=
  if fw.localData.state = CURRENT_STATE_T.STATE_CONNECTED_IDLE ∨
      fw.localData.state = CURRENT_STATE_T.STATE_CONNECTED_MOTION ∨
      fw.localData.state = CURRENT_STATE_T.STATE_CONNECTED_AUDIO then
    if p_event_data.conn_interval < fw.gap_conn_params.PREFERRED_MIN_CON_INTERVAL ∨
        p_event_data.conn_interval > fw.gap_conn_params.PREFERRED_MAX_CON_INTERVAL ∨
        p_event_data.conn_latency < fw.gap_conn_params.PREFERRED_SLAVE_LATENCY then
      { fw with
        localData :=
          { fw.localData with
            conn_param_update_count := 0
            conn_param_update_tick_count := 0
            conn_param_counter_active := true } }
    else fw
  else fw

/-- The data of the event `LM_EV_CONNECTION_UPDATE` (the fields the handler
reads). -/
structure LM_EV_CONNECTION_UPDATE_T where
  conn_interval : Nat
  conn_latency : Nat
  supervision_timeout : Nat

/-- Handler of the signal `LM_EV_CONNECTION_UPDATE`. -/
def handleConnectionUpdateInd (event_data : LM_EV_CONNECTION_UPDATE_T) (fw : Firmware) :
    Firmware :=
  if fw.localData.state = CURRENT_STATE_T.STATE_CONNECTED_IDLE ∨
      fw.localData.state = CURRENT_STATE_T.STATE_CONNECTED_MOTION ∨
      fw.localData.state = CURRENT_STATE_T.STATE_CONNECTED_AUDIO then
    { fw with
      localData :=
        { fw.localData with
          actual_interval := event_data.conn_interval
          actual_latency := event_data.conn_latency
          actual_timeout := event_data.supervision_timeout } }
  else fw

/-- Handler of the signals `GATT_CHAR_VAL_NOT_CFM` and `GATT_CHAR_VAL_IND_CFM`,
on the application as a whole. -/
def appHandleCharValIndCfm (cfm : GATT_CHAR_VAL_IND_CFM_T) (fw : Firmware) : Firmware :=
  { fw with notifications := handleCharValIndCfm fw.localData cfm fw.notifications }

/-- The call `notificationBufferItem(handle, dataLenInBytes, data)` on the
application as a whole, the result dropped. -/
def appNotificationBufferItem (handle dataLenInBytes : Nat) (data : Nat → Nat)
    (fw : Firmware) : Firmware :=
  { fw with
    notifications :=
      (notificationBufferItem fw.localData handle dataLenInBytes data fw.notifications).2 }

/-! ### What the SDK has been asked to do -/

/-- The whitelist of the controller after one more call: the SDK routine
`LsResetWhiteList` empties it, the SDK routine `LsAddWhiteListDevice` adds an
address to it, and no other call of the application touches it. -/
def whiteListStep (whiteList : List TYPED_BD_ADDR_T) : SdkCall → List TYPED_BD_ADDR_T
  | SdkCall.LsResetWhiteList => []
  | SdkCall.LsAddWhiteListDevice addr => whiteList ++ [addr]
  | _ => whiteList

/-- The whitelist of the controller after a sequence of calls, from the empty
whitelist. -/
def whiteListOf (calls : List SdkCall) : List TYPED_BD_ADDR_T :=
  calls.foldl whiteListStep []

/-- The disconnect requests among a sequence of calls, oldest first, each with
its connection identifier and its reason. -/
def disconnectRequests (calls : List SdkCall) : List (Nat × ls_err) :=
  calls.filterMap fun c =>
    match c with
    | SdkCall.GattDisconnectReasonReq cid reason => some (cid, reason)
    | _ => none

/-- The connection parameter update requests among a sequence of calls. -/
def connParamUpdateRequests (calls : List SdkCall) : List ble_con_params :=
  calls.filterMap fun c =>
    match c with
    | SdkCall.LsConnectionParamUpdateReq _ conn_params => some conn_params
    | _ => none

/-- The four persisted fields of the bonding record are the same in both
session records. -/
def SameBondingRecord (ld ld2 : LOCAL_DATA_T) : Prop :=
  ld2.bonded = ld.bonded ∧ ld2.bonded_bd_addr = ld.bonded_bd_addr ∧
  ld2.central_device_irk = ld.central_device_irk ∧ ld2.diversifier = ld.diversifier

/-- The second session record is the first one up to the fields that the state
machine itself writes: the state, the UCID, the advertising timer, the
idle-disconnect counter, the report timer and the disconnect reason. -/
def SameButStateMachineFields (ld ld2 : LOCAL_DATA_T) : Prop :=
  ∃ (st : CURRENT_STATE_T) (ucid atid dc nrt : Nat) (dr : ls_err),
    ld2 = { ld with
      state := st, st_ucid := ucid, advertising_tid := atid, disconnect_counter := dc,
      next_report_timer_id := nrt, disconnect_reason := dr }

/-- The nine states that the application rests in. -/
def IsDefinedState (st : CURRENT_STATE_T) : Prop :=
  st = CURRENT_STATE_T.STATE_INIT ∨ st = CURRENT_STATE_T.STATE_DIRECT_ADVERT ∨
  st = CURRENT_STATE_T.STATE_FAST_ADVERT ∨ st = CURRENT_STATE_T.STATE_SLOW_ADVERT ∨
  st = CURRENT_STATE_T.STATE_CONNECTED_IDLE ∨ st = CURRENT_STATE_T.STATE_CONNECTED_MOTION ∨
  st = CURRENT_STATE_T.STATE_CONNECTED_AUDIO ∨ st = CURRENT_STATE_T.STATE_DISCONNECTING ∨
  st = CURRENT_STATE_T.STATE_IDLE

instance (st : CURRENT_STATE_T) : Decidable (IsDefinedState st) := by
  unfold IsDefinedState
  infer_instance

/-! ## Sequences of engine operations -/

/-- One call of the engine's interface, with the arguments of the call. -/
inductive EngineOp where
  | bufferItem (handle dataLenInBytes : Nat) (data : Nat → Nat)
  | forceBufferItem (handle dataLenInBytes : Nat) (data : Nat → Nat)
  | sendNext
  | dropAll
  | registerResult (transmitSucceeded : Bool)

/-- Whether the call is `notificationRegisterResult`. -/
def EngineOp.isRegisterResult : EngineOp → Bool
  | EngineOp.registerResult _ => true
  | _ => false

/-- The engine after one call, made while the session record is `localData`. -/
def applyOp (localData : LOCAL_DATA_T) : EngineOp → NotificationModule → NotificationModule
  | EngineOp.bufferItem handle len data, s => (notificationBufferItem localData handle len data s).2
  | EngineOp.forceBufferItem handle len data, s =>
      (notificationForceBufferItem localData handle len data s).2
  | EngineOp.sendNext, s => notificationSendNext localData s
  | EngineOp.dropAll, s => notificationDropAll s
  | EngineOp.registerResult transmitSucceeded, s => notificationRegisterResult transmitSucceeded s

/-- The engine after a sequence of calls, each made under its own session
record (other modules change `blockNotifications` between calls). The result is
`none` when the sequence delivers a transmission result while no transmission
is outstanding: the link layer produces no such sequence. -/
def runOps : List (LOCAL_DATA_T × EngineOp) → NotificationModule → Option NotificationModule
  | [], s => some s
  | (localData, op) :: rest, s =>
      if op.isRegisterResult = true ∧ s.currentState ≠ NOTIFICATION_STATE.NOTIFICATION_OUTSTANDING
      then none
      else runOps rest (applyOp localData op s)

/-- The engine after a sequence of calls none of which is checked. -/
def applyOps : List (LOCAL_DATA_T × EngineOp) → NotificationModule → NotificationModule
  | [], s => s
  | (localData, op) :: rest, s => applyOps rest (applyOp localData op s)

/-- Number of transmission results registered by a sequence of calls. -/
def resultsRegistered (ops : List (LOCAL_DATA_T × EngineOp)) : Nat :=
  (ops.filter (fun p => p.2.isRegisterResult)).length

/-- A request to enqueue: the arguments of `notificationBufferItem`. -/
structure EnqueueRequest where
  handle : Nat
  dataLenInBytes : Nat
  data : Nat → Nat

/-- The first `len` words found at a pointer. -/
def payloadBytes (value : Nat → Nat) (len : Nat) : List Nat :=
  (List.range len).map value

/-- What a request asks to deliver: handle, length and payload bytes. -/
def EnqueueRequest.content (q : EnqueueRequest) : Nat × Nat × List Nat :=
  (q.handle, q.dataLenInBytes, payloadBytes q.data q.dataLenInBytes)

/-- What a transmission delivers: handle, length and payload bytes. -/
def GattCharValueNotification.content (t : GattCharValueNotification) : Nat × Nat × List Nat :=
  (t.handle, t.size_value, payloadBytes t.value t.size_value)

/-- What a buffered item holds: handle, length and payload bytes. -/
def NOTIFICATION_ITEM.content (it : NOTIFICATION_ITEM) : Nat × Nat × List Nat :=
  (it.handle, it.dataLenInBytes, payloadBytes it.notification it.dataLenInBytes)

/-- The contents of the buffered items, from the read position up to the write
position around the ring: oldest first. -/
def pendingContents (s : NotificationModule) : List (Nat × Nat × List Nat) :=
  (List.range (NUM_BUFFERED_ITEMS s.notificationReadPosition s.notificationWritePosition)).map
    (fun j => (s.notificationBuffer ((s.notificationReadPosition + j) % 20)).content)

/-- Enqueue the requests in order with `notificationBufferItem`. -/
def enqueueAll (localData : LOCAL_DATA_T) :
    List EnqueueRequest → NotificationModule → NotificationModule
  | [], s => s
  | q :: rest, s =>
      enqueueAll localData rest
        (notificationBufferItem localData q.handle q.dataLenInBytes q.data s).2

/-- Handle `n` transmission-result signals in a row, each reporting success. -/
def confirmAll (localData : LOCAL_DATA_T) : Nat → NotificationModule → NotificationModule
  | 0, s => s
  | n + 1, s =>
      confirmAll localData n (handleCharValIndCfm localData { result := sys_status_success } s)

/-- Both cursors index the notification array. -/
def CursorsInRange (s : NotificationModule) : Prop :=
  s.notificationReadPosition < MAX_BUFFERED_NOTIFICATIONS ∧
  s.notificationWritePosition < MAX_BUFFERED_NOTIFICATIONS

/-- Whether the payload of the call fits the payload array of an item: the
length of an enqueue is at most `MAX_NOTIFICATION_DATA_LEN_BYTES`. The other
calls carry no payload. -/
def EngineOp.fitsPayload : EngineOp → Bool
  | EngineOp.bufferItem _ dataLenInBytes _ =>
      decide (dataLenInBytes ≤ MAX_NOTIFICATION_DATA_LEN_BYTES)
  | EngineOp.forceBufferItem _ dataLenInBytes _ =>
      decide (dataLenInBytes ≤ MAX_NOTIFICATION_DATA_LEN_BYTES)
  | _ => true

/-- Whether the call is `notificationBufferItem`, `notificationForceBufferItem`
or `notificationDropAll`. -/
def EngineOp.isEnqueueOrDropAll : EngineOp → Bool
  | EngineOp.bufferItem _ _ _ => true
  | EngineOp.forceBufferItem _ _ _ => true
  | EngineOp.dropAll => true
  | _ => false

/-- The ring buffer is well formed: both cursors index the array, and the item
of an outstanding transmission is in the buffer. -/
def RingWellFormed (s : NotificationModule) : Prop :=
  CursorsInRange s ∧
  (s.currentState = NOTIFICATION_STATE.NOTIFICATION_OUTSTANDING →
    NUM_BUFFERED_ITEMS s.notificationReadPosition s.notificationWritePosition > 0)

/-! ## Sequences of operations of the application -/

/-- One operation on the application that is not the registration of a
transmission result: a request to the state machine, the handling of a
disconnect-complete event or of a connect confirmation, or a call of the
interface of the engine other than `notificationRegisterResult`. -/
inductive AppOp where
  | stateSet (new_state : CURRENT_STATE_T)
  | handleSignalLmEvDisconnectComplete (p_event_data : HCI_EV_DATA_DISCONNECT_COMPLETE_T)
  | handleSignalGattConnectCfm (event_data : GATT_CONNECT_CFM_T)
  | notificationBufferItem (handle dataLenInBytes : Nat) (data : Nat → Nat)
  | notificationForceBufferItem (handle dataLenInBytes : Nat) (data : Nat → Nat)
  | notificationSendNext
  | notificationDropAll

/-- The application after one operation. -/
def applyAppOp : AppOp → Firmware → Firmware
  | AppOp.stateSet new_state, fw => stateSet new_state fw
  | AppOp.handleSignalLmEvDisconnectComplete p_event_data, fw =>
      handleSignalLmEvDisconnectComplete p_event_data fw
  | AppOp.handleSignalGattConnectCfm event_data, fw => handleSignalGattConnectCfm event_data fw
  | AppOp.notificationBufferItem handle len data, fw =>
      appNotificationBufferItem handle len data fw
  | AppOp.notificationForceBufferItem handle len data, fw =>
      { fw with
        notifications :=
          (notificationForceBufferItem fw.localData handle len data fw.notifications).2 }
  | AppOp.notificationSendNext, fw =>
      { fw with notifications := notificationSendNext fw.localData fw.notifications }
  | AppOp.notificationDropAll, fw =>
      { fw with notifications := notificationDropAll fw.notifications }

/-- The application after a sequence of operations. -/
def applyAppOps : List AppOp → Firmware → Firmware
  | [], fw => fw
  | op :: rest, fw => applyAppOps rest (applyAppOp op fw)

/-! ## Example states -/

/-- An engine with two buffered items (slots 0 and 1), the first of them in
flight. -/
def exampleBusy : NotificationModule :=
  { initialModule with
    notificationWritePosition := 2
    currentState := NOTIFICATION_STATE.NOTIFICATION_OUTSTANDING }

/-- An idle engine with 19 buffered items (slots 0 to 18): one slot is free. -/
def exampleLastSlot : NotificationModule :=
  { initialModule with notificationWritePosition := 19 }

/-- An unblocked session record. -/
def exampleLocalData : LOCAL_DATA_T := { st_ucid := 1, blockNotifications := false }

/-- A two-byte key report. -/
def exampleReport : Nat → Nat := fun i => if i = 0 then 0x23 else 0x02

/-- Two enqueues, a success result, a send. -/
def exampleOps : List (LOCAL_DATA_T × EngineOp) :=
  [(exampleLocalData, EngineOp.bufferItem 7 2 exampleReport),
   (exampleLocalData, EngineOp.bufferItem 7 2 exampleReport),
   (exampleLocalData, EngineOp.registerResult true),
   (exampleLocalData, EngineOp.sendNext)]

/-- Two requests: a two-byte report and a one-byte report. -/
def exampleRequests : List EnqueueRequest :=
  [{ handle := 7, dataLenInBytes := 2, data := exampleReport },
   { handle := 9, dataLenInBytes := 1, data := exampleReport }]

/-- Preferred connection parameters for the examples. -/
def exampleConnParams : GAP_CONN_PARAMS :=
  { PREFERRED_MAX_CON_INTERVAL := 16, PREFERRED_MIN_CON_INTERVAL := 16,
    PREFERRED_SLAVE_LATENCY := 100, PREFERRED_SUPERVISION_TIMEOUT := 600,
    MAX_NUM_CONN_PARAM_UPDATE_REQS := 2, CONNECTED_IDLE_TIMEOUT_VALUE := 300 * SECOND }

/-- A public address. -/
def examplePublicAddr : TYPED_BD_ADDR_T :=
  { type := 0, addr := { lap := 0x123456, uap := 0x5B, nap := 0x0002 } }

/-- A resolvable random address. -/
def exampleResolvableAddr : TYPED_BD_ADDR_T :=
  { type := 1, addr := { lap := 0x123456, uap := 0x5B, nap := 0x4002 } }

/-- The application connected and idle, bonded to a host with a public
address, with two notifications buffered and none in flight. -/
def exampleConnected : Firmware :=
  { gap_conn_params := exampleConnParams
    localData :=
      { state := CURRENT_STATE_T.STATE_CONNECTED_IDLE, st_ucid := 1, bonded := true,
        bonded_bd_addr := examplePublicAddr, con_bd_addr := examplePublicAddr }
    notifications := { initialModule with notificationWritePosition := 2 } }

/-- The application advertising at the fast rate, bonded to a host that uses a
resolvable random address, while the SDK resolves no address with the stored
IRK. -/
def exampleAdvertising : Firmware :=
  { gap_conn_params := exampleConnParams
    localData :=
      { state := CURRENT_STATE_T.STATE_FAST_ADVERT, st_ucid := GATT_INVALID_UCID,
        bonded := true, bonded_bd_addr := exampleResolvableAddr, blockNotifications := true }
    SMPrivacyMatchAddress := fun _ _ => -1 }

/-- A successful connect confirmation from a resolvable random address. -/
def exampleConnectCfm : GATT_CONNECT_CFM_T :=
  { result := sys_status_success, cid := 3, bd_addr := exampleResolvableAddr }

/-- A disconnect-complete event for a disconnection asked for by the local
host (HCI reason 0x16). -/
def exampleLocalDisconnect : HCI_EV_DATA_DISCONNECT_COMPLETE_T := { reason := 0x16 }

/-- The application transmitting directed advertisements to its bonded host,
after the pairing button was pressed. -/
def exampleDirected : Firmware :=
  { gap_conn_params := exampleConnParams
    localData :=
      { state := CURRENT_STATE_T.STATE_DIRECT_ADVERT, st_ucid := GATT_INVALID_UCID,
        bonded := true, bonded_bd_addr := examplePublicAddr, pairing_button_pressed := true,
        blockNotifications := true } }

/-- The application connected and idle, not bonded, to a host that uses a
resolvable random address. -/
def exampleUnbonded : Firmware :=
  { gap_conn_params := exampleConnParams
    localData :=
      { state := CURRENT_STATE_T.STATE_CONNECTED_IDLE, st_ucid := 1,
        con_bd_addr := exampleResolvableAddr } }

/-- Pairing has completed with a host at a resolvable random address. -/
def examplePairingSuccess : SM_SIMPLE_PAIRING_COMPLETE_IND_T :=
  { status := sm_pairing_status.sys_status_success, bd_addr := exampleResolvableAddr }

/-- Pairing has failed for repeated attempts. -/
def examplePairingRepeated : SM_SIMPLE_PAIRING_COMPLETE_IND_T :=
  { status := sm_pairing_status.sm_status_repeated_attempts, bd_addr := examplePublicAddr }

/-- Pairing has failed for another reason. -/
def examplePairingFailed : SM_SIMPLE_PAIRING_COMPLETE_IND_T :=
  { status := sm_pairing_status.sm_status_other 5, bd_addr := examplePublicAddr }

/-- The state machine in CONNECTED_MOTION, three background ticks after the
last reset of the idle-disconnect counter. -/
def exampleMotion : Firmware :=
  { gap_conn_params := exampleConnParams
    localData :=
      { state := CURRENT_STATE_T.STATE_CONNECTED_MOTION, st_ucid := 1, disconnect_counter := 3 } }

/-- The keys of a pairing: diversifier 7. -/
def exampleKeys : SM_KEYS_IND_T := { keys := { div := 7, irk := fun i => i + 1 } }

/-- A connect request that ended with the timeout of the directed
advertisements. -/
def exampleDirectedTimeout : GATT_CONNECT_CFM_T :=
  { result := HCI_ERROR_DIRECTED_ADVERTISING_TIMEOUT, cid := 0, bd_addr := {} }

/-- The application connected and idle, waiting to update the connection
parameters: the latency of the link is above the preferred one, and no request
has been sent yet. -/
def exampleUpdating : Firmware :=
  { gap_conn_params := exampleConnParams
    localData :=
      { state := CURRENT_STATE_T.STATE_CONNECTED_IDLE, st_ucid := 1, bonded := true,
        bonded_bd_addr := examplePublicAddr, con_bd_addr := examplePublicAddr,
        actual_latency := 101, conn_param_counter_active := true } }

/-- A parameter-update confirmation that reports a failure. -/
def exampleUpdateFailed : LS_CONNECTION_PARAM_UPDATE_CFM_T := { status := ls_err.ls_err_other 1 }

/-- Three background ticks, upon the last of which a waiting application sends
its request, and then the confirmation that the request has failed. -/
def exampleRetryRound (fw : Firmware) : Firmware :=
  handleSignalLsConnParamUpdateCfm exampleUpdateFailed
    (handleBackgroundTickInd (handleBackgroundTickInd (handleBackgroundTickInd fw)))

/-- The application after start-up, not bonded: the session data initialised,
the state INIT. -/
def exampleAfterInit : Firmware := RemoteDataInit { gap_conn_params := exampleConnParams }

/-- The database is registered, the application advertises; a host with a
public address connects, which starts the delay timer of the notifications; a
key report is buffered; the link is lost before the delay timer fires
(disconnect reason 0x3E, connection failed to be established). -/
def exampleLinkLost : Firmware :=
  handleSignalLmEvDisconnectComplete { reason := 0x3E }
    (appNotificationBufferItem 7 2 exampleReport
      (handleSignalGattConnectCfm
        { result := sys_status_success, cid := 3, bd_addr := examplePublicAddr }
        (handleSignalGattAddDBCfm { result := sys_status_success } exampleAfterInit)))

/-- The words of an over-long report: each is 0x55. -/
def exampleLongReport : Nat → Nat := fun _ => 0x55

/-- Two reports are enqueued and transmitted, one after the other, and then 18
reports are enqueued, the first of which is transmitted at once. -/
def exampleWrappedOps : List (LOCAL_DATA_T × EngineOp) :=
  [(exampleLocalData, EngineOp.bufferItem 7 2 exampleReport),
   (exampleLocalData, EngineOp.registerResult true),
   (exampleLocalData, EngineOp.bufferItem 7 2 exampleReport),
   (exampleLocalData, EngineOp.registerResult true)]
  ++ List.replicate 18 (exampleLocalData, EngineOp.bufferItem 7 2 exampleReport)

/-- The engine after `exampleWrappedOps`: the cursors have wrapped. The read
position is 2 and its item is in flight, the write position is 0, the slots 2
to 19 hold the 18 reports and two slots are free. -/
def exampleWrapped : NotificationModule := applyOps exampleWrappedOps initialModule

/-- The engine of `exampleWrapped` after one more report: the write position is
1, the occupancy 19, and one slot is free. -/
def exampleWrappedFull : NotificationModule :=
  (notificationBufferItem exampleLocalData 7 2 exampleReport exampleWrapped).2

/-- The encryption of the link has been enabled. -/
def exampleEncrypted : HCI_EV_DATA_ENCRYPTION_CHANGE_T :=
  { status := sys_status_success, enc_enable := true }

/-- The database is registered, the application advertises; a host with a
public address connects and encrypts the link, which starts the wait for the
update of the connection parameters; then the link is lost (disconnect reason
connection timeout) and the application advertises again. -/
def exampleLinkLostWaiting : Firmware :=
  handleSignalLmEvDisconnectComplete { reason := HCI_ERROR_CONN_TIMEOUT }
    (handleSignalLMEncryptionChange exampleEncrypted
      (handleSignalGattConnectCfm
        { result := sys_status_success, cid := 3, bd_addr := examplePublicAddr }
        (handleSignalGattAddDBCfm { result := sys_status_success } exampleAfterInit)))

/-- An application that has run out of timers. -/
def exampleNoTimer : Firmware := { exampleAdvertising with timerPool := fun _ => TIMER_INVALID }

/-! ## Auxiliary facts -/

/-- On cursors that index the array, the occupancy is the forward distance from
the read cursor to the write cursor around the ring. -/
theorem NUM_BUFFERED_ITEMS_eq_mod (r w : Nat) (hr : r < 20) (hw : w < 20) :
    NUM_BUFFERED_ITEMS r w = (w + 20 - r) % 20 := by
  unfold NUM_BUFFERED_ITEMS uint16_add uint16_sub MAX_BUFFERED_NOTIFICATIONS
  split_ifs <;> omega

theorem land_0xff_of_lt (x : Nat) (h : x < 256) : x &&& 0xff = x := by
  have hmod := Nat.and_pow_two_sub_one_eq_mod x 8
  norm_num at hmod
  rw [hmod]
  exact Nat.mod_eq_of_lt h

@[simp] theorem sendNextNotification_read (ld : LOCAL_DATA_T) (s : NotificationModule) :
    (sendNextNotification ld s).notificationReadPosition = s.notificationReadPosition := by
  unfold sendNextNotification; split_ifs <;> rfl

@[simp] theorem sendNextNotification_write (ld : LOCAL_DATA_T) (s : NotificationModule) :
    (sendNextNotification ld s).notificationWritePosition = s.notificationWritePosition := by
  unfold sendNextNotification; split_ifs <;> rfl

@[simp] theorem sendNextNotification_buffer (ld : LOCAL_DATA_T) (s : NotificationModule) :
    (sendNextNotification ld s).notificationBuffer = s.notificationBuffer := by
  unfold sendNextNotification; split_ifs <;> rfl

@[simp] theorem sendNextNotification_drop (ld : LOCAL_DATA_T) (s : NotificationModule) :
    (sendNextNotification ld s).dropOnNextRegistration = s.dropOnNextRegistration := by
  unfold sendNextNotification; split_ifs <;> rfl

@[simp] theorem notificationSendNext_read (ld : LOCAL_DATA_T) (s : NotificationModule) :
    (notificationSendNext ld s).notificationReadPosition = s.notificationReadPosition := by
  unfold notificationSendNext; split_ifs <;> simp

@[simp] theorem notificationSendNext_write (ld : LOCAL_DATA_T) (s : NotificationModule) :
    (notificationSendNext ld s).notificationWritePosition = s.notificationWritePosition := by
  unfold notificationSendNext; split_ifs <;> simp

@[simp] theorem notificationSendNext_buffer (ld : LOCAL_DATA_T) (s : NotificationModule) :
    (notificationSendNext ld s).notificationBuffer = s.notificationBuffer := by
  unfold notificationSendNext; split_ifs <;> simp

@[simp] theorem notificationSendNext_drop (ld : LOCAL_DATA_T) (s : NotificationModule) :
    (notificationSendNext ld s).dropOnNextRegistration = s.dropOnNextRegistration := by
  unfold notificationSendNext; split_ifs <;> simp

@[simp] theorem notificationBufferRemaining_sendNext (ld : LOCAL_DATA_T) (s : NotificationModule) :
    notificationBufferRemaining (notificationSendNext ld s) = notificationBufferRemaining s := by
  simp [notificationBufferRemaining]

/-- A copy into the buffer leaves alone the items that lie before the item it
starts in, and those that lie after the last word it writes. -/
theorem MemCopyToBuffer_outside (buf : Nat → NOTIFICATION_ITEM) (start : Nat) (src : Nat → Nat)
    (n i : Nat)
    (hi : sizeof_NOTIFICATION_ITEM * i + sizeof_NOTIFICATION_ITEM ≤ start ∨
      start + n ≤ sizeof_NOTIFICATION_ITEM * i) :
    MemCopyToBuffer buf start src n i = buf i := by
  unfold sizeof_NOTIFICATION_ITEM MAX_NOTIFICATION_DATA_LEN_BYTES at hi
  unfold MemCopyToBuffer sizeof_NOTIFICATION_ITEM MAX_NOTIFICATION_DATA_LEN_BYTES
  simp only []
  have h0 : ¬ (start ≤ (2 + 20) * i + 0 ∧ (2 + 20) * i + 0 < start + n) := by omega
  have h1 : ¬ (start ≤ (2 + 20) * i + 1 ∧ (2 + 20) * i + 1 < start + n) := by omega
  rw [if_neg h0, if_neg h1]
  have hn : (fun j => if j < 20 then
      (if start ≤ (2 + 20) * i + (2 + j) ∧ (2 + 20) * i + (2 + j) < start + n then
        src ((2 + 20) * i + (2 + j) - start)
      else (buf i).notification j)
      else (buf i).notification j) = (buf i).notification := by
    funext j
    by_cases hj : j < 20
    · have h2 : ¬ (start ≤ (2 + 20) * i + (2 + j) ∧ (2 + 20) * i + (2 + j) < start + n) := by
        omega
      rw [if_pos hj, if_neg h2]
    · rw [if_neg hj]
  rw [hn]

/-- The payload array of the item in which a copy into the buffer starts, when
the copy starts at element 0 and fits the array. -/
theorem MemCopyToBuffer_inside (buf : Nat → NOTIFICATION_ITEM) (pos : Nat) (src : Nat → Nat)
    (n : Nat) (hn : n ≤ MAX_NOTIFICATION_DATA_LEN_BYTES) :
    MemCopyToBuffer buf (sizeof_NOTIFICATION_ITEM * pos + 2) src n pos
      = { buf pos with notification := MemCopy (buf pos).notification src n } := by
  unfold MAX_NOTIFICATION_DATA_LEN_BYTES at hn
  unfold MemCopyToBuffer MemCopy sizeof_NOTIFICATION_ITEM MAX_NOTIFICATION_DATA_LEN_BYTES
  simp only []
  have h0 : ¬ ((2 + 20) * pos + 2 ≤ (2 + 20) * pos + 0 ∧
      (2 + 20) * pos + 0 < (2 + 20) * pos + 2 + n) := by omega
  have h1 : ¬ ((2 + 20) * pos + 2 ≤ (2 + 20) * pos + 1 ∧
      (2 + 20) * pos + 1 < (2 + 20) * pos + 2 + n) := by omega
  rw [if_neg h0, if_neg h1]
  congr 1
  funext j
  by_cases hj : j < n
  · have hj20 : j < 20 := by omega
    have h2 : (2 + 20) * pos + 2 ≤ (2 + 20) * pos + (2 + j) ∧
        (2 + 20) * pos + (2 + j) < (2 + 20) * pos + 2 + n := by omega
    have h3 : (2 + 20) * pos + (2 + j) - ((2 + 20) * pos + 2) = j := by omega
    rw [if_pos hj20, if_pos h2, h3, if_pos hj]
  · have h2 : ¬ ((2 + 20) * pos + 2 ≤ (2 + 20) * pos + (2 + j) ∧
        (2 + 20) * pos + (2 + j) < (2 + 20) * pos + 2 + n) := by omega
    rw [if_neg hj]
    by_cases hj20 : j < 20
    · rw [if_pos hj20, if_neg h2]
    · rw [if_neg hj20]

/-- A store whose payload fits the payload array writes the item at `pos` and
no other item. -/
theorem copyNotification_of_le (buf : Nat → NOTIFICATION_ITEM) (pos handle len : Nat)
    (data : Nat → Nat) (hlen : len ≤ MAX_NOTIFICATION_DATA_LEN_BYTES) :
    copyNotification buf pos handle len data
      = Function.update buf pos (storedItem (buf pos) handle len data) := by
  unfold copyNotification storedItem
  simp only []
  by_cases h1 : len > 1
  · rw [if_pos h1, if_pos h1]
    funext i
    by_cases hi : i = pos
    · rw [hi, MemCopyToBuffer_inside _ _ _ _ hlen, Function.update_same, Function.update_same]
    · rw [Function.update_noteq hi, MemCopyToBuffer_outside, Function.update_noteq hi]
      unfold MAX_NOTIFICATION_DATA_LEN_BYTES at hlen
      unfold sizeof_NOTIFICATION_ITEM MAX_NOTIFICATION_DATA_LEN_BYTES
      omega
  · rw [if_neg h1, if_neg h1, Function.update_same, Function.update_idem]

/-- The payload words left in a slot by the store are those of the caller, as
long as the caller's words are bytes. -/
theorem storedItem_payload (old : NOTIFICATION_ITEM) (handle len : Nat) (data : Nat → Nat)
    (hbytes : ∀ i, i < len → data i < 256) (i : Nat) (hi : i < len) :
    (storedItem old handle len data).notification i = data i := by
  unfold storedItem MemCopy
  by_cases h1 : len > 1
  · simp [h1, hi]
  · have hi0 : i = 0 := by omega
    subst hi0
    simp [h1, land_0xff_of_lt _ (hbytes 0 hi)]

/-- The send goes through when the engine is quiet, unblocked and non-empty. -/
theorem notificationSendNext_of_gate (localData : LOCAL_DATA_T) (s : NotificationModule)
    (hq : s.currentState = NOTIFICATION_STATE.ALL_QUIET)
    (hb : localData.blockNotifications = false)
    (hn : NUM_BUFFERED_ITEMS s.notificationReadPosition s.notificationWritePosition > 0) :
    notificationSendNext localData s =
      { s with
        gattCharValueNotifications := s.gattCharValueNotifications ++
          [{ cid := localData.st_ucid
             handle := (s.notificationBuffer s.notificationReadPosition).handle
             size_value := (s.notificationBuffer s.notificationReadPosition).dataLenInBytes
             value := (s.notificationBuffer s.notificationReadPosition).notification }]
        currentState := NOTIFICATION_STATE.NOTIFICATION_OUTSTANDING } := by
  simp [notificationSendNext, sendNextNotification, hq, hb, hn]

/-- The send does nothing when the engine is busy, blocked or empty. -/
theorem notificationSendNext_of_not_gate (localData : LOCAL_DATA_T) (s : NotificationModule)
    (hgate : ¬ (s.currentState = NOTIFICATION_STATE.ALL_QUIET ∧
        localData.blockNotifications = false ∧
        NUM_BUFFERED_ITEMS s.notificationReadPosition s.notificationWritePosition > 0)) :
    notificationSendNext localData s = s := by
  unfold notificationSendNext sendNextNotification
  split_ifs with h1 h2
  · exact absurd ⟨h1.1, h1.2, h2.2⟩ hgate
  · rfl
  · rfl

/-- A send either changes nothing or turns a quiet engine into a busy one with
one more transmission. -/
theorem notificationSendNext_cases (localData : LOCAL_DATA_T) (s : NotificationModule) :
    ((notificationSendNext localData s).currentState = s.currentState ∧
      (notificationSendNext localData s).gattCharValueNotifications
        = s.gattCharValueNotifications) ∨
    (s.currentState = NOTIFICATION_STATE.ALL_QUIET ∧
      (notificationSendNext localData s).currentState
        = NOTIFICATION_STATE.NOTIFICATION_OUTSTANDING ∧
      ∃ t, (notificationSendNext localData s).gattCharValueNotifications
        = s.gattCharValueNotifications ++ [t]) := by
  by_cases hgate : s.currentState = NOTIFICATION_STATE.ALL_QUIET ∧
      localData.blockNotifications = false ∧
      NUM_BUFFERED_ITEMS s.notificationReadPosition s.notificationWritePosition > 0
  · right
    rw [notificationSendNext_of_gate localData s hgate.1 hgate.2.1 hgate.2.2]
    exact ⟨hgate.1, rfl, _, rfl⟩
  · left
    rw [notificationSendNext_of_not_gate localData s hgate]
    exact ⟨rfl, rfl⟩

/-- The enqueue ends with a send from a state that differs from the initial one
only in the buffer and the write cursor. -/
theorem bufferItem_snd (localData : LOCAL_DATA_T) (handle len : Nat) (data : Nat → Nat)
    (force : Bool) (s : NotificationModule) :
    ∃ s2, (bufferItem localData handle len data force s).2 = notificationSendNext localData s2 ∧
      s2.currentState = s.currentState ∧
      s2.gattCharValueNotifications = s.gattCharValueNotifications ∧
      s2.dropOnNextRegistration = s.dropOnNextRegistration ∧
      s2.notificationReadPosition = s.notificationReadPosition := by
  unfold bufferItem
  simp only []
  split_ifs <;> exact ⟨_, rfl, rfl, rfl, rfl, rfl⟩

/-- Registering a result leaves the engine quiet and issues nothing. -/
theorem notificationRegisterResult_quiet (b : Bool) (s : NotificationModule) :
    (notificationRegisterResult b s).currentState = NOTIFICATION_STATE.ALL_QUIET ∧
    (notificationRegisterResult b s).gattCharValueNotifications
      = s.gattCharValueNotifications := by
  unfold notificationRegisterResult notificationDropAll
  simp only []
  split_ifs <;> exact ⟨rfl, rfl⟩

/-- Registering a result while a deferred drop is pending empties the buffer
and clears the flag. -/
theorem notificationRegisterResult_of_drop (b : Bool) (s : NotificationModule)
    (hdrop : s.dropOnNextRegistration = true) :
    (notificationRegisterResult b s).notificationReadPosition = 0 ∧
    (notificationRegisterResult b s).notificationWritePosition = 0 ∧
    (notificationRegisterResult b s).dropOnNextRegistration = false ∧
    (notificationRegisterResult b s).currentState = NOTIFICATION_STATE.ALL_QUIET ∧
    (notificationRegisterResult b s).gattCharValueNotifications
      = s.gattCharValueNotifications := by
  cases b <;> simp [notificationRegisterResult, notificationDropAll, hdrop]

/-- A call other than the registration of a result either keeps the module
state and the transmissions, or turns a quiet engine into a busy one with one
more transmission. -/
theorem applyOp_cases (localData : LOCAL_DATA_T) (op : EngineOp) (s : NotificationModule)
    (hop : op.isRegisterResult = false) :
    ((applyOp localData op s).currentState = s.currentState ∧
      (applyOp localData op s).gattCharValueNotifications = s.gattCharValueNotifications) ∨
    (s.currentState = NOTIFICATION_STATE.ALL_QUIET ∧
      (applyOp localData op s).currentState = NOTIFICATION_STATE.NOTIFICATION_OUTSTANDING ∧
      ∃ t, (applyOp localData op s).gattCharValueNotifications
        = s.gattCharValueNotifications ++ [t]) := by
  cases op with
  | bufferItem handle len data =>
    obtain ⟨s2, h2, hc, hg, _, _⟩ := bufferItem_snd localData handle len data false s
    simp only [applyOp, notificationBufferItem, h2]
    rw [← hc, ← hg]
    exact notificationSendNext_cases localData s2
  | forceBufferItem handle len data =>
    obtain ⟨s2, h2, hc, hg, _, _⟩ := bufferItem_snd localData handle len data true s
    simp only [applyOp, notificationForceBufferItem, h2]
    rw [← hc, ← hg]
    exact notificationSendNext_cases localData s2
  | sendNext => exact notificationSendNext_cases localData s
  | dropAll =>
    left
    simp only [applyOp, notificationDropAll]
    split_ifs <;> exact ⟨rfl, rfl⟩
  | registerResult b => simp [EngineOp.isRegisterResult] at hop

/-- A call other than the registration of a result keeps a pending deferred
drop pending. -/
theorem applyOp_drop (localData : LOCAL_DATA_T) (op : EngineOp) (s : NotificationModule)
    (hop : op.isRegisterResult = false) (hdrop : s.dropOnNextRegistration = true) :
    (applyOp localData op s).dropOnNextRegistration = true := by
  cases op with
  | bufferItem handle len data =>
    obtain ⟨s2, h2, _, _, hd, _⟩ := bufferItem_snd localData handle len data false s
    simp only [applyOp, notificationBufferItem, h2, notificationSendNext_drop, hd, hdrop]
  | forceBufferItem handle len data =>
    obtain ⟨s2, h2, _, _, hd, _⟩ := bufferItem_snd localData handle len data true s
    simp only [applyOp, notificationForceBufferItem, h2, notificationSendNext_drop, hd, hdrop]
  | sendNext => simp only [applyOp, notificationSendNext_drop, hdrop]
  | dropAll =>
    simp only [applyOp, notificationDropAll]
    split_ifs
    · exact hdrop
    · rfl
  | registerResult b => simp [EngineOp.isRegisterResult] at hop

/-- Along a run, the transmissions issued are the results registered, plus one
exactly when a transmission is outstanding. -/
theorem runOps_count (ops : List (LOCAL_DATA_T × EngineOp)) :
    ∀ (s s' : NotificationModule) (n : Nat), runOps ops s = some s' →
      s.gattCharValueNotifications.length
        = n + (if s.currentState = NOTIFICATION_STATE.NOTIFICATION_OUTSTANDING then 1 else 0) →
      s'.gattCharValueNotifications.length
        = n + resultsRegistered ops +
          (if s'.currentState = NOTIFICATION_STATE.NOTIFICATION_OUTSTANDING then 1 else 0) := by
  induction ops with
  | nil =>
    intro s s' n hrun hinv
    simp only [runOps, Option.some.injEq] at hrun
    subst hrun
    simpa [resultsRegistered] using hinv
  | cons p rest ih =>
    obtain ⟨ld, op⟩ := p
    intro s s' n hrun hinv
    unfold runOps at hrun
    split_ifs at hrun with hbad
    cases hop : op.isRegisterResult with
    | true =>
      have hout : s.currentState = NOTIFICATION_STATE.NOTIFICATION_OUTSTANDING := by
        by_contra hne
        exact hbad ⟨hop, hne⟩
      have hreg : resultsRegistered ((ld, op) :: rest) = resultsRegistered rest + 1 := by
        simp [resultsRegistered, hop]
      cases op with
      | registerResult b =>
        obtain ⟨hq, hg⟩ := notificationRegisterResult_quiet b s
        have hinv2 : (applyOp ld (EngineOp.registerResult b) s).gattCharValueNotifications.length
            = (n + 1) + (if (applyOp ld (EngineOp.registerResult b) s).currentState
                = NOTIFICATION_STATE.NOTIFICATION_OUTSTANDING then 1 else 0) := by
          simp only [applyOp, hq, hg, hinv, hout]
          simp
        have := ih _ s' (n + 1) hrun hinv2
        rw [this, hreg]
        omega
      | bufferItem _ _ _ => simp [EngineOp.isRegisterResult] at hop
      | forceBufferItem _ _ _ => simp [EngineOp.isRegisterResult] at hop
      | sendNext => simp [EngineOp.isRegisterResult] at hop
      | dropAll => simp [EngineOp.isRegisterResult] at hop
    | false =>
      have hreg : resultsRegistered ((ld, op) :: rest) = resultsRegistered rest := by
        simp [resultsRegistered, hop]
      have hinv2 : (applyOp ld op s).gattCharValueNotifications.length
          = n + (if (applyOp ld op s).currentState
              = NOTIFICATION_STATE.NOTIFICATION_OUTSTANDING then 1 else 0) := by
        rcases applyOp_cases ld op s hop with ⟨hc, hg⟩ | ⟨hq, hc, t, hg⟩
        · rw [hc, hg]; exact hinv
        · rw [hc, hg]
          simp only [hq] at hinv
          simp at hinv
          simp [hinv]
      have := ih _ s' n hrun hinv2
      rw [this, hreg]

/-- Calls other than the registration of a result keep a busy engine with a
deferred drop pending as it is: busy, the drop pending, nothing issued. -/
theorem applyOps_busy_drop (ops : List (LOCAL_DATA_T × EngineOp)) :
    ∀ s : NotificationModule, (∀ p ∈ ops, p.2.isRegisterResult = false) →
      s.currentState = NOTIFICATION_STATE.NOTIFICATION_OUTSTANDING →
      s.dropOnNextRegistration = true →
      (applyOps ops s).currentState = NOTIFICATION_STATE.NOTIFICATION_OUTSTANDING ∧
      (applyOps ops s).dropOnNextRegistration = true ∧
      (applyOps ops s).gattCharValueNotifications = s.gattCharValueNotifications := by
  induction ops with
  | nil =>
    intro s _ hout hdrop
    exact ⟨hout, hdrop, rfl⟩
  | cons p rest ih =>
    obtain ⟨ld, op⟩ := p
    intro s hops hout hdrop
    have hop : op.isRegisterResult = false := hops (ld, op) (List.mem_cons_self _ _)
    have hrest : ∀ p ∈ rest, p.2.isRegisterResult = false :=
      fun p hp => hops p (List.mem_cons_of_mem _ hp)
    have hd := applyOp_drop ld op s hop hdrop
    rcases applyOp_cases ld op s hop with ⟨hc, hg⟩ | ⟨hq, _, _⟩
    · obtain ⟨h1, h2, h3⟩ := ih (applyOp ld op s) hrest (hc.trans hout) hd
      exact ⟨h1, h2, h3.trans hg⟩
    · rw [hout] at hq
      exact absurd hq (by decide)

/-! ### The buffered contents as a queue -/

@[simp] theorem pendingContents_sendNext (ld : LOCAL_DATA_T) (s : NotificationModule) :
    pendingContents (notificationSendNext ld s) = pendingContents s := by
  simp [pendingContents]

theorem pendingContents_length (s : NotificationModule) :
    (pendingContents s).length
      = NUM_BUFFERED_ITEMS s.notificationReadPosition s.notificationWritePosition := by
  simp [pendingContents]

/-- The oldest buffered content is that of the slot at the read position. -/
theorem pendingContents_cons (s : NotificationModule) (hs : CursorsInRange s)
    (v : Nat × Nat × List Nat) (pend : List (Nat × Nat × List Nat))
    (h : pendingContents s = v :: pend) :
    v = (s.notificationBuffer s.notificationReadPosition).content ∧
    NUM_BUFFERED_ITEMS s.notificationReadPosition s.notificationWritePosition
      = pend.length + 1 ∧
    pend = (List.range pend.length).map
      (fun j => (s.notificationBuffer ((s.notificationReadPosition + (j + 1)) % 20)).content) := by
  have hlen := pendingContents_length s
  rw [h] at hlen
  simp only [List.length_cons] at hlen
  have hr : s.notificationReadPosition % 20 = s.notificationReadPosition :=
    Nat.mod_eq_of_lt hs.1
  unfold pendingContents at h
  rw [← hlen, List.range_succ_eq_map, List.map_cons, List.map_map] at h
  simp only [List.cons.injEq, Nat.add_zero, hr] at h
  exact ⟨h.1.symm, hlen.symm, h.2.symm⟩

/-- The content stored by the copy is the content requested. -/
theorem storedItem_content (old : NOTIFICATION_ITEM) (q : EnqueueRequest)
    (hbytes : ∀ i, i < q.dataLenInBytes → q.data i < 256) :
    (storedItem old q.handle q.dataLenInBytes q.data).content = q.content := by
  have hp : payloadBytes (storedItem old q.handle q.dataLenInBytes q.data).notification
      q.dataLenInBytes = payloadBytes q.data q.dataLenInBytes := by
    unfold payloadBytes
    apply List.map_congr_left
    intro i hi
    exact storedItem_payload old q.handle q.dataLenInBytes q.data hbytes i
      (List.mem_range.mp hi)
  unfold NOTIFICATION_ITEM.content EnqueueRequest.content
  rw [show (storedItem old q.handle q.dataLenInBytes q.data).dataLenInBytes
      = q.dataLenInBytes from rfl, hp]
  rfl

/-- A plain enqueue with two free slots or more puts the requested content at
the back of the queue. -/
theorem notificationBufferItem_pending (ld : LOCAL_DATA_T) (q : EnqueueRequest)
    (s : NotificationModule) (hs : CursorsInRange s)
    (hroom : NUM_BUFFERED_ITEMS s.notificationReadPosition s.notificationWritePosition + 1 ≤ 19)
    (hlen : q.dataLenInBytes ≤ MAX_NOTIFICATION_DATA_LEN_BYTES)
    (hbytes : ∀ i, i < q.dataLenInBytes → q.data i < 256) :
    ∃ s2 : NotificationModule,
      (notificationBufferItem ld q.handle q.dataLenInBytes q.data s).2
        = notificationSendNext ld s2 ∧
      CursorsInRange s2 ∧
      s2.notificationReadPosition = s.notificationReadPosition ∧
      s2.currentState = s.currentState ∧
      s2.dropOnNextRegistration = s.dropOnNextRegistration ∧
      s2.gattCharValueNotifications = s.gattCharValueNotifications ∧
      NUM_BUFFERED_ITEMS s2.notificationReadPosition s2.notificationWritePosition
        = NUM_BUFFERED_ITEMS s.notificationReadPosition s.notificationWritePosition + 1 ∧
      pendingContents s2 = pendingContents s ++ [q.content] := by
  obtain ⟨hr, hw⟩ := hs
  unfold MAX_BUFFERED_NOTIFICATIONS at hr hw
  have hnum := NUM_BUFFERED_ITEMS_eq_mod _ _ hr hw
  have hgt : notificationBufferRemaining s > 1 := by
    unfold notificationBufferRemaining uint16_sub MAX_BUFFERED_NOTIFICATIONS
    omega
  have hnle : ¬ notificationBufferRemaining s ≤ 1 := by omega
  have hnext : SET_NEXT_POSITION s.notificationWritePosition
      = (s.notificationWritePosition + 1) % 20 := by
    unfold SET_NEXT_POSITION MAX_BUFFERED_NOTIFICATIONS
    split_ifs <;> omega
  have hnext_lt : SET_NEXT_POSITION s.notificationWritePosition < 20 := by
    rw [hnext]; omega
  have hnum2 : NUM_BUFFERED_ITEMS s.notificationReadPosition
      (SET_NEXT_POSITION s.notificationWritePosition)
      = NUM_BUFFERED_ITEMS s.notificationReadPosition s.notificationWritePosition + 1 := by
    rw [NUM_BUFFERED_ITEMS_eq_mod _ _ hr hnext_lt, hnext, hnum]
    rw [hnum] at hroom
    omega
  refine ⟨{ s with
      notificationBuffer := copyNotification s.notificationBuffer s.notificationWritePosition
        q.handle q.dataLenInBytes q.data
      notificationWritePosition := SET_NEXT_POSITION s.notificationWritePosition }, ?_, ?_,
    rfl, rfl, rfl, rfl, hnum2, ?_⟩
  · simp [notificationBufferItem, bufferItem, hnle, hgt]
  · exact ⟨hr, hnext_lt⟩
  · unfold pendingContents
    simp only []
    rw [hnum2, List.range_succ, List.map_append, List.map_singleton,
      copyNotification_of_le _ _ _ _ _ hlen]
    congr 1
    · apply List.map_congr_left
      intro j hj
      have hj' := List.mem_range.mp hj
      have hne : (s.notificationReadPosition + j) % 20 ≠ s.notificationWritePosition := by
        rw [hnum] at hj' hroom
        omega
      rw [Function.update_noteq hne]
    · have heq : (s.notificationReadPosition +
          NUM_BUFFERED_ITEMS s.notificationReadPosition s.notificationWritePosition) % 20
          = s.notificationWritePosition := by
        rw [hnum]; omega
      rw [heq, Function.update_same, storedItem_content _ q hbytes]

/-- A success result pops the oldest content off the queue and, when the
session record does not block notifications, transmits the next one if there
is one. -/
theorem handleCharValIndCfm_success_pending (ld : LOCAL_DATA_T)
    (hb : ld.blockNotifications = false) (s : NotificationModule) (hs : CursorsInRange s)
    (hdrop : s.dropOnNextRegistration = false)
    (v : Nat × Nat × List Nat) (pend : List (Nat × Nat × List Nat))
    (h : pendingContents s = v :: pend) :
    CursorsInRange (handleCharValIndCfm ld { result := sys_status_success } s) ∧
    (handleCharValIndCfm ld { result := sys_status_success } s).dropOnNextRegistration = false ∧
    pendingContents (handleCharValIndCfm ld { result := sys_status_success } s) = pend ∧
    (pend = [] →
      (handleCharValIndCfm ld { result := sys_status_success } s).currentState
        = NOTIFICATION_STATE.ALL_QUIET ∧
      (handleCharValIndCfm ld { result := sys_status_success } s).gattCharValueNotifications
        = s.gattCharValueNotifications) ∧
    (∀ v2 pend2, pend = v2 :: pend2 →
      ∃ t, (handleCharValIndCfm ld { result := sys_status_success }
          s).gattCharValueNotifications = s.gattCharValueNotifications ++ [t] ∧
        t.content = v2) := by
  obtain ⟨_, hnum, hpend⟩ := pendingContents_cons s hs v pend h
  obtain ⟨hr, hw⟩ := hs
  unfold MAX_BUFFERED_NOTIFICATIONS at hr hw
  have hnext : SET_NEXT_POSITION s.notificationReadPosition
      = (s.notificationReadPosition + 1) % 20 := by
    unfold SET_NEXT_POSITION MAX_BUFFERED_NOTIFICATIONS
    split_ifs <;> omega
  have hnext_lt : SET_NEXT_POSITION s.notificationReadPosition < 20 := by
    rw [hnext]; omega
  have hhandler : handleCharValIndCfm ld { result := sys_status_success } s =
      notificationSendNext ld
        { s with
          notificationReadPosition := SET_NEXT_POSITION s.notificationReadPosition
          currentState := NOTIFICATION_STATE.ALL_QUIET } := by
    simp [handleCharValIndCfm, notificationRegisterResult, hdrop]
  have hs1 : CursorsInRange
      { s with
        notificationReadPosition := SET_NEXT_POSITION s.notificationReadPosition
        currentState := NOTIFICATION_STATE.ALL_QUIET } := ⟨hnext_lt, hw⟩
  have hnum1 : NUM_BUFFERED_ITEMS (SET_NEXT_POSITION s.notificationReadPosition)
      s.notificationWritePosition = pend.length := by
    rw [NUM_BUFFERED_ITEMS_eq_mod _ _ hnext_lt hw, hnext]
    rw [NUM_BUFFERED_ITEMS_eq_mod _ _ hr hw] at hnum
    omega
  have hpend1 : pendingContents
      { s with
        notificationReadPosition := SET_NEXT_POSITION s.notificationReadPosition
        currentState := NOTIFICATION_STATE.ALL_QUIET } = pend := by
    unfold pendingContents
    simp only []
    rw [hnum1]
    conv_rhs => rw [hpend]
    apply List.map_congr_left
    intro j _
    have hj : (SET_NEXT_POSITION s.notificationReadPosition + j) % 20
        = (s.notificationReadPosition + (j + 1)) % 20 := by
      rw [hnext]; omega
    rw [hj]
  rw [hhandler]
  refine ⟨?_, ?_, ?_, ?_, ?_⟩
  · exact ⟨by simpa using hnext_lt, by simpa using hw⟩
  · simpa using hdrop
  · rw [pendingContents_sendNext, hpend1]
  · intro hnil
    rw [notificationSendNext_of_not_gate]
    · exact ⟨rfl, rfl⟩
    · rintro ⟨_, _, hpos⟩
      simp only [] at hpos
      rw [hnum1, hnil] at hpos
      simp at hpos
  · intro v2 pend2 hcons
    have hpos : NUM_BUFFERED_ITEMS (SET_NEXT_POSITION s.notificationReadPosition)
        s.notificationWritePosition > 0 := by
      rw [hnum1, hcons]; simp
    rw [notificationSendNext_of_gate ld _ rfl hb hpos]
    refine ⟨_, rfl, ?_⟩
    have hhead := (pendingContents_cons _ hs1 v2 pend2 (hpend1.trans hcons)).1
    rw [hhead]
    rfl

/-- Successive success results drain the queue: the contents still to be sent
are transmitted in queue order, and the buffer is left empty and quiet. -/
theorem confirmAll_drains (ld : LOCAL_DATA_T) (hb : ld.blockNotifications = false) :
    ∀ (pend : List (Nat × Nat × List Nat)) (v : Nat × Nat × List Nat) (s : NotificationModule),
      CursorsInRange s → s.dropOnNextRegistration = false → pendingContents s = v :: pend →
      ∃ ts, (confirmAll ld (pend.length + 1) s).gattCharValueNotifications
          = s.gattCharValueNotifications ++ ts ∧
        ts.map GattCharValueNotification.content = pend ∧
        pendingContents (confirmAll ld (pend.length + 1) s) = [] ∧
        (confirmAll ld (pend.length + 1) s).currentState = NOTIFICATION_STATE.ALL_QUIET := by
  intro pend
  induction pend with
  | nil =>
    intro v s hs hdrop h
    obtain ⟨_, _, hp, hnil, _⟩ := handleCharValIndCfm_success_pending ld hb s hs hdrop v [] h
    obtain ⟨hq, hg⟩ := hnil rfl
    refine ⟨[], ?_, rfl, ?_, ?_⟩
    · simpa [confirmAll] using hg
    · simpa [confirmAll] using hp
    · simpa [confirmAll] using hq
  | cons v2 pend2 ih =>
    intro v s hs hdrop h
    obtain ⟨hs1, hdrop1, hp, _, hcons⟩ :=
      handleCharValIndCfm_success_pending ld hb s hs hdrop v (v2 :: pend2) h
    obtain ⟨t, hg, ht⟩ := hcons v2 pend2 rfl
    obtain ⟨ts, hts, hmap, hfin, hq⟩ := ih v2 _ hs1 hdrop1 hp
    have hstep : confirmAll ld ((v2 :: pend2).length + 1) s
        = confirmAll ld (pend2.length + 1)
            (handleCharValIndCfm ld { result := sys_status_success } s) := rfl
    rw [hstep]
    refine ⟨t :: ts, ?_, ?_, hfin, hq⟩
    · rw [hts, hg]
      simp
    · simp [ht, hmap]

/-- Plain enqueues on a busy engine with room for them all add the requested
contents at the back of the queue, in order, and transmit nothing. -/
theorem enqueueAll_busy (ld : LOCAL_DATA_T) :
    ∀ (qs : List EnqueueRequest) (s : NotificationModule),
      CursorsInRange s →
      s.currentState = NOTIFICATION_STATE.NOTIFICATION_OUTSTANDING →
      NUM_BUFFERED_ITEMS s.notificationReadPosition s.notificationWritePosition
        + qs.length ≤ 19 →
      (∀ q ∈ qs, q.dataLenInBytes ≤ MAX_NOTIFICATION_DATA_LEN_BYTES) →
      (∀ q ∈ qs, ∀ i, i < q.dataLenInBytes → q.data i < 256) →
      CursorsInRange (enqueueAll ld qs s) ∧
      (enqueueAll ld qs s).dropOnNextRegistration = s.dropOnNextRegistration ∧
      (enqueueAll ld qs s).gattCharValueNotifications = s.gattCharValueNotifications ∧
      pendingContents (enqueueAll ld qs s)
        = pendingContents s ++ qs.map EnqueueRequest.content := by
  intro qs
  induction qs with
  | nil =>
    intro s hs _ _ _ _
    exact ⟨hs, rfl, rfl, by simp [enqueueAll]⟩
  | cons q rest ih =>
    intro s hs hout hroom hlen hbytes
    simp only [List.length_cons] at hroom
    obtain ⟨s2, h2, hs2, _, hc2, hd2, hg2, hn2, hp2⟩ :=
      notificationBufferItem_pending ld q s hs (by omega)
        (hlen q (List.mem_cons_self _ _)) (hbytes q (List.mem_cons_self _ _))
    have hidle : notificationSendNext ld s2 = s2 := by
      apply notificationSendNext_of_not_gate
      rintro ⟨hq, _, _⟩
      rw [hc2, hout] at hq
      exact absurd hq (by decide)
    rw [hidle] at h2
    obtain ⟨hs3, hd3, hg3, hp3⟩ := ih s2 hs2 (hc2.trans hout) (by rw [hn2]; omega)
      (fun q2 hq2 => hlen q2 (List.mem_cons_of_mem _ hq2))
      (fun q2 hq2 => hbytes q2 (List.mem_cons_of_mem _ hq2))
    simp only [enqueueAll, h2]
    refine ⟨hs3, hd3.trans hd2, hg3.trans hg2, ?_⟩
    rw [hp3, hp2]
    simp

/-! ## Enqueue -/

/-- C3: plain enqueue fails exactly when fewer than 2 slots are free. For every
engine state `notificationBufferItem` returns FALSE if and only if
`notificationBufferRemaining() <= 1` at the call; in that case the read
position, the write position and every buffered item are unchanged; in
particular it fails when exactly 1 slot is free. -/
theorem notificationBufferItem_fails_iff (localData : LOCAL_DATA_T) (handle dataLenInBytes : Nat)
    (data : Nat → Nat) (s : NotificationModule) :
    ((notificationBufferItem localData handle dataLenInBytes data s).1 = false ↔
        notificationBufferRemaining s ≤ 1) ∧
    (notificationBufferRemaining s ≤ 1 →
      (notificationBufferItem localData handle dataLenInBytes data s).2.notificationReadPosition
          = s.notificationReadPosition ∧
      (notificationBufferItem localData handle dataLenInBytes data s).2.notificationWritePosition
          = s.notificationWritePosition ∧
      (notificationBufferItem localData handle dataLenInBytes data s).2.notificationBuffer
          = s.notificationBuffer) ∧
    (notificationBufferRemaining s = 1 →
      (notificationBufferItem localData handle dataLenInBytes data s).1 = false) := by
  have hkey : ∀ h : notificationBufferRemaining s ≤ 1,
      notificationBufferItem localData handle dataLenInBytes data s
        = (false, notificationSendNext localData s) := by
    intro h
    have h' : ¬ notificationBufferRemaining s > 1 := by omega
    simp [notificationBufferItem, bufferItem, h']
  refine ⟨⟨?_, ?_⟩, ?_, ?_⟩
  · intro hfalse
    by_contra hgt
    have h' : notificationBufferRemaining s > 1 := by omega
    simp [notificationBufferItem, bufferItem, h'] at hfalse
  · intro h
    rw [hkey h]
  · intro h
    rw [hkey h]
    simp
  · intro h
    rw [hkey (by omega)]

/-- What the store leaves in the payload array of its slot, for a payload that
fits: the words of the caller, or the low byte of the first word when the
length is 1. -/
theorem storedItem_notification (old : NOTIFICATION_ITEM) (handle len : Nat) (data : Nat → Nat)
    (i : Nat) (hi : i < len) :
    (storedItem old handle len data).notification i
      = if 1 < len then data i else data i &&& 0xff := by
  unfold storedItem MemCopy
  by_cases h1 : len > 1
  · simp [h1, hi]
  · have hi0 : i = 0 := by omega
    subst hi0
    simp [h1]

/-- C4, as amended: a successful enqueue appends. In an engine state whose
cursors index the array and that has at least 2 free slots,
`notificationBufferItem` with a payload of at most 20 bytes returns TRUE,
stores handle, length and payload in the slot at the old write position (the
words of the caller, or the low byte of the caller's word when the length is
1; the caller's bytes in both cases), advances the write position by one
modulo 20, leaves the read position and every other slot unchanged, and
decreases `notificationBufferRemaining()` by exactly one. -/
theorem notificationBufferItem_appends (localData : LOCAL_DATA_T) (handle dataLenInBytes : Nat)
    (data : Nat → Nat) (s : NotificationModule)
    (hr : s.notificationReadPosition < MAX_BUFFERED_NOTIFICATIONS)
    (hw : s.notificationWritePosition < MAX_BUFFERED_NOTIFICATIONS)
    (hfree : 2 ≤ notificationBufferRemaining s)
    (hlen : dataLenInBytes ≤ MAX_NOTIFICATION_DATA_LEN_BYTES) :
    (notificationBufferItem localData handle dataLenInBytes data s).1 = true ∧
    ((notificationBufferItem localData handle dataLenInBytes data s).2.notificationBuffer
        s.notificationWritePosition).handle = handle ∧
    ((notificationBufferItem localData handle dataLenInBytes data s).2.notificationBuffer
        s.notificationWritePosition).dataLenInBytes = dataLenInBytes ∧
    (∀ i, i < dataLenInBytes →
      ((notificationBufferItem localData handle dataLenInBytes data s).2.notificationBuffer
        s.notificationWritePosition).notification i
        = if 1 < dataLenInBytes then data i else data i &&& 0xff) ∧
    ((∀ i, i < dataLenInBytes → data i < 256) →
      ∀ i, i < dataLenInBytes →
        ((notificationBufferItem localData handle dataLenInBytes data s).2.notificationBuffer
          s.notificationWritePosition).notification i = data i) ∧
    (notificationBufferItem localData handle dataLenInBytes data s).2.notificationWritePosition
        = (s.notificationWritePosition + 1) % 20 ∧
    (notificationBufferItem localData handle dataLenInBytes data s).2.notificationReadPosition
        = s.notificationReadPosition ∧
    (∀ j, j ≠ s.notificationWritePosition →
      (notificationBufferItem localData handle dataLenInBytes data s).2.notificationBuffer j
        = s.notificationBuffer j) ∧
    notificationBufferRemaining
        (notificationBufferItem localData handle dataLenInBytes data s).2 + 1
      = notificationBufferRemaining s := by
  have hgt : notificationBufferRemaining s > 1 := by omega
  have hnle : ¬ notificationBufferRemaining s ≤ 1 := by omega
  unfold MAX_BUFFERED_NOTIFICATIONS at hr hw
  have hnext : SET_NEXT_POSITION s.notificationWritePosition
      = (s.notificationWritePosition + 1) % 20 := by
    unfold SET_NEXT_POSITION MAX_BUFFERED_NOTIFICATIONS
    split_ifs <;> omega
  have hnext_lt : SET_NEXT_POSITION s.notificationWritePosition < 20 := by
    rw [hnext]; omega
  simp only [notificationBufferItem, bufferItem, hnle, false_and, if_false, hgt, if_true,
    notificationSendNext_buffer, notificationSendNext_read, notificationSendNext_write,
    notificationBufferRemaining_sendNext, copyNotification_of_le _ _ _ _ _ hlen,
    Function.update_same]
  refine ⟨trivial, rfl, rfl, ?_, ?_, hnext, trivial, ?_, ?_⟩
  · intro i hi
    exact storedItem_notification _ _ _ _ i hi
  · intro hbytes i hi
    exact storedItem_payload _ _ _ _ hbytes i hi
  · intro j hj
    simp [Function.update_noteq hj]
  · have h0 : notificationBufferRemaining s
        = uint16_sub 20 ((s.notificationWritePosition + 20 - s.notificationReadPosition) % 20) := by
      unfold notificationBufferRemaining
      rw [NUM_BUFFERED_ITEMS_eq_mod _ _ hr hw]; rfl
    rw [h0] at hgt ⊢
    unfold notificationBufferRemaining
    simp only []
    rw [NUM_BUFFERED_ITEMS_eq_mod _ _ hr hnext_lt, hnext]
    unfold uint16_sub MAX_BUFFERED_NOTIFICATIONS at *
    omega

set_option maxRecDepth 4000 in
/-- The wrapped example: cursors, state, free slots and the handle of the
oldest buffered item. -/
theorem exampleWrapped_facts :
    exampleWrapped.notificationReadPosition = 2 ∧
    exampleWrapped.notificationWritePosition = 0 ∧
    exampleWrapped.currentState = NOTIFICATION_STATE.NOTIFICATION_OUTSTANDING ∧
    notificationBufferRemaining exampleWrapped = 2 ∧
    (exampleWrapped.notificationBuffer 2).handle = 7 := by
  decide

set_option maxRecDepth 4000 in
/-- The wrapped example is reached with each result registered while a
transmission is outstanding. -/
theorem exampleWrapped_run : runOps exampleWrappedOps initialModule = some exampleWrapped :=
  rfl

set_option maxRecDepth 4000 in
/-- An enqueue of 64 words on the wrapped example is accepted, and its copy
reaches the handle of slot 2. -/
theorem exampleWrapped_overlong :
    (notificationBufferItem exampleLocalData 9 64 exampleLongReport exampleWrapped).1 = true ∧
    ((notificationBufferItem exampleLocalData 9 64 exampleLongReport
      exampleWrapped).2.notificationBuffer 2).handle = 0x55 := by
  decide

set_option maxRecDepth 4000 in
/-- The wrapped example with one free slot: cursors, state and the handle of
the oldest buffered item. -/
theorem exampleWrappedFull_facts :
    exampleWrappedFull.notificationReadPosition = 2 ∧
    exampleWrappedFull.notificationWritePosition = 1 ∧
    exampleWrappedFull.currentState = NOTIFICATION_STATE.NOTIFICATION_OUTSTANDING ∧
    (exampleWrappedFull.notificationBuffer 2).handle = 7 := by
  decide

set_option maxRecDepth 4000 in
/-- A forced enqueue of 64 words on the wrapped example with one free slot is
accepted and stored in slot 0, and its copy reaches the handle of slot 2. -/
theorem exampleWrappedFull_overlong :
    (notificationForceBufferItem exampleLocalData 9 64 exampleLongReport
      exampleWrappedFull).1 = true ∧
    ((notificationForceBufferItem exampleLocalData 9 64 exampleLongReport
      exampleWrappedFull).2.notificationBuffer 0).handle = 9 ∧
    ((notificationForceBufferItem exampleLocalData 9 64 exampleLongReport
      exampleWrappedFull).2.notificationBuffer 2).handle = 0x55 := by
  decide

/-- C4, as stated for every payload, fails for one that does not fit the
payload array. On the wrapped example (read position 2, write position 0, two
free slots) an enqueue of 64 words returns TRUE and is stored in slot 0; its
copy runs through slot 1 and into slot 2, the oldest of the buffered items,
the handle of which was 7 and becomes 0x55. -/
theorem overlong_enqueue_overwrites_buffered_item :
    exampleWrapped.notificationReadPosition = 2 ∧
    exampleWrapped.notificationWritePosition = 0 ∧
    notificationBufferRemaining exampleWrapped = 2 ∧
    (exampleWrapped.notificationBuffer 2).handle = 7 ∧
    (notificationBufferItem exampleLocalData 9 64 exampleLongReport exampleWrapped).1 = true ∧
    ((notificationBufferItem exampleLocalData 9 64 exampleLongReport
      exampleWrapped).2.notificationBuffer 2).handle = 0x55 ∧
    (¬ ∀ (localData : LOCAL_DATA_T) (handle dataLenInBytes : Nat) (data : Nat → Nat)
        (s : NotificationModule),
      s.notificationReadPosition < MAX_BUFFERED_NOTIFICATIONS →
      s.notificationWritePosition < MAX_BUFFERED_NOTIFICATIONS →
      2 ≤ notificationBufferRemaining s →
      ∀ j, j ≠ s.notificationWritePosition →
        (notificationBufferItem localData handle dataLenInBytes data s).2.notificationBuffer j
          = s.notificationBuffer j) := by
  obtain ⟨hr, hw, _, hrem, h0⟩ := exampleWrapped_facts
  obtain ⟨ht, h1⟩ := exampleWrapped_overlong
  refine ⟨hr, hw, hrem, h0, ht, h1, ?_⟩
  intro hall
  have h := hall exampleLocalData 9 64 exampleLongReport exampleWrapped
    (by rw [hr]; decide) (by rw [hw]; decide) (by rw [hrem]) 2 (by rw [hw]; decide)
  have h2 := congrArg NOTIFICATION_ITEM.handle h
  rw [h1, h0] at h2
  exact absurd h2 (by decide)

/-- C5, as amended: force-enqueue at the last free slot overwrites the newest
entry. In an engine state whose cursors index the array and whose occupancy is
19 (exactly 1 free slot), `notificationForceBufferItem` with a payload of at
most 20 bytes returns TRUE, replaces the item in the slot just before the write
position by the new handle, length and payload (the words of the caller, or
the low byte of the caller's word when the length is 1; the caller's bytes in
both cases), leaves the occupancy and both cursors unchanged, and leaves every
other slot untouched. -/
theorem notificationForceBufferItem_overwrites_newest (localData : LOCAL_DATA_T)
    (handle dataLenInBytes : Nat) (data : Nat → Nat) (s : NotificationModule)
    (hr : s.notificationReadPosition < MAX_BUFFERED_NOTIFICATIONS)
    (hw : s.notificationWritePosition < MAX_BUFFERED_NOTIFICATIONS)
    (hocc : NUM_BUFFERED_ITEMS s.notificationReadPosition s.notificationWritePosition = 19)
    (hlen : dataLenInBytes ≤ MAX_NOTIFICATION_DATA_LEN_BYTES) :
    (notificationForceBufferItem localData handle dataLenInBytes data s).1 = true ∧
    ((notificationForceBufferItem localData handle dataLenInBytes data s).2.notificationBuffer
        ((s.notificationWritePosition + 19) % 20)).handle = handle ∧
    ((notificationForceBufferItem localData handle dataLenInBytes data s).2.notificationBuffer
        ((s.notificationWritePosition + 19) % 20)).dataLenInBytes = dataLenInBytes ∧
    (∀ i, i < dataLenInBytes →
      ((notificationForceBufferItem localData handle dataLenInBytes data s).2.notificationBuffer
        ((s.notificationWritePosition + 19) % 20)).notification i
        = if 1 < dataLenInBytes then data i else data i &&& 0xff) ∧
    ((∀ i, i < dataLenInBytes → data i < 256) →
      ∀ i, i < dataLenInBytes →
        ((notificationForceBufferItem localData handle dataLenInBytes data
          s).2.notificationBuffer ((s.notificationWritePosition + 19) % 20)).notification i
          = data i) ∧
    (notificationForceBufferItem localData handle dataLenInBytes data s).2.notificationWritePosition
        = s.notificationWritePosition ∧
    (notificationForceBufferItem localData handle dataLenInBytes data s).2.notificationReadPosition
        = s.notificationReadPosition ∧
    NUM_BUFFERED_ITEMS
        (notificationForceBufferItem localData handle dataLenInBytes data s).2.notificationReadPosition
        (notificationForceBufferItem localData handle dataLenInBytes data s).2.notificationWritePosition
      = 19 ∧
    (∀ j, j ≠ (s.notificationWritePosition + 19) % 20 →
      (notificationForceBufferItem localData handle dataLenInBytes data s).2.notificationBuffer j
        = s.notificationBuffer j) := by
  unfold MAX_BUFFERED_NOTIFICATIONS at hr hw
  have hrem : notificationBufferRemaining s ≤ 1 := by
    unfold notificationBufferRemaining
    rw [hocc]; decide
  have hprev : SET_PREV_POSITION s.notificationWritePosition
      = (s.notificationWritePosition + 19) % 20 := by
    unfold SET_PREV_POSITION MAX_BUFFERED_NOTIFICATIONS
    split_ifs <;> omega
  have hprev_lt : (s.notificationWritePosition + 19) % 20 < 20 := by omega
  have hnext : SET_NEXT_POSITION ((s.notificationWritePosition + 19) % 20)
      = s.notificationWritePosition := by
    unfold SET_NEXT_POSITION MAX_BUFFERED_NOTIFICATIONS
    split_ifs <;> omega
  have hocc2 : (s.notificationWritePosition + 20 - s.notificationReadPosition) % 20 = 19 := by
    rw [← NUM_BUFFERED_ITEMS_eq_mod _ _ hr hw]; exact hocc
  have hrem2 : notificationBufferRemaining
      { s with notificationWritePosition := (s.notificationWritePosition + 19) % 20 } > 1 := by
    unfold notificationBufferRemaining
    simp only []
    rw [NUM_BUFFERED_ITEMS_eq_mod _ _ hr hprev_lt]
    unfold uint16_sub MAX_BUFFERED_NOTIFICATIONS
    omega
  simp only [notificationForceBufferItem, bufferItem, hrem, true_and, if_true, hprev, hrem2,
    notificationSendNext_buffer, notificationSendNext_read, notificationSendNext_write,
    copyNotification_of_le _ _ _ _ _ hlen, Function.update_same, hnext]
  refine ⟨rfl, rfl, ?_, ?_, hocc, ?_⟩
  · intro i hi
    exact storedItem_notification _ _ _ _ i hi
  · intro hbytes i hi
    exact storedItem_payload _ _ _ _ hbytes i hi
  · intro j hj
    simp [Function.update_noteq hj]

/-- C5, as stated for every payload, fails for one that does not fit the
payload array. On the wrapped example with one free slot (read position 2,
write position 1, occupancy 19) a forced enqueue of 64 words returns TRUE and
replaces the newest entry, in slot 0; its copy runs through slot 1 and into
slot 2, the oldest entry, the handle of which was 7 and becomes 0x55. -/
theorem overlong_forced_enqueue_overwrites_older_entry :
    exampleWrappedFull.notificationReadPosition = 2 ∧
    exampleWrappedFull.notificationWritePosition = 1 ∧
    NUM_BUFFERED_ITEMS exampleWrappedFull.notificationReadPosition
      exampleWrappedFull.notificationWritePosition = 19 ∧
    (exampleWrappedFull.notificationBuffer 2).handle = 7 ∧
    (notificationForceBufferItem exampleLocalData 9 64 exampleLongReport
      exampleWrappedFull).1 = true ∧
    ((notificationForceBufferItem exampleLocalData 9 64 exampleLongReport
      exampleWrappedFull).2.notificationBuffer 0).handle = 9 ∧
    ((notificationForceBufferItem exampleLocalData 9 64 exampleLongReport
      exampleWrappedFull).2.notificationBuffer 2).handle = 0x55 ∧
    (¬ ∀ (localData : LOCAL_DATA_T) (handle dataLenInBytes : Nat) (data : Nat → Nat)
        (s : NotificationModule),
      s.notificationReadPosition < MAX_BUFFERED_NOTIFICATIONS →
      s.notificationWritePosition < MAX_BUFFERED_NOTIFICATIONS →
      NUM_BUFFERED_ITEMS s.notificationReadPosition s.notificationWritePosition = 19 →
      ∀ j, j ≠ (s.notificationWritePosition + 19) % 20 →
        (notificationForceBufferItem localData handle dataLenInBytes data
          s).2.notificationBuffer j = s.notificationBuffer j) := by
  obtain ⟨hr, hw, _, h0⟩ := exampleWrappedFull_facts
  obtain ⟨ht, h9, h1⟩ := exampleWrappedFull_overlong
  have hocc : NUM_BUFFERED_ITEMS exampleWrappedFull.notificationReadPosition
      exampleWrappedFull.notificationWritePosition = 19 := by rw [hr, hw]; decide
  refine ⟨hr, hw, hocc, h0, ht, h9, h1, ?_⟩
  intro hall
  have h := hall exampleLocalData 9 64 exampleLongReport exampleWrappedFull
    (by rw [hr]; decide) (by rw [hw]; decide) hocc 2 (by rw [hw]; decide)
  have h2 := congrArg NOTIFICATION_ITEM.handle h
  rw [h1, h0] at h2
  exact absurd h2 (by decide)

/-- C2: FIFO round trip. Start from an empty, idle engine (cursors equal and in
range, `ALL_QUIET`, no deferred drop) under a session record that does not
block notifications. For every list of N requests with N <= 19 whose payloads
are bytes and have length <= 20, enqueuing them in order with
`notificationBufferItem` and then handling N transmission results that report
success through `handleCharValIndCfm` causes exactly N transmissions, whose
(handle, length, payload bytes) sequence is the enqueued sequence in the same
order, each of a length that fits the payload array; the buffer is left empty
and the engine quiet. -/
theorem fifo_round_trip (localData : LOCAL_DATA_T) (qs : List EnqueueRequest)
    (s : NotificationModule)
    (hs : CursorsInRange s)
    (hempty : s.notificationReadPosition = s.notificationWritePosition)
    (hidle : s.currentState = NOTIFICATION_STATE.ALL_QUIET)
    (hdrop : s.dropOnNextRegistration = false)
    (hunblocked : localData.blockNotifications = false)
    (hN : qs.length ≤ MAX_BUFFERED_NOTIFICATIONS - 1)
    (hlen : ∀ q ∈ qs, q.dataLenInBytes ≤ MAX_NOTIFICATION_DATA_LEN_BYTES)
    (hbytes : ∀ q ∈ qs, ∀ i, i < q.dataLenInBytes → q.data i < 256) :
    ∃ ts : List GattCharValueNotification,
      (confirmAll localData qs.length (enqueueAll localData qs s)).gattCharValueNotifications
        = s.gattCharValueNotifications ++ ts ∧
      ts.length = qs.length ∧
      ts.map GattCharValueNotification.content = qs.map EnqueueRequest.content ∧
      (∀ t ∈ ts, t.size_value ≤ MAX_NOTIFICATION_DATA_LEN_BYTES) ∧
      NUM_BUFFERED_ITEMS
        (confirmAll localData qs.length (enqueueAll localData qs s)).notificationReadPosition
        (confirmAll localData qs.length (enqueueAll localData qs s)).notificationWritePosition
        = 0 ∧
      (confirmAll localData qs.length (enqueueAll localData qs s)).currentState
        = NOTIFICATION_STATE.ALL_QUIET := by
  have hsize : ∀ ts : List GattCharValueNotification,
      ts.map GattCharValueNotification.content = qs.map EnqueueRequest.content →
      ∀ t ∈ ts, t.size_value ≤ MAX_NOTIFICATION_DATA_LEN_BYTES := by
    intro ts hmap t ht
    have hmem : t.content ∈ qs.map EnqueueRequest.content := by
      rw [← hmap]; exact List.mem_map_of_mem _ ht
    obtain ⟨q, hq, hqc⟩ := List.mem_map.mp hmem
    have h2 : q.dataLenInBytes = t.size_value := congrArg (fun c => c.2.1) hqc
    rw [← h2]
    exact hlen q hq
  have hr := hs.1
  have hw := hs.2
  unfold MAX_BUFFERED_NOTIFICATIONS at hr hw hN
  have hn0 : NUM_BUFFERED_ITEMS s.notificationReadPosition s.notificationWritePosition = 0 := by
    rw [NUM_BUFFERED_ITEMS_eq_mod _ _ hr hw]; omega
  have hp0 : pendingContents s = [] := by
    unfold pendingContents
    rw [hn0]; rfl
  cases qs with
  | nil =>
    exact ⟨[], by simp [confirmAll, enqueueAll], rfl, rfl, hsize [] rfl, hn0, hidle⟩
  | cons q rest =>
    simp only [List.length_cons] at hN
    obtain ⟨s2, h2, hs2, _, hc2, hd2, hg2, hn2, hp2⟩ :=
      notificationBufferItem_pending localData q s hs (by omega)
        (hlen q (List.mem_cons_self _ _)) (hbytes q (List.mem_cons_self _ _))
    rw [hp0, List.nil_append] at hp2
    rw [hn0] at hn2
    have hsend := notificationSendNext_of_gate localData s2 (hc2.trans hidle) hunblocked
      (by rw [hn2]; decide)
    have hhead := (pendingContents_cons s2 hs2 q.content [] hp2).1
    rw [hsend] at h2
    have hbusy := enqueueAll_busy localData rest _
      (show CursorsInRange (notificationBufferItem localData q.handle q.dataLenInBytes
        q.data s).2 from by rw [h2]; exact hs2)
      (by rw [h2])
      (by rw [h2]; simp only []; rw [hn2]; omega)
      (fun q2 hq2 => hlen q2 (List.mem_cons_of_mem _ hq2))
      (fun q2 hq2 => hbytes q2 (List.mem_cons_of_mem _ hq2))
    obtain ⟨hs4, hd4, hg4, hp4⟩ := hbusy
    have hp1 : pendingContents (notificationBufferItem localData q.handle q.dataLenInBytes
        q.data s).2 = [q.content] := by
      rw [h2]; exact hp2
    rw [hp1] at hp4
    have hdrain := confirmAll_drains localData hunblocked (rest.map EnqueueRequest.content)
      q.content (enqueueAll localData (q :: rest) s) hs4
      (by
        show (enqueueAll localData rest _).dropOnNextRegistration = false
        rw [hd4, h2]
        exact hd2.trans hdrop)
      (by simpa using hp4)
    rw [List.length_map] at hdrain
    obtain ⟨ts, hts, hmap, hfin, hq⟩ := hdrain
    have hcalls : (enqueueAll localData (q :: rest) s).gattCharValueNotifications
        = s.gattCharValueNotifications ++
          [{ cid := localData.st_ucid
             handle := (s2.notificationBuffer s2.notificationReadPosition).handle
             size_value := (s2.notificationBuffer s2.notificationReadPosition).dataLenInBytes
             value := (s2.notificationBuffer s2.notificationReadPosition).notification }] := by
      show (enqueueAll localData rest _).gattCharValueNotifications = _
      rw [hg4, h2]
      simp only []
      rw [hg2]
    have hmap2 : List.map GattCharValueNotification.content
        ({ cid := localData.st_ucid
           handle := (s2.notificationBuffer s2.notificationReadPosition).handle
           size_value := (s2.notificationBuffer s2.notificationReadPosition).dataLenInBytes
           value := (s2.notificationBuffer s2.notificationReadPosition).notification } :: ts)
        = List.map EnqueueRequest.content (q :: rest) := by
      rw [List.map_cons, List.map_cons, hmap, hhead]
      rfl
    refine ⟨_ :: ts, ?_, ?_, hmap2, hsize _ hmap2, ?_, hq⟩
    · rw [List.length_cons, hts, hcalls]
      simp
    · have := congrArg List.length hmap2
      simpa using this
    · rw [List.length_cons, ← pendingContents_length, hfin]
      rfl

/-- C2, witness: two reports sent through the initial engine. -/
theorem fifo_round_trip_witness :
    CursorsInRange initialModule ∧
    exampleRequests.length ≤ MAX_BUFFERED_NOTIFICATIONS - 1 ∧
    (∀ q ∈ exampleRequests, q.dataLenInBytes ≤ MAX_NOTIFICATION_DATA_LEN_BYTES) ∧
    (∀ q ∈ exampleRequests, ∀ i, i < q.dataLenInBytes → q.data i < 256) ∧
    ∃ ts : List GattCharValueNotification,
      (confirmAll exampleLocalData exampleRequests.length
          (enqueueAll exampleLocalData exampleRequests initialModule)).gattCharValueNotifications
        = initialModule.gattCharValueNotifications ++ ts ∧
      ts.map GattCharValueNotification.content = [(7, 2, [0x23, 0x02]), (9, 1, [0x23])] :=
  have hwf : CursorsInRange initialModule := ⟨by decide, by decide⟩
  have hlen : ∀ q ∈ exampleRequests, q.dataLenInBytes ≤ MAX_NOTIFICATION_DATA_LEN_BYTES := by
    intro q hq
    simp only [exampleRequests, List.mem_cons, List.mem_singleton, List.not_mem_nil,
      or_false] at hq
    rcases hq with rfl | rfl <;> decide
  have hbytes : ∀ q ∈ exampleRequests, ∀ i, i < q.dataLenInBytes → q.data i < 256 := by
    intro q hq i _
    simp only [exampleRequests, List.mem_cons, List.mem_singleton, List.not_mem_nil,
      or_false] at hq
    rcases hq with rfl | rfl <;> (simp only [exampleReport]; split_ifs <;> decide)
  ⟨hwf, by decide, hlen, hbytes,
    (fifo_round_trip exampleLocalData exampleRequests initialModule hwf rfl rfl rfl rfl
      (by decide) hlen hbytes).imp (fun _ h => ⟨h.1, h.2.2.1.trans (by decide)⟩)⟩

/-- C4, witness: a two-byte report enqueued on the two-item busy example. -/
theorem notificationBufferItem_appends_witness :
    exampleBusy.notificationReadPosition < MAX_BUFFERED_NOTIFICATIONS ∧
    exampleBusy.notificationWritePosition < MAX_BUFFERED_NOTIFICATIONS ∧
    2 ≤ notificationBufferRemaining exampleBusy ∧
    2 ≤ MAX_NOTIFICATION_DATA_LEN_BYTES ∧
    (notificationBufferItem exampleLocalData 7 2 exampleReport exampleBusy).1 = true ∧
    notificationBufferRemaining
        (notificationBufferItem exampleLocalData 7 2 exampleReport exampleBusy).2 + 1
      = notificationBufferRemaining exampleBusy :=
  have h := notificationBufferItem_appends exampleLocalData 7 2 exampleReport exampleBusy
    (by decide) (by decide) (by decide) (by decide)
  ⟨by decide, by decide, by decide, by decide, h.1, h.2.2.2.2.2.2.2.2⟩

/-- C5, witness: a two-byte report force-enqueued on the example with one free
slot. -/
theorem notificationForceBufferItem_overwrites_newest_witness :
    exampleLastSlot.notificationReadPosition < MAX_BUFFERED_NOTIFICATIONS ∧
    exampleLastSlot.notificationWritePosition < MAX_BUFFERED_NOTIFICATIONS ∧
    NUM_BUFFERED_ITEMS exampleLastSlot.notificationReadPosition
      exampleLastSlot.notificationWritePosition = 19 ∧
    2 ≤ MAX_NOTIFICATION_DATA_LEN_BYTES ∧
    (notificationForceBufferItem exampleLocalData 7 2 exampleReport exampleLastSlot).1 = true ∧
    ((notificationForceBufferItem exampleLocalData 7 2 exampleReport
        exampleLastSlot).2.notificationBuffer 18).handle = 7 :=
  have h := notificationForceBufferItem_overwrites_newest exampleLocalData 7 2 exampleReport
    exampleLastSlot (by decide) (by decide) (by decide) (by decide)
  ⟨by decide, by decide, by decide, by decide, h.1, h.2.1⟩

/-! ## Transmission -/

/-- C6: the send gate. `notificationSendNext` issues a transmission if and only
if no transmission is outstanding, `localData.blockNotifications` is FALSE and
the buffer is non-empty. When it does, it issues exactly the call whose handle,
length and payload are those of the item at the read position, and the engine
becomes `NOTIFICATION_OUTSTANDING` with nothing else changed; when one of the
three conditions fails the engine state is unchanged. -/
theorem notificationSendNext_gate (localData : LOCAL_DATA_T) (s : NotificationModule) :
    ((∃ t, (notificationSendNext localData s).gattCharValueNotifications
          = s.gattCharValueNotifications ++ [t]) ↔
      (s.currentState = NOTIFICATION_STATE.ALL_QUIET ∧ localData.blockNotifications = false ∧
        NUM_BUFFERED_ITEMS s.notificationReadPosition s.notificationWritePosition > 0)) ∧
    ((s.currentState = NOTIFICATION_STATE.ALL_QUIET ∧ localData.blockNotifications = false ∧
        NUM_BUFFERED_ITEMS s.notificationReadPosition s.notificationWritePosition > 0) →
      notificationSendNext localData s =
        { s with
          gattCharValueNotifications := s.gattCharValueNotifications ++
            [{ cid := localData.st_ucid
               handle := (s.notificationBuffer s.notificationReadPosition).handle
               size_value := (s.notificationBuffer s.notificationReadPosition).dataLenInBytes
               value := (s.notificationBuffer s.notificationReadPosition).notification }]
          currentState := NOTIFICATION_STATE.NOTIFICATION_OUTSTANDING }) ∧
    (¬ (s.currentState = NOTIFICATION_STATE.ALL_QUIET ∧ localData.blockNotifications = false ∧
        NUM_BUFFERED_ITEMS s.notificationReadPosition s.notificationWritePosition > 0) →
      notificationSendNext localData s = s) := by
  have hyes := fun h : (s.currentState = NOTIFICATION_STATE.ALL_QUIET ∧
        localData.blockNotifications = false ∧
        NUM_BUFFERED_ITEMS s.notificationReadPosition s.notificationWritePosition > 0) =>
      notificationSendNext_of_gate localData s h.1 h.2.1 h.2.2
  have hno := notificationSendNext_of_not_gate localData s
  refine ⟨⟨?_, ?_⟩, hyes, hno⟩
  · rintro ⟨t, ht⟩
    by_contra hgate
    rw [hno hgate] at ht
    simp at ht
  · intro hgate
    rw [hyes hgate]
    exact ⟨_, rfl⟩

/-- C7: transmission result bookkeeping. In an engine state whose read cursor
indexes the array and that has no deferred drop pending,
`notificationRegisterResult(success)` leaves the engine with no transmission
outstanding, advances the read position by one modulo 20 when `success` is TRUE
and leaves it unchanged when `success` is FALSE, and never changes the write
position. -/
theorem notificationRegisterResult_bookkeeping (transmitSucceeded : Bool)
    (s : NotificationModule)
    (hdrop : s.dropOnNextRegistration = false)
    (hr : s.notificationReadPosition < MAX_BUFFERED_NOTIFICATIONS) :
    (notificationRegisterResult transmitSucceeded s).currentState
        = NOTIFICATION_STATE.ALL_QUIET ∧
    (notificationRegisterResult true s).notificationReadPosition
        = (s.notificationReadPosition + 1) % 20 ∧
    (notificationRegisterResult false s).notificationReadPosition
        = s.notificationReadPosition ∧
    (notificationRegisterResult transmitSucceeded s).notificationWritePosition
        = s.notificationWritePosition := by
  unfold MAX_BUFFERED_NOTIFICATIONS at hr
  have hnext : SET_NEXT_POSITION s.notificationReadPosition
      = (s.notificationReadPosition + 1) % 20 := by
    unfold SET_NEXT_POSITION MAX_BUFFERED_NOTIFICATIONS
    split_ifs <;> omega
  refine ⟨?_, ?_, ?_, ?_⟩
  · cases transmitSucceeded <;> simp [notificationRegisterResult, hdrop]
  · simp [notificationRegisterResult, hdrop, hnext]
  · simp [notificationRegisterResult, hdrop]
  · cases transmitSucceeded <;> simp [notificationRegisterResult, hdrop]

/-- C10: drop-all is immediate when idle and deferred when busy. With no
transmission outstanding `notificationDropAll` sets both cursors to 0 (occupancy
0) and leaves the deferred-drop flag as it was; with a transmission outstanding
it leaves both cursors and every buffered item unchanged and sets the
deferred-drop flag. In both cases the module state and the transmissions issued
are unchanged. -/
theorem notificationDropAll_immediate_or_deferred (s : NotificationModule) :
    (s.currentState = NOTIFICATION_STATE.ALL_QUIET →
      (notificationDropAll s).notificationReadPosition = 0 ∧
      (notificationDropAll s).notificationWritePosition = 0 ∧
      NUM_BUFFERED_ITEMS (notificationDropAll s).notificationReadPosition
        (notificationDropAll s).notificationWritePosition = 0 ∧
      (notificationDropAll s).dropOnNextRegistration = s.dropOnNextRegistration) ∧
    (s.currentState = NOTIFICATION_STATE.NOTIFICATION_OUTSTANDING →
      (notificationDropAll s).notificationReadPosition = s.notificationReadPosition ∧
      (notificationDropAll s).notificationWritePosition = s.notificationWritePosition ∧
      (notificationDropAll s).notificationBuffer = s.notificationBuffer ∧
      (notificationDropAll s).dropOnNextRegistration = true) ∧
    (notificationDropAll s).currentState = s.currentState ∧
    (notificationDropAll s).gattCharValueNotifications = s.gattCharValueNotifications := by
  refine ⟨?_, ?_, ?_, ?_⟩
  · intro h
    simp [notificationDropAll, h]
    decide
  · intro h
    simp [notificationDropAll, h]
  · unfold notificationDropAll; split_ifs <;> rfl
  · unfold notificationDropAll; split_ifs <;> rfl

/-! ## Transmission results -/

/-- C8 (amended): send-next after a successful result. When the
transmission-result signal is handled with no deferred drop requested and
reports success, the read position advances and, if the buffer is still
non-empty and notifications are not blocked, the item at the new read position
is transmitted and the engine is outstanding again when the handler returns.
When the signal reports a failure the handler makes no attempt to send: the
engine is left quiet and otherwise unchanged. -/
theorem handleCharValIndCfm_sends_next_on_success (localData : LOCAL_DATA_T)
    (cfm : GATT_CHAR_VAL_IND_CFM_T) (s : NotificationModule)
    (hdrop : s.dropOnNextRegistration = false) :
    (cfm.result = sys_status_success → localData.blockNotifications = false →
      NUM_BUFFERED_ITEMS (SET_NEXT_POSITION s.notificationReadPosition)
        s.notificationWritePosition > 0 →
      handleCharValIndCfm localData cfm s =
        { s with
          notificationReadPosition := SET_NEXT_POSITION s.notificationReadPosition
          currentState := NOTIFICATION_STATE.NOTIFICATION_OUTSTANDING
          gattCharValueNotifications := s.gattCharValueNotifications ++
            [{ cid := localData.st_ucid
               handle := (s.notificationBuffer
                 (SET_NEXT_POSITION s.notificationReadPosition)).handle
               size_value := (s.notificationBuffer
                 (SET_NEXT_POSITION s.notificationReadPosition)).dataLenInBytes
               value := (s.notificationBuffer
                 (SET_NEXT_POSITION s.notificationReadPosition)).notification }] }) ∧
    (cfm.result ≠ sys_status_success →
      handleCharValIndCfm localData cfm s
        = { s with currentState := NOTIFICATION_STATE.ALL_QUIET }) := by
  constructor
  · intro hsucc hblock hne
    have hreg : notificationRegisterResult true s =
        { s with
          notificationReadPosition := SET_NEXT_POSITION s.notificationReadPosition
          currentState := NOTIFICATION_STATE.ALL_QUIET } := by
      simp [notificationRegisterResult, hdrop]
    simp only [handleCharValIndCfm, hsucc, decide_True, if_true, hreg]
    rw [notificationSendNext_of_gate localData _ rfl hblock hne]
  · intro hfail
    simp [handleCharValIndCfm, hfail, notificationRegisterResult, hdrop]

/-- C8, witness: the two-item busy example, success reported. -/
theorem handleCharValIndCfm_sends_next_on_success_witness :
    exampleBusy.dropOnNextRegistration = false ∧
    (handleCharValIndCfm exampleLocalData { result := sys_status_success }
        exampleBusy).currentState = NOTIFICATION_STATE.NOTIFICATION_OUTSTANDING ∧
    (handleCharValIndCfm exampleLocalData { result := sys_status_success }
        exampleBusy).notificationReadPosition = 1 :=
  ⟨rfl,
    by rw [(handleCharValIndCfm_sends_next_on_success exampleLocalData
        { result := sys_status_success } exampleBusy rfl).1 rfl rfl (by decide)],
    by rw [(handleCharValIndCfm_sends_next_on_success exampleLocalData
        { result := sys_status_success } exampleBusy rfl).1 rfl rfl (by decide)]; rfl⟩

/-- C8, as stated, fails: with two items buffered, no deferred drop and
notifications unblocked, a failure result leaves the buffer non-empty and yet
the handler returns with nothing transmitted and the engine quiet. -/
theorem handleCharValIndCfm_failure_does_not_send :
    ¬ (∀ (localData : LOCAL_DATA_T) (cfm : GATT_CHAR_VAL_IND_CFM_T) (s : NotificationModule),
        s.dropOnNextRegistration = false → localData.blockNotifications = false →
        NUM_BUFFERED_ITEMS (handleCharValIndCfm localData cfm s).notificationReadPosition
          (handleCharValIndCfm localData cfm s).notificationWritePosition > 0 →
        (∃ t, (handleCharValIndCfm localData cfm s).gattCharValueNotifications
            = s.gattCharValueNotifications ++ [t]) ∧
        (handleCharValIndCfm localData cfm s).currentState
          = NOTIFICATION_STATE.NOTIFICATION_OUTSTANDING) := by
  intro h
  have h1 := (h exampleLocalData { result := 1 } exampleBusy rfl rfl (by decide)).2
  revert h1
  decide

/-- C7, witness: a success registered on the two-item busy example. -/
theorem notificationRegisterResult_bookkeeping_witness :
    exampleBusy.dropOnNextRegistration = false ∧
    exampleBusy.notificationReadPosition < MAX_BUFFERED_NOTIFICATIONS ∧
    (notificationRegisterResult true exampleBusy).notificationReadPosition = 1 :=
  ⟨rfl, by decide,
    (notificationRegisterResult_bookkeeping true exampleBusy rfl (by decide)).2.1⟩

/-! ## Drop-all -/

/-- A request other than CONNECTED_MOTION never calls `stateSet` again. -/
theorem stateSetFuel_of_ne_motion (n : Nat) (new_state : CURRENT_STATE_T) (fw : Firmware)
    (h : new_state ≠ CURRENT_STATE_T.STATE_CONNECTED_MOTION) :
    stateSetFuel (n + 1) new_state fw = stateSetFuel 1 new_state fw := by
  cases new_state <;> first
    | exact absurd rfl h
    | (simp only [stateSetFuel, determineAdvertisingType]
       split_ifs <;> rfl)

theorem stateSetFuel_one_isSome (new_state : CURRENT_STATE_T) (fw : Firmware)
    (h : new_state ≠ CURRENT_STATE_T.STATE_CONNECTED_MOTION) :
    ∃ r, stateSetFuel 1 new_state fw = some r := by
  cases new_state <;> first
    | exact absurd rfl h
    | (simp only [stateSetFuel, determineAdvertisingType]
       split_ifs <;> exact ⟨_, rfl⟩)

/-- One step of the request for CONNECTED_MOTION. -/
theorem stateSetFuel_motion_step (m : Nat) (fw : Firmware) :
    stateSetFuel (m + 2) CURRENT_STATE_T.STATE_CONNECTED_MOTION fw
      = if CURRENT_STATE_T.STATE_CONNECTED_MOTION ≠ fw.localData.state then
          stateSetFuel (m + 1) CURRENT_STATE_T.STATE_CONNECTED_IDLE
            { exitAction fw with localData.state := CURRENT_STATE_T.STATE_CONNECTED_MOTION }
        else some fw := rfl

theorem stateSetFuel_motion (n : Nat) (fw : Firmware) :
    stateSetFuel (n + 2) CURRENT_STATE_T.STATE_CONNECTED_MOTION fw
      = stateSetFuel 2 CURRENT_STATE_T.STATE_CONNECTED_MOTION fw ∧
    ∃ r, stateSetFuel 2 CURRENT_STATE_T.STATE_CONNECTED_MOTION fw = some r := by
  constructor
  · rw [stateSetFuel_motion_step n, stateSetFuel_motion_step 0]
    split_ifs
    · exact stateSetFuel_of_ne_motion n _ _ (by decide)
    · rfl
  · rw [stateSetFuel_motion_step 0]
    split_ifs
    · exact stateSetFuel_one_isSome _ _ (by decide)
    · exact ⟨_, rfl⟩

/-- With a depth of two calls or more `stateSetFuel` returns, and returns what
`stateSet` returns. -/
theorem stateSetFuel_eq_stateSet (n : Nat) (new_state : CURRENT_STATE_T) (fw : Firmware) :
    stateSetFuel (n + 2) new_state fw = some (stateSet new_state fw) := by
  unfold stateSet
  by_cases h : new_state = CURRENT_STATE_T.STATE_CONNECTED_MOTION
  · subst h
    obtain ⟨h1, r, h2⟩ := stateSetFuel_motion n fw
    rw [h1, h2]
    rfl
  · obtain ⟨r, hr⟩ := stateSetFuel_one_isSome new_state fw h
    rw [stateSetFuel_of_ne_motion (n + 1) new_state fw h,
      stateSetFuel_of_ne_motion 1 new_state fw h, hr]
    rfl

/-- A request for the current state changes nothing. -/
theorem stateSet_same (new_state : CURRENT_STATE_T) (fw : Firmware)
    (h : fw.localData.state = new_state) : stateSet new_state fw = fw := by
  unfold stateSet
  cases hn : new_state <;> subst hn <;> simp [stateSetFuel, h]

/-- A request for the generic advertising state. -/
theorem stateSet_ADVERTISING (fw : Firmware)
    (h : fw.localData.state ≠ CURRENT_STATE_T.STATE_ADVERTISING) :
    stateSet CURRENT_STATE_T.STATE_ADVERTISING fw
      = enterAdvertisingState
          { exitAction fw with localData.state := determineAdvertisingType (exitAction fw) } := by
  have h2 : CURRENT_STATE_T.STATE_ADVERTISING ≠ fw.localData.state := fun e => h e.symm
  unfold stateSet
  simp only [stateSetFuel, h2, ne_eq, not_false_eq_true, if_true]
  unfold determineAdvertisingType
  split_ifs <;> rfl

/-- A request for one of the three advertising states. -/
theorem stateSet_advert (new_state : CURRENT_STATE_T) (fw : Firmware)
    (hn : new_state = CURRENT_STATE_T.STATE_DIRECT_ADVERT ∨
      new_state = CURRENT_STATE_T.STATE_FAST_ADVERT ∨
      new_state = CURRENT_STATE_T.STATE_SLOW_ADVERT)
    (h : fw.localData.state ≠ new_state) :
    stateSet new_state fw
      = enterAdvertisingState { exitAction fw with localData.state := new_state } := by
  have h2 : new_state ≠ fw.localData.state := fun e => h e.symm
  unfold stateSet
  rcases hn with rfl | rfl | rfl <;> simp [stateSetFuel, h2]

/-- A request for CONNECTED_IDLE. -/
theorem stateSet_CONNECTED_IDLE (fw : Firmware)
    (h : fw.localData.state ≠ CURRENT_STATE_T.STATE_CONNECTED_IDLE) :
    stateSet CURRENT_STATE_T.STATE_CONNECTED_IDLE fw
      = enterConnectedIdleState
          { exitAction fw with localData.state := CURRENT_STATE_T.STATE_CONNECTED_IDLE } := by
  have h2 : CURRENT_STATE_T.STATE_CONNECTED_IDLE ≠ fw.localData.state := fun e => h e.symm
  unfold stateSet
  simp [stateSetFuel, h2]

/-- A request for DISCONNECTING. -/
theorem stateSet_DISCONNECTING (fw : Firmware)
    (h : fw.localData.state ≠ CURRENT_STATE_T.STATE_DISCONNECTING) :
    stateSet CURRENT_STATE_T.STATE_DISCONNECTING fw
      = enterDisconnectingState
          { exitAction fw with localData.state := CURRENT_STATE_T.STATE_DISCONNECTING } := by
  have h2 : CURRENT_STATE_T.STATE_DISCONNECTING ≠ fw.localData.state := fun e => h e.symm
  unfold stateSet
  simp [stateSetFuel, h2]

/-- A request for IDLE. -/
theorem stateSet_IDLE (fw : Firmware)
    (h : fw.localData.state ≠ CURRENT_STATE_T.STATE_IDLE) :
    stateSet CURRENT_STATE_T.STATE_IDLE fw
      = enterIdleState { exitAction fw with localData.state := CURRENT_STATE_T.STATE_IDLE } := by
  have h2 : CURRENT_STATE_T.STATE_IDLE ≠ fw.localData.state := fun e => h e.symm
  unfold stateSet
  simp [stateSetFuel, h2]

/-- A request for CONNECTED_AUDIO. -/
theorem stateSet_audio (fw : Firmware)
    (h : fw.localData.state ≠ CURRENT_STATE_T.STATE_CONNECTED_AUDIO) :
    stateSet CURRENT_STATE_T.STATE_CONNECTED_AUDIO fw
      = enterConnectedIdleState
          { exitAction fw with localData.state := CURRENT_STATE_T.STATE_CONNECTED_AUDIO } := by
  have h2 : CURRENT_STATE_T.STATE_CONNECTED_AUDIO ≠ fw.localData.state := fun e => h e.symm
  unfold stateSet
  simp [stateSetFuel, h2]

/-- A request for CONNECTED_MOTION: the entry action asks for CONNECTED_IDLE,
so that the exit action of CONNECTED_MOTION and the entry action of
CONNECTED_IDLE follow at once. -/
theorem stateSet_CONNECTED_MOTION (fw : Firmware)
    (h : fw.localData.state ≠ CURRENT_STATE_T.STATE_CONNECTED_MOTION) :
    stateSet CURRENT_STATE_T.STATE_CONNECTED_MOTION fw
      = enterConnectedIdleState
          { exitMotionState
              { exitAction fw with localData.state := CURRENT_STATE_T.STATE_CONNECTED_MOTION }
            with localData.state := CURRENT_STATE_T.STATE_CONNECTED_IDLE } := by
  have h2 : CURRENT_STATE_T.STATE_CONNECTED_MOTION ≠ fw.localData.state := fun e => h e.symm
  unfold stateSet
  simp [stateSetFuel, h2, enterConnectedMotionState, exitAction]

/-- A request for a value that has neither an entry action nor a resolution. -/
theorem stateSet_no_entry (new_state : CURRENT_STATE_T) (fw : Firmware)
    (hn : new_state = CURRENT_STATE_T.STATE_INIT ∨ new_state = CURRENT_STATE_T.STATE_CONNECTED ∨
      new_state = CURRENT_STATE_T.STATE_CONNECTED_NON_AUDIO)
    (h : fw.localData.state ≠ new_state) :
    stateSet new_state fw = { exitAction fw with localData.state := new_state } := by
  have h2 : new_state ≠ fw.localData.state := fun e => h e.symm
  unfold stateSet
  rcases hn with rfl | rfl | rfl <;> simp [stateSetFuel, h2]

/-! ### What the actions leave alone -/

theorem SameButStateMachineFields.refl (ld : LOCAL_DATA_T) : SameButStateMachineFields ld ld :=
  ⟨ld.state, ld.st_ucid, ld.advertising_tid, ld.disconnect_counter, ld.next_report_timer_id,
    ld.disconnect_reason, rfl⟩

theorem SameButStateMachineFields.trans {a b c : LOCAL_DATA_T}
    (h1 : SameButStateMachineFields a b) (h2 : SameButStateMachineFields b c) :
    SameButStateMachineFields a c := by
  obtain ⟨st, ucid, atid, dc, nrt, dr, rfl⟩ := h1
  obtain ⟨st2, ucid2, atid2, dc2, nrt2, dr2, rfl⟩ := h2
  exact ⟨st2, ucid2, atid2, dc2, nrt2, dr2, rfl⟩

theorem SameButStateMachineFields.setState (ld : LOCAL_DATA_T) (st : CURRENT_STATE_T) :
    SameButStateMachineFields ld { ld with state := st } :=
  ⟨st, ld.st_ucid, ld.advertising_tid, ld.disconnect_counter, ld.next_report_timer_id,
    ld.disconnect_reason, rfl⟩

@[simp] theorem Firmware.call_localData (fw : Firmware) (c : SdkCall) :
    (fw.call c).localData = fw.localData := rfl

@[simp] theorem Firmware.call_notifications (fw : Firmware) (c : SdkCall) :
    (fw.call c).notifications = fw.notifications := rfl

@[simp] theorem Firmware.call_sdkCalls (fw : Firmware) (c : SdkCall) :
    (fw.call c).sdkCalls = fw.sdkCalls ++ [c] := rfl

@[simp] theorem AppUpdateWhiteList_localData (fw : Firmware) :
    (AppUpdateWhiteList fw).localData = fw.localData := by
  unfold AppUpdateWhiteList
  simp only []
  split_ifs <;> rfl

@[simp] theorem AppUpdateWhiteList_notifications (fw : Firmware) :
    (AppUpdateWhiteList fw).notifications = fw.notifications := by
  unfold AppUpdateWhiteList
  simp only []
  split_ifs <;> rfl

@[simp] theorem HidDataInit_localData (fw : Firmware) :
    (HidDataInit fw).localData = fw.localData := by
  unfold HidDataInit
  simp only []
  split_ifs <;> rfl

@[simp] theorem HidDataInit_notifications (fw : Firmware) :
    (HidDataInit fw).notifications = fw.notifications := by
  unfold HidDataInit
  simp only []
  split_ifs <;> rfl

theorem AdvStart_localData (fast : Bool) (mode : gap_mode_connect) (fw : Firmware) :
    (AdvStart fast mode fw).localData =
      { fw.localData with
        st_ucid := GATT_INVALID_UCID
        advertising_tid :=
          if mode = gap_mode_connect.gap_mode_connect_undirected then fw.timerPool 0
          else fw.localData.advertising_tid } := by
  unfold AdvStart TimerCreate
  simp only []
  split_ifs <;> rfl

@[simp] theorem AdvStart_notifications (fast : Bool) (mode : gap_mode_connect) (fw : Firmware) :
    (AdvStart fast mode fw).notifications = fw.notifications := by
  unfold AdvStart TimerCreate
  simp only []
  split_ifs <;> rfl

theorem exitAction_same (fw : Firmware) :
    SameButStateMachineFields fw.localData (exitAction fw).localData := by
  unfold exitAction
  split
  · simp only [exitInitState, AppUpdateWhiteList_localData, Firmware.call_localData]
    exact SameButStateMachineFields.refl _
  · exact ⟨_, _, _, 0, _, _, rfl⟩
  · exact ⟨_, _, _, 0, _, _, rfl⟩
  · exact ⟨_, _, _, _, TIMER_INVALID, _, rfl⟩
  · exact SameButStateMachineFields.refl _
  · exact SameButStateMachineFields.refl _

@[simp] theorem exitAction_state (fw : Firmware) :
    (exitAction fw).localData.state = fw.localData.state := by
  unfold exitAction
  split <;> simp [exitInitState, exitConnectedState, handleResetIdleTimer, exitMotionState,
    exitIdleState]

@[simp] theorem exitAction_notifications (fw : Firmware) :
    (exitAction fw).notifications = fw.notifications := by
  unfold exitAction
  split <;> simp [exitInitState, exitConnectedState, handleResetIdleTimer, exitMotionState,
    exitIdleState]

theorem enterAdvertisingState_same (fw : Firmware) :
    SameButStateMachineFields fw.localData (enterAdvertisingState fw).localData := by
  unfold enterAdvertisingState
  split_ifs <;> rw [AdvStart_localData] <;> exact ⟨_, GATT_INVALID_UCID, _, _, _, _, rfl⟩

@[simp] theorem enterAdvertisingState_state (fw : Firmware) :
    (enterAdvertisingState fw).localData.state = fw.localData.state := by
  unfold enterAdvertisingState
  split_ifs <;> rw [AdvStart_localData]

@[simp] theorem enterAdvertisingState_notifications (fw : Firmware) :
    (enterAdvertisingState fw).notifications = fw.notifications := by
  unfold enterAdvertisingState
  split_ifs <;> simp

theorem enterConnectedIdleState_same (fw : Firmware) :
    SameButStateMachineFields fw.localData (enterConnectedIdleState fw).localData :=
  ⟨_, _, _, 0, _, _, rfl⟩

theorem enterDisconnectingState_same (fw : Firmware) :
    SameButStateMachineFields fw.localData (enterDisconnectingState fw).localData :=
  ⟨_, _, _, _, _, DEFAULT_DISCONNECTION_REASON, rfl⟩

theorem enterIdleState_same (fw : Firmware) :
    SameButStateMachineFields fw.localData (enterIdleState fw).localData :=
  SameButStateMachineFields.refl _

theorem exitMotionState_same (fw : Firmware) :
    SameButStateMachineFields fw.localData (exitMotionState fw).localData :=
  ⟨_, _, _, _, TIMER_INVALID, _, rfl⟩

/-- The state machine writes no field of the session record but its own. -/
theorem stateSet_same_fields (new_state : CURRENT_STATE_T) (fw : Firmware) :
    SameButStateMachineFields fw.localData (stateSet new_state fw).localData := by
  by_cases h : fw.localData.state = new_state
  · rw [stateSet_same new_state fw h]
    exact SameButStateMachineFields.refl _
  · have hexit := exitAction_same fw
    have hset : ∀ st, SameButStateMachineFields fw.localData
        ({ exitAction fw with localData.state := st } : Firmware).localData :=
      fun st => hexit.trans (SameButStateMachineFields.setState _ st)
    cases new_state with
    | STATE_INIT =>
      rw [stateSet_no_entry _ fw (Or.inl rfl) h]; exact hset _
    | STATE_CONNECTED =>
      rw [stateSet_no_entry _ fw (Or.inr (Or.inl rfl)) h]; exact hset _
    | STATE_CONNECTED_NON_AUDIO =>
      rw [stateSet_no_entry _ fw (Or.inr (Or.inr rfl)) h]; exact hset _
    | STATE_DIRECT_ADVERT =>
      rw [stateSet_advert _ fw (Or.inl rfl) h]
      exact (hset _).trans (enterAdvertisingState_same _)
    | STATE_FAST_ADVERT =>
      rw [stateSet_advert _ fw (Or.inr (Or.inl rfl)) h]
      exact (hset _).trans (enterAdvertisingState_same _)
    | STATE_SLOW_ADVERT =>
      rw [stateSet_advert _ fw (Or.inr (Or.inr rfl)) h]
      exact (hset _).trans (enterAdvertisingState_same _)
    | STATE_ADVERTISING =>
      rw [stateSet_ADVERTISING fw h]
      exact (hset _).trans (enterAdvertisingState_same _)
    | STATE_CONNECTED_IDLE =>
      rw [stateSet_CONNECTED_IDLE fw h]
      exact (hset _).trans (enterConnectedIdleState_same _)
    | STATE_CONNECTED_AUDIO =>
      rw [stateSet_audio fw h]
      exact (hset _).trans (enterConnectedIdleState_same _)
    | STATE_CONNECTED_MOTION =>
      rw [stateSet_CONNECTED_MOTION fw h]
      exact (((hset _).trans (exitMotionState_same _)).trans
        (SameButStateMachineFields.setState _ _)).trans (enterConnectedIdleState_same _)
    | STATE_DISCONNECTING =>
      rw [stateSet_DISCONNECTING fw h]
      exact (hset _).trans (enterDisconnectingState_same _)
    | STATE_IDLE =>
      rw [stateSet_IDLE fw h]
      exact (hset _).trans (enterIdleState_same _)

/-- The advertising type depends on the bonding record only. -/
theorem determineAdvertisingType_congr (fw fw2 : Firmware)
    (hb : fw2.localData.bonded = fw.localData.bonded)
    (ha : fw2.localData.bonded_bd_addr = fw.localData.bonded_bd_addr) :
    determineAdvertisingType fw2 = determineAdvertisingType fw := by
  unfold determineAdvertisingType
  rw [hb, ha]

theorem SameButStateMachineFields.bonded {a b : LOCAL_DATA_T}
    (h : SameButStateMachineFields a b) : b.bonded = a.bonded := by
  obtain ⟨_, _, _, _, _, _, rfl⟩ := h
  rfl

theorem SameButStateMachineFields.bonded_bd_addr {a b : LOCAL_DATA_T}
    (h : SameButStateMachineFields a b) : b.bonded_bd_addr = a.bonded_bd_addr := by
  obtain ⟨_, _, _, _, _, _, rfl⟩ := h
  rfl

theorem SameButStateMachineFields.central_device_irk {a b : LOCAL_DATA_T}
    (h : SameButStateMachineFields a b) : b.central_device_irk = a.central_device_irk := by
  obtain ⟨_, _, _, _, _, _, rfl⟩ := h
  rfl

theorem SameButStateMachineFields.diversifier {a b : LOCAL_DATA_T}
    (h : SameButStateMachineFields a b) : b.diversifier = a.diversifier := by
  obtain ⟨_, _, _, _, _, _, rfl⟩ := h
  rfl

theorem SameButStateMachineFields.blockNotifications {a b : LOCAL_DATA_T}
    (h : SameButStateMachineFields a b) : b.blockNotifications = a.blockNotifications := by
  obtain ⟨_, _, _, _, _, _, rfl⟩ := h
  rfl

theorem determineAdvertisingType_exitAction (fw : Firmware) :
    determineAdvertisingType (exitAction fw) = determineAdvertisingType fw :=
  determineAdvertisingType_congr fw (exitAction fw) (exitAction_same fw).bonded
    (exitAction_same fw).bonded_bd_addr

/-- The state that `stateSet` leaves in the session record. -/
theorem stateSet_state (new_state : CURRENT_STATE_T) (fw : Firmware) :
    (stateSet new_state fw).localData.state =
      if new_state = fw.localData.state then new_state
      else if new_state = CURRENT_STATE_T.STATE_ADVERTISING then determineAdvertisingType fw
      else if new_state = CURRENT_STATE_T.STATE_CONNECTED_MOTION then
        CURRENT_STATE_T.STATE_CONNECTED_IDLE
      else new_state := by
  by_cases h : fw.localData.state = new_state
  · rw [stateSet_same new_state fw h]
    simp [h]
  · have h2 : ¬ new_state = fw.localData.state := fun e => h e.symm
    rw [if_neg h2]
    cases new_state with
    | STATE_INIT => rw [stateSet_no_entry _ fw (Or.inl rfl) h]; rfl
    | STATE_CONNECTED => rw [stateSet_no_entry _ fw (Or.inr (Or.inl rfl)) h]; rfl
    | STATE_CONNECTED_NON_AUDIO => rw [stateSet_no_entry _ fw (Or.inr (Or.inr rfl)) h]; rfl
    | STATE_DIRECT_ADVERT => rw [stateSet_advert _ fw (Or.inl rfl) h]; simp
    | STATE_FAST_ADVERT => rw [stateSet_advert _ fw (Or.inr (Or.inl rfl)) h]; simp
    | STATE_SLOW_ADVERT => rw [stateSet_advert _ fw (Or.inr (Or.inr rfl)) h]; simp
    | STATE_ADVERTISING =>
      rw [stateSet_ADVERTISING fw h]
      simp [determineAdvertisingType_exitAction]
    | STATE_CONNECTED_IDLE => rw [stateSet_CONNECTED_IDLE fw h]; rfl
    | STATE_CONNECTED_AUDIO => rw [stateSet_audio fw h]; rfl
    | STATE_CONNECTED_MOTION => rw [stateSet_CONNECTED_MOTION fw h]; rfl
    | STATE_DISCONNECTING => rw [stateSet_DISCONNECTING fw h]; rfl
    | STATE_IDLE => rw [stateSet_IDLE fw h]; rfl

/-- Only the entry into IDLE touches the notification engine. -/
theorem stateSet_notifications (new_state : CURRENT_STATE_T) (fw : Firmware)
    (hn : new_state ≠ CURRENT_STATE_T.STATE_IDLE) :
    (stateSet new_state fw).notifications = fw.notifications := by
  by_cases h : fw.localData.state = new_state
  · rw [stateSet_same new_state fw h]
  · cases new_state with
    | STATE_INIT => rw [stateSet_no_entry _ fw (Or.inl rfl) h]; simp
    | STATE_CONNECTED => rw [stateSet_no_entry _ fw (Or.inr (Or.inl rfl)) h]; simp
    | STATE_CONNECTED_NON_AUDIO => rw [stateSet_no_entry _ fw (Or.inr (Or.inr rfl)) h]; simp
    | STATE_DIRECT_ADVERT => rw [stateSet_advert _ fw (Or.inl rfl) h]; simp
    | STATE_FAST_ADVERT => rw [stateSet_advert _ fw (Or.inr (Or.inl rfl)) h]; simp
    | STATE_SLOW_ADVERT => rw [stateSet_advert _ fw (Or.inr (Or.inr rfl)) h]; simp
    | STATE_ADVERTISING => rw [stateSet_ADVERTISING fw h]; simp
    | STATE_CONNECTED_IDLE =>
      rw [stateSet_CONNECTED_IDLE fw h]; simp [enterConnectedIdleState, handleResetIdleTimer]
    | STATE_CONNECTED_AUDIO =>
      rw [stateSet_audio fw h]; simp [enterConnectedIdleState, handleResetIdleTimer]
    | STATE_CONNECTED_MOTION =>
      rw [stateSet_CONNECTED_MOTION fw h]
      simp [enterConnectedIdleState, handleResetIdleTimer, exitMotionState]
    | STATE_DISCONNECTING =>
      rw [stateSet_DISCONNECTING fw h]; simp [enterDisconnectingState]
    | STATE_IDLE => exact absurd rfl hn

/-- The entry into IDLE drops the buffered notifications. -/
theorem stateSet_IDLE_notifications (fw : Firmware)
    (h : fw.localData.state ≠ CURRENT_STATE_T.STATE_IDLE) :
    (stateSet CURRENT_STATE_T.STATE_IDLE fw).notifications
      = notificationDropAll fw.notifications := by
  rw [stateSet_IDLE fw h]
  simp [enterIdleState]

theorem determineAdvertisingType_cases (fw : Firmware) :
    determineAdvertisingType fw = CURRENT_STATE_T.STATE_DIRECT_ADVERT ∨
    determineAdvertisingType fw = CURRENT_STATE_T.STATE_FAST_ADVERT := by
  unfold determineAdvertisingType
  split_ifs
  · exact Or.inl rfl
  · exact Or.inr rfl

/-! ## Drop-all, continued -/

/-- C11: drop-all is idempotent when idle. For every engine state with no
transmission outstanding, calling `notificationDropAll` twice in a row yields
exactly the same engine state as calling it once, and that state is the empty
buffer (both cursors 0, occupancy 0). -/
theorem notificationDropAll_idempotent_when_idle (s : NotificationModule)
    (hidle : s.currentState = NOTIFICATION_STATE.ALL_QUIET) :
    notificationDropAll (notificationDropAll s) = notificationDropAll s ∧
    (notificationDropAll s).notificationReadPosition = 0 ∧
    (notificationDropAll s).notificationWritePosition = 0 ∧
    NUM_BUFFERED_ITEMS (notificationDropAll s).notificationReadPosition
      (notificationDropAll s).notificationWritePosition = 0 := by
  have h1 : notificationDropAll s
      = { s with notificationWritePosition := 0, notificationReadPosition := 0 } := by
    simp [notificationDropAll, hidle]
  rw [h1]
  refine ⟨?_, rfl, rfl, ?_⟩
  · simp [notificationDropAll, hidle]
  · show NUM_BUFFERED_ITEMS 0 0 = 0
    decide

/-- C11, witness: the idle example with 19 buffered items. -/
theorem notificationDropAll_idempotent_when_idle_witness :
    exampleLastSlot.currentState = NOTIFICATION_STATE.ALL_QUIET ∧
    (notificationDropAll (notificationDropAll exampleLastSlot)).notificationWritePosition = 0 :=
  ⟨rfl, by
    rw [(notificationDropAll_idempotent_when_idle exampleLastSlot rfl).1]
    exact (notificationDropAll_idempotent_when_idle exampleLastSlot rfl).2.2.1⟩

/-! ## The state machine -/

/-- C12: state invariant. For every current state among the nine defined
states and every request among those nine or the virtual `STATE_ADVERTISING`,
`localData.state` after `stateSet` returns is one of the nine defined states,
and is not `STATE_ADVERTISING`. -/
theorem stateSet_state_is_defined (new_state : CURRENT_STATE_T) (fw : Firmware)
    (hcur : IsDefinedState fw.localData.state)
    (hreq : IsDefinedState new_state ∨ new_state = CURRENT_STATE_T.STATE_ADVERTISING) :
    IsDefinedState (stateSet new_state fw).localData.state ∧
    (stateSet new_state fw).localData.state ≠ CURRENT_STATE_T.STATE_ADVERTISING := by
  have hdef : IsDefinedState (stateSet new_state fw).localData.state := by
    rw [stateSet_state]
    split_ifs with h1 h2 h3
    · rw [h1]; exact hcur
    · rcases determineAdvertisingType_cases fw with h | h <;> rw [h] <;> decide
    · decide
    · rcases hreq with h | h
      · exact h
      · exact absurd h h2
  refine ⟨hdef, ?_⟩
  intro hadv
  rw [hadv] at hdef
  revert hdef
  decide

/-- C12, witness: CONNECTED_MOTION requested while CONNECTED_IDLE. -/
theorem stateSet_state_is_defined_witness :
    IsDefinedState exampleConnected.localData.state ∧
    IsDefinedState (stateSet CURRENT_STATE_T.STATE_CONNECTED_MOTION
      exampleConnected).localData.state :=
  ⟨by decide,
    (stateSet_state_is_defined CURRENT_STATE_T.STATE_CONNECTED_MOTION exampleConnected
      (by decide) (Or.inl (by decide))).1⟩

/-- C13: advertising-type resolution (privacy support off). For every current
state (a stored state is never `STATE_ADVERTISING`), `stateSet(STATE_ADVERTISING)`
stores DirectedAdvertising if and only if `localData.bonded` is TRUE and the
bonded peer address is not a resolvable random address, and stores
FastAdvertising otherwise; in particular an unbonded device resolves to
FastAdvertising and a bonded device with a non-resolvable stored address to
DirectedAdvertising. -/
theorem stateSet_ADVERTISING_resolution (fw : Firmware)
    (hcur : fw.localData.state ≠ CURRENT_STATE_T.STATE_ADVERTISING) :
    ((stateSet CURRENT_STATE_T.STATE_ADVERTISING fw).localData.state
        = CURRENT_STATE_T.STATE_DIRECT_ADVERT ↔
      (fw.localData.bonded = true ∧
        IsAddressResolvableRandom fw.localData.bonded_bd_addr = false)) ∧
    (¬ (fw.localData.bonded = true ∧
        IsAddressResolvableRandom fw.localData.bonded_bd_addr = false) →
      (stateSet CURRENT_STATE_T.STATE_ADVERTISING fw).localData.state
        = CURRENT_STATE_T.STATE_FAST_ADVERT) ∧
    (fw.localData.bonded = false →
      (stateSet CURRENT_STATE_T.STATE_ADVERTISING fw).localData.state
        = CURRENT_STATE_T.STATE_FAST_ADVERT) ∧
    (fw.localData.bonded = true →
      IsAddressResolvableRandom fw.localData.bonded_bd_addr = false →
      (stateSet CURRENT_STATE_T.STATE_ADVERTISING fw).localData.state
        = CURRENT_STATE_T.STATE_DIRECT_ADVERT) := by
  have hst : (stateSet CURRENT_STATE_T.STATE_ADVERTISING fw).localData.state
      = determineAdvertisingType fw := by
    rw [stateSet_state, if_neg (fun e => hcur e.symm), if_pos rfl]
  rw [hst]
  unfold determineAdvertisingType
  refine ⟨?_, ?_, ?_, ?_⟩
  · split_ifs with h
    · simp [h]
    · simp [h]
  · intro h
    rw [if_neg h]
  · intro h
    simp [h]
  · intro hb ha
    simp [hb, ha]

/-- C13, witness: the connected example is bonded to a public address. -/
theorem stateSet_ADVERTISING_resolution_witness :
    exampleConnected.localData.state ≠ CURRENT_STATE_T.STATE_ADVERTISING ∧
    (stateSet CURRENT_STATE_T.STATE_ADVERTISING exampleConnected).localData.state
      = CURRENT_STATE_T.STATE_DIRECT_ADVERT :=
  ⟨by decide,
    (stateSet_ADVERTISING_resolution exampleConnected (by decide)).2.2.2 rfl (by decide)⟩

/-- C14: a same-state request is a no-op. For every current state `s`,
`stateSet(s)` leaves the session record, the notification engine and the data
of the services unchanged and makes no call at all: no exit action, no entry
action, no advertising start, no disconnect request, no timer change. -/
theorem stateSet_same_state_noop (fw : Firmware) :
    stateSet fw.localData.state fw = fw :=
  stateSet_same fw.localData.state fw rfl

/-! ### The disconnect-complete handler -/

@[simp] theorem RemoteDataInit_state (fw : Firmware) :
    (RemoteDataInit fw).localData.state = fw.localData.state := by
  simp [RemoteDataInit]

@[simp] theorem RemoteDataInit_bonded (fw : Firmware) :
    (RemoteDataInit fw).localData.bonded = fw.localData.bonded := by
  simp [RemoteDataInit]

@[simp] theorem RemoteDataInit_bonded_bd_addr (fw : Firmware) :
    (RemoteDataInit fw).localData.bonded_bd_addr = fw.localData.bonded_bd_addr := by
  simp [RemoteDataInit]

@[simp] theorem RemoteDataInit_blockNotifications (fw : Firmware) :
    (RemoteDataInit fw).localData.blockNotifications = true := by
  simp [RemoteDataInit]

@[simp] theorem RemoteDataInit_notifications (fw : Firmware) :
    (RemoteDataInit fw).notifications = fw.notifications := by
  simp [RemoteDataInit]

/-- The handler in a state with a link (or while disconnecting): the session
data is initialised, then the state machine is asked for the generic
advertising state after a link loss or when not bonded, and for IDLE
otherwise. -/
theorem handleSignalLmEvDisconnectComplete_linked
    (ev : HCI_EV_DATA_DISCONNECT_COMPLETE_T) (fw : Firmware)
    (hota : fw.g_ota_reset_required = false)
    (hcur : fw.localData.state = CURRENT_STATE_T.STATE_DISCONNECTING ∨
      fw.localData.state = CURRENT_STATE_T.STATE_CONNECTED_IDLE ∨
      fw.localData.state = CURRENT_STATE_T.STATE_CONNECTED_MOTION ∨
      fw.localData.state = CURRENT_STATE_T.STATE_CONNECTED_AUDIO) :
    ∃ fw4 : Firmware,
      fw4.localData.state = fw.localData.state ∧
      fw4.localData.bonded = fw.localData.bonded ∧
      fw4.localData.bonded_bd_addr = fw.localData.bonded_bd_addr ∧
      fw4.localData.blockNotifications = true ∧
      fw4.notifications = fw.notifications ∧
      handleSignalLmEvDisconnectComplete ev fw =
        if ev.reason = HCI_ERROR_CONN_TIMEOUT ∨ fw.localData.bonded = false then
          stateSet CURRENT_STATE_T.STATE_ADVERTISING fw4
        else stateSet CURRENT_STATE_T.STATE_IDLE fw4 := by
  refine ⟨RemoteDataInit
    { ({ fw with localData.blockNotifications := true } : Firmware).call
        (SdkCall.TimerDelete fw.localData.recrypt_tid) with
      localData.recrypt_tid := TIMER_INVALID }, ?_, ?_, ?_, ?_, ?_, ?_⟩
  · simp
  · simp
  · simp
  · simp
  · simp
  · unfold handleSignalLmEvDisconnectComplete
    simp only [hota, Bool.false_eq_true, if_false, Firmware.call_localData, hcur, if_true,
      RemoteDataInit_bonded]

/-- C15: the disconnect-complete transition rule. When
`handleSignalLmEvDisconnectComplete` runs with the current state Disconnecting,
ConnectedIdle, ConnectedMotion or ConnectedAudio and no OTA reset pending, the
resulting state is an advertising state if the reason is connection timeout or
`localData.bonded` is FALSE (Directed exactly when bonded to an address that is
not resolvable random, Fast otherwise) and is Idle otherwise; in particular a
link-loss disconnect while bonded goes to advertising, not Idle. -/
theorem handleSignalLmEvDisconnectComplete_transition
    (ev : HCI_EV_DATA_DISCONNECT_COMPLETE_T) (fw : Firmware)
    (hota : fw.g_ota_reset_required = false)
    (hcur : fw.localData.state = CURRENT_STATE_T.STATE_DISCONNECTING ∨
      fw.localData.state = CURRENT_STATE_T.STATE_CONNECTED_IDLE ∨
      fw.localData.state = CURRENT_STATE_T.STATE_CONNECTED_MOTION ∨
      fw.localData.state = CURRENT_STATE_T.STATE_CONNECTED_AUDIO) :
    ((ev.reason = HCI_ERROR_CONN_TIMEOUT ∨ fw.localData.bonded = false) →
      ((handleSignalLmEvDisconnectComplete ev fw).localData.state
          = CURRENT_STATE_T.STATE_DIRECT_ADVERT ∨
        (handleSignalLmEvDisconnectComplete ev fw).localData.state
          = CURRENT_STATE_T.STATE_FAST_ADVERT) ∧
      ((handleSignalLmEvDisconnectComplete ev fw).localData.state
          = CURRENT_STATE_T.STATE_DIRECT_ADVERT ↔
        (fw.localData.bonded = true ∧
          IsAddressResolvableRandom fw.localData.bonded_bd_addr = false))) ∧
    (¬ (ev.reason = HCI_ERROR_CONN_TIMEOUT ∨ fw.localData.bonded = false) →
      (handleSignalLmEvDisconnectComplete ev fw).localData.state
        = CURRENT_STATE_T.STATE_IDLE) ∧
    (ev.reason = HCI_ERROR_CONN_TIMEOUT → fw.localData.bonded = true →
      (handleSignalLmEvDisconnectComplete ev fw).localData.state
        ≠ CURRENT_STATE_T.STATE_IDLE) := by
  obtain ⟨fw4, hst, hb, ha, _, _, heq⟩ :=
    handleSignalLmEvDisconnectComplete_linked ev fw hota hcur
  have hne_adv : ¬ CURRENT_STATE_T.STATE_ADVERTISING = fw4.localData.state := by
    rw [hst]; rcases hcur with h | h | h | h <;> rw [h] <;> decide
  have hne_idle : ¬ CURRENT_STATE_T.STATE_IDLE = fw4.localData.state := by
    rw [hst]; rcases hcur with h | h | h | h <;> rw [h] <;> decide
  have hadv : (ev.reason = HCI_ERROR_CONN_TIMEOUT ∨ fw.localData.bonded = false) →
      (handleSignalLmEvDisconnectComplete ev fw).localData.state
        = determineAdvertisingType fw := by
    intro hc
    rw [heq, if_pos hc, stateSet_state, if_neg hne_adv, if_pos rfl]
    exact determineAdvertisingType_congr fw fw4 hb ha
  refine ⟨?_, ?_, ?_⟩
  · intro hc
    rw [hadv hc]
    refine ⟨determineAdvertisingType_cases fw, ?_⟩
    unfold determineAdvertisingType
    split_ifs with h <;> simp [h]
  · intro hc
    rw [heq, if_neg hc, stateSet_state, if_neg hne_idle]
    simp
  · intro hr _
    rw [hadv (Or.inl hr)]
    rcases determineAdvertisingType_cases fw with h | h <;> rw [h] <;> decide

/-- C15, witness: a link loss while connected, idle and bonded to a public
address. -/
theorem handleSignalLmEvDisconnectComplete_transition_witness :
    exampleConnected.g_ota_reset_required = false ∧
    exampleConnected.localData.state = CURRENT_STATE_T.STATE_CONNECTED_IDLE ∧
    (handleSignalLmEvDisconnectComplete { reason := HCI_ERROR_CONN_TIMEOUT }
        exampleConnected).localData.state ≠ CURRENT_STATE_T.STATE_IDLE :=
  ⟨rfl, rfl,
    (handleSignalLmEvDisconnectComplete_transition { reason := HCI_ERROR_CONN_TIMEOUT }
      exampleConnected rfl (Or.inr (Or.inl rfl))).2.2 rfl rfl⟩

/-- C16 (amended): a link loss keeps the buffered notifications. When the
machine is in ConnectedIdle with `localData.bonded` TRUE and a disconnect-complete
event with reason connection timeout is handled (no OTA reset pending), then on
return the notification engine is exactly as it was (cursors, buffered items,
outstanding state and deferred-drop flag), `localData.blockNotifications` is
TRUE, and the machine is advertising: directed when the bonded address is not
resolvable random, at the fast rate otherwise. -/
theorem handleSignalLmEvDisconnectComplete_link_loss_keeps_notifications
    (ev : HCI_EV_DATA_DISCONNECT_COMPLETE_T) (fw : Firmware)
    (hota : fw.g_ota_reset_required = false)
    (hcur : fw.localData.state = CURRENT_STATE_T.STATE_CONNECTED_IDLE)
    (hbonded : fw.localData.bonded = true)
    (hreason : ev.reason = HCI_ERROR_CONN_TIMEOUT) :
    (handleSignalLmEvDisconnectComplete ev fw).notifications = fw.notifications ∧
    (handleSignalLmEvDisconnectComplete ev fw).localData.blockNotifications = true ∧
    (handleSignalLmEvDisconnectComplete ev fw).localData.state
      = (if IsAddressResolvableRandom fw.localData.bonded_bd_addr = false then
          CURRENT_STATE_T.STATE_DIRECT_ADVERT
        else CURRENT_STATE_T.STATE_FAST_ADVERT) := by
  obtain ⟨fw4, hst, hb, ha, hblock, hnot, heq⟩ :=
    handleSignalLmEvDisconnectComplete_linked ev fw hota (Or.inr (Or.inl hcur))
  have hne_adv : ¬ CURRENT_STATE_T.STATE_ADVERTISING = fw4.localData.state := by
    rw [hst, hcur]; decide
  rw [heq, if_pos (Or.inl hreason)]
  refine ⟨?_, ?_, ?_⟩
  · rw [stateSet_notifications _ _ (by decide), hnot]
  · rw [(stateSet_same_fields _ fw4).blockNotifications, hblock]
  · rw [stateSet_state, if_neg hne_adv, if_pos rfl]
    unfold determineAdvertisingType
    rw [hb, ha, hbonded]
    simp

/-- C16, witness: a link loss on the connected example, which holds two
buffered notifications. -/
theorem handleSignalLmEvDisconnectComplete_link_loss_keeps_notifications_witness :
    exampleConnected.localData.bonded = true ∧
    (handleSignalLmEvDisconnectComplete { reason := HCI_ERROR_CONN_TIMEOUT }
        exampleConnected).notifications = exampleConnected.notifications :=
  ⟨rfl,
    (handleSignalLmEvDisconnectComplete_link_loss_keeps_notifications
      { reason := HCI_ERROR_CONN_TIMEOUT } exampleConnected rfl rfl rfl rfl).1⟩

/-- C16, as stated, fails: on the connected example (ConnectedIdle, bonded, two
notifications buffered, none outstanding) a disconnect-complete event with
reason connection timeout leaves the write cursor at 2 and the deferred-drop
flag clear: nothing was dropped. -/
theorem handleSignalLmEvDisconnectComplete_link_loss_does_not_drop :
    ¬ (∀ (ev : HCI_EV_DATA_DISCONNECT_COMPLETE_T) (fw : Firmware),
        fw.g_ota_reset_required = false →
        fw.localData.state = CURRENT_STATE_T.STATE_CONNECTED_IDLE →
        fw.localData.bonded = true →
        ev.reason = HCI_ERROR_CONN_TIMEOUT →
        (fw.notifications.currentState = NOTIFICATION_STATE.ALL_QUIET →
          (handleSignalLmEvDisconnectComplete ev fw).notifications.notificationReadPosition = 0 ∧
          (handleSignalLmEvDisconnectComplete ev fw).notifications.notificationWritePosition
            = 0) ∧
        (fw.notifications.currentState = NOTIFICATION_STATE.NOTIFICATION_OUTSTANDING →
          (handleSignalLmEvDisconnectComplete ev fw).notifications.dropOnNextRegistration
            = true)) := by
  intro h
  have h1 := ((h { reason := HCI_ERROR_CONN_TIMEOUT } exampleConnected rfl rfl rfl rfl).1 rfl).2
  revert h1
  decide

/-! ### The connect confirmation -/

theorem exitAction_of_advertising (fw : Firmware)
    (hcur : fw.localData.state = CURRENT_STATE_T.STATE_FAST_ADVERT ∨
      fw.localData.state = CURRENT_STATE_T.STATE_SLOW_ADVERT ∨
      fw.localData.state = CURRENT_STATE_T.STATE_DIRECT_ADVERT) :
    exitAction fw = fw := by
  unfold exitAction
  rcases hcur with h | h | h <;> rw [h]

theorem handleClearPairing_localData (fw : Firmware) :
    (handleClearPairing fw).localData
      = { fw.localData with bonded := false, encrypt_enabled := false } := by
  simp [handleClearPairing]

@[simp] theorem handleClearPairing_notifications (fw : Firmware) :
    (handleClearPairing fw).notifications = fw.notifications := by
  simp [handleClearPairing]

/-- C17: an unresolvable peer is torn down, never accepted. When a successful
connect confirmation is handled in an advertising state while `localData.bonded`
is TRUE, the bonded address is resolvable random and the connecting address
fails resolution against the stored IRK, the handler stores the UCID, enters
Disconnecting and makes exactly one call, the disconnect request carrying
`ls_err_authentication`; nothing else changes: `localData.con_bd_addr` is not
updated, no security request is made and no entry action of ConnectedIdle
runs. -/
theorem handleSignalGattConnectCfm_unresolved_peer (ev : GATT_CONNECT_CFM_T) (fw : Firmware)
    (hcur : fw.localData.state = CURRENT_STATE_T.STATE_FAST_ADVERT ∨
      fw.localData.state = CURRENT_STATE_T.STATE_SLOW_ADVERT ∨
      fw.localData.state = CURRENT_STATE_T.STATE_DIRECT_ADVERT)
    (hres : ev.result = sys_status_success)
    (hbonded : fw.localData.bonded = true)
    (hrandom : IsAddressResolvableRandom fw.localData.bonded_bd_addr = true)
    (hfail : fw.SMPrivacyMatchAddress ev.bd_addr fw.localData.central_device_irk.irk < 0) :
    handleSignalGattConnectCfm ev fw =
      { fw with
        localData :=
          { fw.localData with
            st_ucid := ev.cid
            state := CURRENT_STATE_T.STATE_DISCONNECTING
            disconnect_reason := DEFAULT_DISCONNECTION_REASON }
        sdkCalls := fw.sdkCalls ++
          [SdkCall.GattDisconnectReasonReq ev.cid ls_err.ls_err_authentication] } ∧
    (handleSignalGattConnectCfm ev fw).localData.state
      = CURRENT_STATE_T.STATE_DISCONNECTING ∧
    (handleSignalGattConnectCfm ev fw).localData.con_bd_addr = fw.localData.con_bd_addr ∧
    (handleSignalGattConnectCfm ev fw).sdkCalls = fw.sdkCalls ++
      [SdkCall.GattDisconnectReasonReq ev.cid ls_err.ls_err_authentication] := by
  have key : ∀ X : Firmware, X.localData.state = fw.localData.state →
      stateSet CURRENT_STATE_T.STATE_DISCONNECTING X
        = enterDisconnectingState
            { X with localData.state := CURRENT_STATE_T.STATE_DISCONNECTING } := by
    intro X hX
    have hneX : X.localData.state ≠ CURRENT_STATE_T.STATE_DISCONNECTING := by
      rw [hX]
      rcases hcur with h | h | h <;> rw [h] <;> decide
    rw [stateSet_DISCONNECTING X hneX, exitAction_of_advertising X (by rw [hX]; exact hcur)]
  have hmain : handleSignalGattConnectCfm ev fw =
      { fw with
        localData :=
          { fw.localData with
            st_ucid := ev.cid
            state := CURRENT_STATE_T.STATE_DISCONNECTING
            disconnect_reason := DEFAULT_DISCONNECTION_REASON }
        sdkCalls := fw.sdkCalls ++
          [SdkCall.GattDisconnectReasonReq ev.cid ls_err.ls_err_authentication] } := by
    unfold handleSignalGattConnectCfm
    simp only [hcur, hres, hbonded, hrandom, hfail, and_self, if_true, stateSetDisconnect]
    rw [key]
    · simp [enterDisconnectingState, Firmware.call, hbonded]
    · rfl
  rw [hmain]
  exact ⟨rfl, rfl, rfl, rfl⟩

/-- C17, witness: the advertising example, bonded to a resolvable address that
the SDK fails to resolve. -/
theorem handleSignalGattConnectCfm_unresolved_peer_witness :
    exampleAdvertising.localData.state = CURRENT_STATE_T.STATE_FAST_ADVERT ∧
    exampleConnectCfm.result = sys_status_success ∧
    exampleAdvertising.localData.bonded = true ∧
    IsAddressResolvableRandom exampleAdvertising.localData.bonded_bd_addr = true ∧
    exampleAdvertising.SMPrivacyMatchAddress exampleConnectCfm.bd_addr
      exampleAdvertising.localData.central_device_irk.irk < 0 ∧
    (handleSignalGattConnectCfm exampleConnectCfm exampleAdvertising).localData.state
      = CURRENT_STATE_T.STATE_DISCONNECTING :=
  ⟨rfl, rfl, rfl, by decide, by decide,
    (handleSignalGattConnectCfm_unresolved_peer exampleConnectCfm exampleAdvertising
      (Or.inl rfl) rfl rfl (by decide) (by decide)).2.1⟩

/-- C18, the code at the failing input: the advertising example rejects the
peer (address resolution fails) and enters Disconnecting; the disconnect-complete
event of that locally initiated disconnection then leaves the machine in Idle,
not in an advertising state. -/
theorem disconnect_after_authentication_failure_goes_idle :
    (handleSignalGattConnectCfm exampleConnectCfm exampleAdvertising).localData.state
      = CURRENT_STATE_T.STATE_DISCONNECTING ∧
    (handleSignalGattConnectCfm exampleConnectCfm exampleAdvertising).localData.bonded = true ∧
    exampleLocalDisconnect.reason ≠ HCI_ERROR_CONN_TIMEOUT ∧
    (handleSignalLmEvDisconnectComplete exampleLocalDisconnect
      (handleSignalGattConnectCfm exampleConnectCfm exampleAdvertising)).localData.state
      = CURRENT_STATE_T.STATE_IDLE := by
  refine ⟨by decide, by decide, by decide, by decide⟩

/-- C19: a directed-advertising timeout falls back to fast advertising. When a
connect confirmation with result `HCI_ERROR_DIRECTED_ADVERTISING_TIMEOUT` is
handled in DirectedAdvertising, the resulting state is FastAdvertising (not
Idle, not DirectedAdvertising). If `localData.pairing_button_pressed` is TRUE
the bonding is cleared first: `localData.bonded` is FALSE afterwards, and the
calls made are, in this order, those that clear the pairing (whitelist reset,
bonded flag written to the NVM, service data re-initialised) and then those
that start fast undirected advertising, with a connect request that does not
use the whitelist. If it is FALSE, `localData.bonded` is unchanged. -/
theorem handleSignalGattConnectCfm_directed_timeout (ev : GATT_CONNECT_CFM_T) (fw : Firmware)
    (hcur : fw.localData.state = CURRENT_STATE_T.STATE_DIRECT_ADVERT)
    (hres : ev.result = HCI_ERROR_DIRECTED_ADVERTISING_TIMEOUT) :
    (handleSignalGattConnectCfm ev fw).localData.state = CURRENT_STATE_T.STATE_FAST_ADVERT ∧
    (fw.localData.pairing_button_pressed = true →
      (handleSignalGattConnectCfm ev fw).localData.bonded = false ∧
      (handleSignalGattConnectCfm ev fw).sdkCalls = fw.sdkCalls ++
        [SdkCall.LsResetWhiteList,
         SdkCall.Nvm_Write [0] NVM_OFFSET_BONDED_FLAG,
         SdkCall.GapDataInit,
         SdkCall.Nvm_Write [gatt_client_config_none]
           (uint16_add fw.hid_data.nvm_offset HID_NVM_CONSUMER_REPORT_CONFIG_OFFSET),
         SdkCall.BatteryDataInit,
         SdkCall.setAdvertisingParameters true gap_mode_connect.gap_mode_connect_undirected,
         SdkCall.GattConnectReq
           [L2CAP_CONNECT_FLAG.L2CAP_CONNECTION_SLAVE_UNDIRECTED,
            L2CAP_CONNECT_FLAG.L2CAP_OWN_ADDR_TYPE_PUBLIC],
         SdkCall.TimerDelete fw.localData.advertising_tid,
         SdkCall.TimerCreate TIMER_PERIOD.FAST_CONNECTION_ADVERT_TIMEOUT_VALUE true
           TIMER_HANDLER.advertisingTimerHandler]) ∧
    (fw.localData.pairing_button_pressed = false →
      (handleSignalGattConnectCfm ev fw).localData.bonded = fw.localData.bonded) := by
  have hne : ¬ HCI_ERROR_DIRECTED_ADVERTISING_TIMEOUT = sys_status_success := by decide
  have hmain : handleSignalGattConnectCfm ev fw =
      stateSet CURRENT_STATE_T.STATE_FAST_ADVERT
        { (if fw.localData.pairing_button_pressed = true then handleClearPairing fw else fw) with
          notifications := notificationDropAll
            (if fw.localData.pairing_button_pressed = true then handleClearPairing fw
              else fw).notifications } := by
    unfold handleSignalGattConnectCfm
    simp only [hcur, hres, hne, or_true, if_true, if_false]
  rw [hmain]
  refine ⟨?_, ?_, ?_⟩
  · rw [stateSet_state]
    have hst : ({ (if fw.localData.pairing_button_pressed = true then handleClearPairing fw
        else fw) with
          notifications := notificationDropAll
            (if fw.localData.pairing_button_pressed = true then handleClearPairing fw
              else fw).notifications } : Firmware).localData.state
        = CURRENT_STATE_T.STATE_DIRECT_ADVERT := by
      show (if fw.localData.pairing_button_pressed = true then handleClearPairing fw
        else fw).localData.state = _
      split_ifs
      · rw [handleClearPairing_localData]; exact hcur
      · exact hcur
    rw [hst]
    simp
  · intro hbutton
    simp only [hbutton, if_true]
    constructor
    · rw [(stateSet_same_fields _ _).bonded]
      show (handleClearPairing fw).localData.bonded = false
      rw [handleClearPairing_localData]
    · rw [stateSet_advert _ _ (Or.inr (Or.inl rfl))
        (by
          show (handleClearPairing fw).localData.state ≠ _
          rw [handleClearPairing_localData]
          show fw.localData.state ≠ _
          rw [hcur]; decide)]
      rw [exitAction_of_advertising _
        (by
          right; right
          show (handleClearPairing fw).localData.state = _
          rw [handleClearPairing_localData]; exact hcur)]
      simp [enterAdvertisingState, AdvStart, TimerCreate, Firmware.call, handleClearPairing,
        AppUpdateWhiteList, HidDataInit]
  · intro hbutton
    simp only [hbutton, Bool.false_eq_true, if_false]
    rw [(stateSet_same_fields _ _).bonded]

/-- C19, witness: directed advertising times out after the pairing button was
pressed. -/
theorem handleSignalGattConnectCfm_directed_timeout_witness :
    exampleDirected.localData.state = CURRENT_STATE_T.STATE_DIRECT_ADVERT ∧
    (handleSignalGattConnectCfm
        { result := HCI_ERROR_DIRECTED_ADVERTISING_TIMEOUT, cid := 0, bd_addr := {} }
        exampleDirected).localData.state = CURRENT_STATE_T.STATE_FAST_ADVERT ∧
    (handleSignalGattConnectCfm
        { result := HCI_ERROR_DIRECTED_ADVERTISING_TIMEOUT, cid := 0, bd_addr := {} }
        exampleDirected).localData.bonded = false :=
  ⟨rfl,
    (handleSignalGattConnectCfm_directed_timeout
      { result := HCI_ERROR_DIRECTED_ADVERTISING_TIMEOUT, cid := 0, bd_addr := {} }
      exampleDirected rfl rfl).1,
    ((handleSignalGattConnectCfm_directed_timeout
      { result := HCI_ERROR_DIRECTED_ADVERTISING_TIMEOUT, cid := 0, bd_addr := {} }
      exampleDirected rfl rfl).2.1 rfl).1⟩

/-! ### The cancel-connect confirmation -/

/-- C20: the advertising fallback chain. When the advertising-stopped
(cancel-connect) confirmation is handled with `localData.pairing_button_pressed`
FALSE, FastAdvertising transitions to SlowAdvertising and SlowAdvertising
transitions to Idle, the bonding record being unchanged; in every other state
the confirmation changes nothing at all, so neither the state nor the bonding
record. -/
theorem handleSignalGattCancelConnectCfm_fallback (fw : Firmware) :
    (fw.localData.pairing_button_pressed = false →
      fw.localData.state = CURRENT_STATE_T.STATE_FAST_ADVERT →
      (handleSignalGattCancelConnectCfm fw).localData.state
        = CURRENT_STATE_T.STATE_SLOW_ADVERT) ∧
    (fw.localData.pairing_button_pressed = false →
      fw.localData.state = CURRENT_STATE_T.STATE_SLOW_ADVERT →
      (handleSignalGattCancelConnectCfm fw).localData.state = CURRENT_STATE_T.STATE_IDLE) ∧
    (fw.localData.pairing_button_pressed = false →
      (handleSignalGattCancelConnectCfm fw).localData.bonded = fw.localData.bonded ∧
      (handleSignalGattCancelConnectCfm fw).localData.bonded_bd_addr
        = fw.localData.bonded_bd_addr ∧
      (handleSignalGattCancelConnectCfm fw).localData.central_device_irk
        = fw.localData.central_device_irk ∧
      (handleSignalGattCancelConnectCfm fw).localData.diversifier
        = fw.localData.diversifier) ∧
    (fw.localData.state ≠ CURRENT_STATE_T.STATE_FAST_ADVERT →
      fw.localData.state ≠ CURRENT_STATE_T.STATE_SLOW_ADVERT →
      handleSignalGattCancelConnectCfm fw = fw) := by
  refine ⟨?_, ?_, ?_, ?_⟩
  · intro hbutton hcur
    unfold handleSignalGattCancelConnectCfm
    simp only [hcur, hbutton, if_true, Bool.false_eq_true, if_false]
    rw [stateSet_state, hcur]
    simp
  · intro hbutton hcur
    unfold handleSignalGattCancelConnectCfm
    simp only [hcur, hbutton, if_true, Bool.false_eq_true, if_false]
    rw [if_neg (by decide), stateSet_state, hcur]
    simp
  · intro hbutton
    have hsame : SameButStateMachineFields fw.localData
        (handleSignalGattCancelConnectCfm fw).localData := by
      unfold handleSignalGattCancelConnectCfm
      simp only [hbutton, Bool.false_eq_true, if_false]
      split_ifs
      · exact stateSet_same_fields _ _
      · exact stateSet_same_fields _ _
      · exact SameButStateMachineFields.refl _
    exact ⟨hsame.bonded, hsame.bonded_bd_addr, hsame.central_device_irk, hsame.diversifier⟩
  · intro h1 h2
    unfold handleSignalGattCancelConnectCfm
    rw [if_neg h1, if_neg h2]

/-! ## Disconnect requests -/

theorem disconnectRequests_append (a b : List SdkCall) :
    disconnectRequests (a ++ b) = disconnectRequests a ++ disconnectRequests b := by
  simp [disconnectRequests, List.filterMap_append]

theorem exitAction_disconnectRequests (fw : Firmware) :
    disconnectRequests (exitAction fw).sdkCalls = disconnectRequests fw.sdkCalls := by
  unfold exitAction
  split
  · unfold exitInitState AppUpdateWhiteList
    simp only []
    split_ifs <;> simp [Firmware.call, disconnectRequests, List.filterMap_append]
  · rfl
  · rfl
  · simp [exitMotionState, Firmware.call, disconnectRequests, List.filterMap_append]
  · rfl
  · rfl

@[simp] theorem exitAction_st_ucid (fw : Firmware) :
    (exitAction fw).localData.st_ucid = fw.localData.st_ucid := by
  unfold exitAction
  split <;> simp [exitInitState, exitConnectedState, handleResetIdleTimer, exitMotionState,
    exitIdleState]

@[simp] theorem exitAction_disconnect_reason (fw : Firmware) :
    (exitAction fw).localData.disconnect_reason = fw.localData.disconnect_reason := by
  unfold exitAction
  split <;> simp [exitInitState, exitConnectedState, handleResetIdleTimer, exitMotionState,
    exitIdleState]

/-- A request for DISCONNECTING from another state issues one disconnect
request, with the UCID and the reason of the session record, and leaves the
default reason in the record. -/
theorem stateSet_DISCONNECTING_request (fw : Firmware)
    (h : fw.localData.state ≠ CURRENT_STATE_T.STATE_DISCONNECTING) :
    disconnectRequests (stateSet CURRENT_STATE_T.STATE_DISCONNECTING fw).sdkCalls
      = disconnectRequests fw.sdkCalls
        ++ [(fw.localData.st_ucid, fw.localData.disconnect_reason)] ∧
    (stateSet CURRENT_STATE_T.STATE_DISCONNECTING fw).localData.disconnect_reason
      = DEFAULT_DISCONNECTION_REASON := by
  rw [stateSet_DISCONNECTING fw h]
  refine ⟨?_, rfl⟩
  simp only [enterDisconnectingState, Firmware.call, disconnectRequests_append,
    exitAction_st_ucid, exitAction_disconnect_reason]
  rw [exitAction_disconnectRequests]
  rfl

/-- C27: the disconnect reason is used once. For every current state other
than Disconnecting and every reason `r`, `stateSetDisconnect r` adds exactly one
disconnect request to the calls made, carrying the UCID and `r`, and leaves
`localData.disconnect_reason` equal to `DEFAULT_DISCONNECTION_REASON`; a plain
`stateSet STATE_DISCONNECTING` adds exactly one disconnect request with
whatever reason was pending and likewise resets the field to the default. -/
theorem stateSetDisconnect_uses_reason_once (r : ls_err) (fw : Firmware)
    (hcur : fw.localData.state ≠ CURRENT_STATE_T.STATE_DISCONNECTING) :
    disconnectRequests (stateSetDisconnect r fw).sdkCalls
      = disconnectRequests fw.sdkCalls ++ [(fw.localData.st_ucid, r)] ∧
    (stateSetDisconnect r fw).localData.disconnect_reason = DEFAULT_DISCONNECTION_REASON ∧
    (stateSetDisconnect r fw).localData.state = CURRENT_STATE_T.STATE_DISCONNECTING ∧
    disconnectRequests (stateSet CURRENT_STATE_T.STATE_DISCONNECTING fw).sdkCalls
      = disconnectRequests fw.sdkCalls
        ++ [(fw.localData.st_ucid, fw.localData.disconnect_reason)] ∧
    (stateSet CURRENT_STATE_T.STATE_DISCONNECTING fw).localData.disconnect_reason
      = DEFAULT_DISCONNECTION_REASON := by
  have h1 := stateSet_DISCONNECTING_request
    { fw with localData.disconnect_reason := r } hcur
  have h2 := stateSet_DISCONNECTING_request fw hcur
  refine ⟨h1.1, h1.2, ?_, h2.1, h2.2⟩
  unfold stateSetDisconnect
  rw [stateSet_state]
  simp

/-- C27, witness: the connected example is disconnected for an authentication
failure. -/
theorem stateSetDisconnect_uses_reason_once_witness :
    disconnectRequests (stateSetDisconnect ls_err.ls_err_authentication exampleConnected).sdkCalls
      = [(1, ls_err.ls_err_authentication)] ∧
    (stateSetDisconnect ls_err.ls_err_authentication exampleConnected).localData.disconnect_reason
      = ls_err.ls_err_oetc_user :=
  ⟨(stateSetDisconnect_uses_reason_once ls_err.ls_err_authentication exampleConnected
      (by decide)).1,
    (stateSetDisconnect_uses_reason_once ls_err.ls_err_authentication exampleConnected
      (by decide)).2.1⟩

/-! ## Entering Idle -/

/-- C28: entering Idle drops the buffer. For every current state other than
Idle, after `stateSet STATE_IDLE` both cursors of the notification buffer are 0
(the buffer is empty) if no transmission was outstanding; otherwise the buffer,
both cursors and so the buffered contents are unchanged and the deferred-drop
flag is set. -/
theorem stateSet_IDLE_drops_buffer (fw : Firmware)
    (hcur : fw.localData.state ≠ CURRENT_STATE_T.STATE_IDLE) :
    (fw.notifications.currentState = NOTIFICATION_STATE.ALL_QUIET →
      (stateSet CURRENT_STATE_T.STATE_IDLE fw).notifications.notificationReadPosition = 0 ∧
      (stateSet CURRENT_STATE_T.STATE_IDLE fw).notifications.notificationWritePosition = 0 ∧
      pendingContents (stateSet CURRENT_STATE_T.STATE_IDLE fw).notifications = []) ∧
    (fw.notifications.currentState = NOTIFICATION_STATE.NOTIFICATION_OUTSTANDING →
      (stateSet CURRENT_STATE_T.STATE_IDLE fw).notifications.notificationBuffer
        = fw.notifications.notificationBuffer ∧
      (stateSet CURRENT_STATE_T.STATE_IDLE fw).notifications.notificationReadPosition
        = fw.notifications.notificationReadPosition ∧
      (stateSet CURRENT_STATE_T.STATE_IDLE fw).notifications.notificationWritePosition
        = fw.notifications.notificationWritePosition ∧
      pendingContents (stateSet CURRENT_STATE_T.STATE_IDLE fw).notifications
        = pendingContents fw.notifications ∧
      (stateSet CURRENT_STATE_T.STATE_IDLE fw).notifications.dropOnNextRegistration = true) := by
  rw [stateSet_IDLE_notifications fw hcur]
  constructor
  · intro hq
    simp [notificationDropAll, hq, pendingContents, NUM_BUFFERED_ITEMS, uint16_sub]
  · intro hq
    simp [notificationDropAll, hq, pendingContents]

/-- C28, witness: the connected example, with two notifications buffered and
none in flight, enters Idle. -/
theorem stateSet_IDLE_drops_buffer_witness :
    (stateSet CURRENT_STATE_T.STATE_IDLE exampleConnected).notifications.notificationReadPosition
      = 0 ∧
    (stateSet CURRENT_STATE_T.STATE_IDLE exampleConnected).notifications.notificationWritePosition
      = 0 :=
  ⟨((stateSet_IDLE_drops_buffer exampleConnected (by decide)).1 rfl).1,
    ((stateSet_IDLE_drops_buffer exampleConnected (by decide)).1 rfl).2.1⟩

/-! ## Pairing -/

theorem SameButStateMachineFields.sameBondingRecord {a b : LOCAL_DATA_T}
    (h : SameButStateMachineFields a b) : SameBondingRecord a b :=
  ⟨h.bonded, h.bonded_bd_addr, h.central_device_irk, h.diversifier⟩

theorem sameBondingRecord_refl (ld : LOCAL_DATA_T) : SameBondingRecord ld ld :=
  ⟨rfl, rfl, rfl, rfl⟩

theorem sameBondingRecord_trans {a b c : LOCAL_DATA_T}
    (h1 : SameBondingRecord a b) (h2 : SameBondingRecord b c) : SameBondingRecord a c :=
  ⟨h2.1.trans h1.1, h2.2.1.trans h1.2.1, h2.2.2.1.trans h1.2.2.1, h2.2.2.2.trans h1.2.2.2⟩

/-- C22: repeated pairing attempts force a disconnect. When a pairing-complete
indication with status `sm_status_repeated_attempts` is handled in
ConnectedIdle, ConnectedMotion or ConnectedAudio, the machine is in
Disconnecting when the handler returns and one disconnect request has been
added to the calls made, whether or not the device is bonded; the four fields
of the bonding record are unchanged. -/
theorem pairing_repeated_attempts_disconnects (ev : SM_SIMPLE_PAIRING_COMPLETE_IND_T)
    (fw : Firmware)
    (hcur : fw.localData.state = CURRENT_STATE_T.STATE_CONNECTED_IDLE ∨
      fw.localData.state = CURRENT_STATE_T.STATE_CONNECTED_MOTION ∨
      fw.localData.state = CURRENT_STATE_T.STATE_CONNECTED_AUDIO)
    (hstatus : ev.status = sm_pairing_status.sm_status_repeated_attempts) :
    (handleSignalSmSimplePairingCompleteInd ev fw).localData.state
      = CURRENT_STATE_T.STATE_DISCONNECTING ∧
    disconnectRequests (handleSignalSmSimplePairingCompleteInd ev fw).sdkCalls
      = disconnectRequests fw.sdkCalls
        ++ [(fw.localData.st_ucid, fw.localData.disconnect_reason)] ∧
    SameBondingRecord fw.localData
      (handleSignalSmSimplePairingCompleteInd ev fw).localData := by
  have hne : fw.localData.state ≠ CURRENT_STATE_T.STATE_DISCONNECTING := by
    rcases hcur with h | h | h <;> rw [h] <;> decide
  have hrun : handleSignalSmSimplePairingCompleteInd ev fw
      = stateSet CURRENT_STATE_T.STATE_DISCONNECTING fw := by
    unfold handleSignalSmSimplePairingCompleteInd
    rw [if_pos hcur, hstatus, if_neg (by decide), if_pos rfl]
  rw [hrun]
  refine ⟨?_, (stateSet_DISCONNECTING_request fw hne).1,
    (stateSet_same_fields _ fw).sameBondingRecord⟩
  rw [stateSet_state]
  simp

/-- C22, witness: repeated attempts on the example that is not bonded and on
the example that is. -/
theorem pairing_repeated_attempts_disconnects_witness :
    (handleSignalSmSimplePairingCompleteInd examplePairingRepeated exampleUnbonded).localData.state
      = CURRENT_STATE_T.STATE_DISCONNECTING ∧
    (handleSignalSmSimplePairingCompleteInd examplePairingRepeated exampleConnected).localData.state
      = CURRENT_STATE_T.STATE_DISCONNECTING :=
  ⟨(pairing_repeated_attempts_disconnects examplePairingRepeated exampleUnbonded
      (Or.inl rfl) rfl).1,
    (pairing_repeated_attempts_disconnects examplePairingRepeated exampleConnected
      (Or.inl rfl) rfl).1⟩

/-- C23: the grace period for other pairing failures. When a pairing-complete
indication with a failure status other than repeated attempts is handled in a
connected mode while `localData.bonded` is TRUE, the handler leaves the state
as it is, sets `encrypt_enabled` to FALSE and creates the bonding chance timer
(one `TimerCreate` call, the identifier kept in `recrypt_tid`), changing
nothing else in the session record; whenever the expiry routine of that timer
runs, the machine is in Disconnecting afterwards. With bonded FALSE the same
failure changes nothing and creates no timer. -/
theorem pairing_failure_starts_grace_timer (ev : SM_SIMPLE_PAIRING_COMPLETE_IND_T)
    (fw : Firmware)
    (hcur : fw.localData.state = CURRENT_STATE_T.STATE_CONNECTED_IDLE ∨
      fw.localData.state = CURRENT_STATE_T.STATE_CONNECTED_MOTION ∨
      fw.localData.state = CURRENT_STATE_T.STATE_CONNECTED_AUDIO)
    (hfail : ev.status ≠ sm_pairing_status.sys_status_success)
    (hother : ev.status ≠ sm_pairing_status.sm_status_repeated_attempts) :
    (fw.localData.bonded = true →
      (handleSignalSmSimplePairingCompleteInd ev fw).localData
        = { fw.localData with encrypt_enabled := false, recrypt_tid := fw.timerPool 0 } ∧
      (handleSignalSmSimplePairingCompleteInd ev fw).sdkCalls
        = fw.sdkCalls ++ [SdkCall.TimerCreate TIMER_PERIOD.BONDING_CHANCE_TIMER true
            TIMER_HANDLER.handleBondingChanceTimerExpiry] ∧
      (handleSignalSmSimplePairingCompleteInd ev fw).notifications = fw.notifications ∧
      (handleBondingChanceTimerExpiry
        (handleSignalSmSimplePairingCompleteInd ev fw)).localData.state
        = CURRENT_STATE_T.STATE_DISCONNECTING) ∧
    (∀ later : Firmware,
      (handleBondingChanceTimerExpiry later).localData.state
        = CURRENT_STATE_T.STATE_DISCONNECTING) ∧
    (fw.localData.bonded = false → handleSignalSmSimplePairingCompleteInd ev fw = fw) := by
  have hexp : ∀ later : Firmware,
      (handleBondingChanceTimerExpiry later).localData.state
        = CURRENT_STATE_T.STATE_DISCONNECTING := by
    intro later
    unfold handleBondingChanceTimerExpiry
    rw [stateSet_state]
    simp
  refine ⟨?_, hexp, ?_⟩
  · intro hbonded
    refine ⟨?_, ?_, ?_, hexp _⟩
    · unfold handleSignalSmSimplePairingCompleteInd
      rw [if_pos hcur, if_neg hfail, if_neg hother, if_pos hbonded]
      rfl
    · unfold handleSignalSmSimplePairingCompleteInd
      rw [if_pos hcur, if_neg hfail, if_neg hother, if_pos hbonded]
      rfl
    · unfold handleSignalSmSimplePairingCompleteInd
      rw [if_pos hcur, if_neg hfail, if_neg hother, if_pos hbonded]
      rfl
  · intro hbonded
    unfold handleSignalSmSimplePairingCompleteInd
    rw [if_pos hcur, if_neg hfail, if_neg hother, if_neg (by simp [hbonded])]

/-- C23, witness: another pairing failure on the bonded example and on the
example that is not bonded. -/
theorem pairing_failure_starts_grace_timer_witness :
    (handleSignalSmSimplePairingCompleteInd examplePairingFailed exampleConnected).localData.state
      = CURRENT_STATE_T.STATE_CONNECTED_IDLE ∧
    (handleSignalSmSimplePairingCompleteInd examplePairingFailed exampleConnected).sdkCalls
      = [SdkCall.TimerCreate TIMER_PERIOD.BONDING_CHANCE_TIMER true
          TIMER_HANDLER.handleBondingChanceTimerExpiry] ∧
    handleSignalSmSimplePairingCompleteInd examplePairingFailed exampleUnbonded
      = exampleUnbonded :=
  ⟨congrArg LOCAL_DATA_T.state
      ((pairing_failure_starts_grace_timer examplePairingFailed exampleConnected (Or.inl rfl)
        (by decide) (by decide)).1 rfl).1,
    ((pairing_failure_starts_grace_timer examplePairingFailed exampleConnected (Or.inl rfl)
        (by decide) (by decide)).1 rfl).2.1,
    (pairing_failure_starts_grace_timer examplePairingFailed exampleUnbonded (Or.inl rfl)
        (by decide) (by decide)).2.2 rfl⟩

/-! ## The background tick -/

theorem uint8_add_one_of_lt (c : Nat) (h : c + 1 < 65536) : uint8_add c 1 = c + 1 := by
  unfold uint8_add uint16_add
  omega

/-- A connection parameter update request writes the count of the requests
and the flag of the retry counter, and nothing else in the session record. -/
theorem requestConnParamUpdate_localData (fw : Firmware) :
    ∃ (cnt : Nat) (act : Bool), (requestConnParamUpdate fw).localData
      = { fw.localData with conn_param_update_count := cnt, conn_param_counter_active := act } := by
  unfold requestConnParamUpdate
  split_ifs
  · exact ⟨_, _, rfl⟩
  · exact ⟨fw.localData.conn_param_update_count, fw.localData.conn_param_counter_active, rfl⟩
  · exact ⟨fw.localData.conn_param_update_count, fw.localData.conn_param_counter_active, rfl⟩

/-- The second part of the tick handler writes the three fields of the
connection parameter update, and nothing else in the session record. -/
theorem handleBackgroundTickInd_conn_param_localData (fw : Firmware) :
    ∃ (ticks cnt : Nat) (act : Bool), (handleBackgroundTickInd_conn_param fw).localData
      = { fw.localData with
          conn_param_update_tick_count := ticks, conn_param_update_count := cnt,
          conn_param_counter_active := act } := by
  unfold handleBackgroundTickInd_conn_param
  simp only []
  split_ifs
  · obtain ⟨cnt, act, h⟩ := requestConnParamUpdate_localData
      { fw with
        localData.conn_param_update_tick_count :=
          uint8_add fw.localData.conn_param_update_tick_count 1 }
    exact ⟨uint8_add fw.localData.conn_param_update_tick_count 1, cnt, act, h⟩
  · exact ⟨uint8_add fw.localData.conn_param_update_tick_count 1,
      fw.localData.conn_param_update_count, fw.localData.conn_param_counter_active, rfl⟩
  · exact ⟨fw.localData.conn_param_update_tick_count,
      fw.localData.conn_param_update_count, fw.localData.conn_param_counter_active, rfl⟩

/-- The state and the idle-disconnect counter after a tick are those that the
first part of `handleBackgroundTickInd` leaves. -/
theorem handleBackgroundTickInd_first_half (fw : Firmware) :
    (handleBackgroundTickInd fw).localData.state
      = (handleBackgroundTickInd_idle fw).localData.state ∧
    (handleBackgroundTickInd fw).localData.disconnect_counter
      = (handleBackgroundTickInd_idle fw).localData.disconnect_counter := by
  obtain ⟨ticks, cnt, act, h⟩ :=
    handleBackgroundTickInd_conn_param_localData (handleBackgroundTickInd_idle fw)
  unfold handleBackgroundTickInd
  rw [h]
  exact ⟨rfl, rfl⟩

/-- C24, as amended: the idle-disconnect threshold. One background tick,
received with the counter at a value `c` below 65535, the largest value of the
16-bit word that holds it: if the machine is in ConnectedIdle then after the
tick it is in Disconnecting if and only if `c + 1` is at least the tick
threshold `disconnectionTimeoutTicks`, and otherwise it stays in ConnectedIdle
with the counter at `c + 1`; in any state other than ConnectedIdle the tick
does not change the state, and the counter is `c + 1` below the threshold and
is reset to 0 at the threshold. The threshold is
`CONNECTED_IDLE_TIMEOUT_VALUE / (15 * SECOND) + 1` when that value fits the
word. -/
theorem handleBackgroundTickInd_idle_threshold (fw : Firmware)
    (hwrap : fw.localData.disconnect_counter + 1 < 65536) :
    (fw.localData.state = CURRENT_STATE_T.STATE_CONNECTED_IDLE →
      ((handleBackgroundTickInd fw).localData.state = CURRENT_STATE_T.STATE_DISCONNECTING ↔
        fw.localData.disconnect_counter + 1
          ≥ disconnectionTimeoutTicks fw.gap_conn_params) ∧
      (¬ fw.localData.disconnect_counter + 1 ≥ disconnectionTimeoutTicks fw.gap_conn_params →
        (handleBackgroundTickInd fw).localData.state = CURRENT_STATE_T.STATE_CONNECTED_IDLE ∧
        (handleBackgroundTickInd fw).localData.disconnect_counter
          = fw.localData.disconnect_counter + 1)) ∧
    (fw.localData.state ≠ CURRENT_STATE_T.STATE_CONNECTED_IDLE →
      (handleBackgroundTickInd fw).localData.state = fw.localData.state ∧
      (handleBackgroundTickInd fw).localData.disconnect_counter
        = if fw.localData.disconnect_counter + 1
            ≥ disconnectionTimeoutTicks fw.gap_conn_params then 0
          else fw.localData.disconnect_counter + 1) ∧
    (fw.gap_conn_params.CONNECTED_IDLE_TIMEOUT_VALUE / (15 * SECOND) + 1 < 65536 →
      disconnectionTimeoutTicks fw.gap_conn_params
        = fw.gap_conn_params.CONNECTED_IDLE_TIMEOUT_VALUE / (15 * SECOND) + 1) := by
  have hst := (handleBackgroundTickInd_first_half fw).1
  have hct := (handleBackgroundTickInd_first_half fw).2
  unfold handleBackgroundTickInd_idle at hst hct
  simp only [] at hst hct
  rw [uint8_add_one_of_lt _ hwrap] at hst hct
  refine ⟨?_, ?_, ?_⟩
  · intro hcur
    rw [hst, hct]
    by_cases hth : fw.localData.disconnect_counter + 1
        ≥ disconnectionTimeoutTicks fw.gap_conn_params
    · rw [if_pos hth, if_pos hcur, stateSet_state]
      simp [hth, hcur]
    · rw [if_neg hth]
      simp [hth, hcur]
  · intro hcur
    rw [hst, hct]
    by_cases hth : fw.localData.disconnect_counter + 1
        ≥ disconnectionTimeoutTicks fw.gap_conn_params
    · rw [if_pos hth, if_neg hcur, if_pos hth]
      exact ⟨rfl, rfl⟩
    · rw [if_neg hth, if_neg hth]
      exact ⟨rfl, rfl⟩
  · intro hfit
    unfold disconnectionTimeoutTicks
    exact Nat.mod_eq_of_lt hfit

/-- C24, witness: with a threshold of 21 ticks, the first tick on the connected
example and the tick that finds the counter at 20. -/
theorem handleBackgroundTickInd_idle_threshold_witness :
    ((handleBackgroundTickInd exampleConnected).localData.state
        = CURRENT_STATE_T.STATE_CONNECTED_IDLE ∧
      (handleBackgroundTickInd exampleConnected).localData.disconnect_counter = 1) ∧
    (handleBackgroundTickInd
      { exampleConnected with localData.disconnect_counter := 20 }).localData.state
        = CURRENT_STATE_T.STATE_DISCONNECTING ∧
    disconnectionTimeoutTicks exampleConnParams = 21 :=
  ⟨((handleBackgroundTickInd_idle_threshold exampleConnected (by decide)).1 rfl).2
      (by decide),
    ((handleBackgroundTickInd_idle_threshold
      { exampleConnected with localData.disconnect_counter := 20 } (by decide)).1 rfl).1.2
      (by decide),
    (handleBackgroundTickInd_idle_threshold exampleConnected (by decide)).2.2 (by decide)⟩

/-- C24, as stated for every counter value, fails at the last one: on the
connected example (ConnectedIdle, threshold 21) with the counter at 65535 the
increment wraps to 0, so that `c + 1` is above the threshold and yet the
machine stays in ConnectedIdle, with the counter at 0 and not at `c + 1`. -/
theorem handleBackgroundTickInd_idle_counter_wraps :
    ({ exampleConnected with localData.disconnect_counter := 65535 } :
      Firmware).localData.state = CURRENT_STATE_T.STATE_CONNECTED_IDLE ∧
    65535 + 1 ≥ disconnectionTimeoutTicks exampleConnected.gap_conn_params ∧
    (handleBackgroundTickInd
      { exampleConnected with localData.disconnect_counter := 65535 }).localData.state
        = CURRENT_STATE_T.STATE_CONNECTED_IDLE ∧
    (handleBackgroundTickInd
      { exampleConnected with
        localData.disconnect_counter := 65535 }).localData.disconnect_counter = 0 ∧
    (¬ ∀ fw : Firmware,
      fw.localData.state = CURRENT_STATE_T.STATE_CONNECTED_IDLE →
      ((handleBackgroundTickInd fw).localData.state = CURRENT_STATE_T.STATE_DISCONNECTING ↔
        fw.localData.disconnect_counter + 1
          ≥ disconnectionTimeoutTicks fw.gap_conn_params)) := by
  have h1 : (handleBackgroundTickInd
      { exampleConnected with localData.disconnect_counter := 65535 }).localData.state
        = CURRENT_STATE_T.STATE_CONNECTED_IDLE := by decide
  refine ⟨rfl, by decide, h1, by decide, ?_⟩
  intro hall
  have h := (hall { exampleConnected with localData.disconnect_counter := 65535 } rfl).2
    (by decide)
  rw [h1] at h
  exact absurd h (by decide)

/-! ## Leaving a connected mode -/

/-- When the exit action leaves the idle-disconnect counter at 0, the counter
is 0 when `stateSet` returns: no entry action sets it to another value. -/
theorem stateSet_disconnect_counter_of_exit (new_state : CURRENT_STATE_T) (fw : Firmware)
    (h : fw.localData.state ≠ new_state)
    (hexit : (exitAction fw).localData.disconnect_counter = 0) :
    (stateSet new_state fw).localData.disconnect_counter = 0 := by
  cases new_state with
  | STATE_INIT => rw [stateSet_no_entry _ fw (Or.inl rfl) h]; exact hexit
  | STATE_CONNECTED => rw [stateSet_no_entry _ fw (Or.inr (Or.inl rfl)) h]; exact hexit
  | STATE_CONNECTED_NON_AUDIO =>
    rw [stateSet_no_entry _ fw (Or.inr (Or.inr rfl)) h]; exact hexit
  | STATE_DIRECT_ADVERT =>
    rw [stateSet_advert _ fw (Or.inl rfl) h]
    unfold enterAdvertisingState
    split_ifs <;> rw [AdvStart_localData] <;> exact hexit
  | STATE_FAST_ADVERT =>
    rw [stateSet_advert _ fw (Or.inr (Or.inl rfl)) h]
    unfold enterAdvertisingState
    split_ifs <;> rw [AdvStart_localData] <;> exact hexit
  | STATE_SLOW_ADVERT =>
    rw [stateSet_advert _ fw (Or.inr (Or.inr rfl)) h]
    unfold enterAdvertisingState
    split_ifs <;> rw [AdvStart_localData] <;> exact hexit
  | STATE_ADVERTISING =>
    rw [stateSet_ADVERTISING fw h]
    unfold enterAdvertisingState
    split_ifs <;> rw [AdvStart_localData] <;> exact hexit
  | STATE_CONNECTED_IDLE => rw [stateSet_CONNECTED_IDLE fw h]; rfl
  | STATE_CONNECTED_AUDIO => rw [stateSet_audio fw h]; rfl
  | STATE_CONNECTED_MOTION => rw [stateSet_CONNECTED_MOTION fw h]; rfl
  | STATE_DISCONNECTING => rw [stateSet_DISCONNECTING fw h]; exact hexit
  | STATE_IDLE => rw [stateSet_IDLE fw h]; exact hexit

/-- C29, as amended: leaving ConnectedIdle or ConnectedAudio cancels the
idle-disconnect accumulator. For the current state ConnectedIdle or
ConnectedAudio and every different requested state, the exit action run by
`stateSet` resets `localData.disconnect_counter` to 0, and the counter is 0
when `stateSet` returns. -/
theorem stateSet_leaving_idle_or_audio_resets_counter (new_state : CURRENT_STATE_T)
    (fw : Firmware)
    (hcur : fw.localData.state = CURRENT_STATE_T.STATE_CONNECTED_IDLE ∨
      fw.localData.state = CURRENT_STATE_T.STATE_CONNECTED_AUDIO)
    (hnew : new_state ≠ fw.localData.state) :
    (exitAction fw).localData.disconnect_counter = 0 ∧
    (stateSet new_state fw).localData.disconnect_counter = 0 := by
  have hexit : (exitAction fw).localData.disconnect_counter = 0 := by
    unfold exitAction
    rcases hcur with h | h <;> rw [h] <;> rfl
  exact ⟨hexit, stateSet_disconnect_counter_of_exit new_state fw (fun e => hnew e.symm) hexit⟩

/-- C29, witness: the connected example with the counter at 3 is asked for
Disconnecting. -/
theorem stateSet_leaving_idle_or_audio_resets_counter_witness :
    (exitAction { exampleConnected with localData.disconnect_counter := 3 }
      ).localData.disconnect_counter = 0 ∧
    (stateSet CURRENT_STATE_T.STATE_DISCONNECTING
      { exampleConnected with localData.disconnect_counter := 3 }
      ).localData.disconnect_counter = 0 :=
  stateSet_leaving_idle_or_audio_resets_counter CURRENT_STATE_T.STATE_DISCONNECTING
    { exampleConnected with localData.disconnect_counter := 3 } (Or.inl rfl) (by decide)

/-- C29, the claim as written fails for ConnectedMotion: the exit action of
ConnectedMotion is `exitMotionState`, which leaves the counter alone, and on
ConnectedMotion to Disconnecting no entry action resets it either; a counter
at 3 is still at 3 when `stateSet` returns. -/
theorem stateSet_leaving_motion_keeps_counter :
    (exitAction exampleMotion).localData.disconnect_counter = 3 ∧
    (stateSet CURRENT_STATE_T.STATE_DISCONNECTING exampleMotion).localData.disconnect_counter
      = 3 ∧
    ¬ ∀ (new_state : CURRENT_STATE_T) (fw : Firmware),
      (fw.localData.state = CURRENT_STATE_T.STATE_CONNECTED_IDLE ∨
        fw.localData.state = CURRENT_STATE_T.STATE_CONNECTED_MOTION ∨
        fw.localData.state = CURRENT_STATE_T.STATE_CONNECTED_AUDIO) →
      new_state ≠ fw.localData.state →
      (exitAction fw).localData.disconnect_counter = 0 ∧
      (stateSet new_state fw).localData.disconnect_counter = 0 := by
  have h1 : (exitAction exampleMotion).localData.disconnect_counter = 3 := by decide
  have h2 : (stateSet CURRENT_STATE_T.STATE_DISCONNECTING
      exampleMotion).localData.disconnect_counter = 3 := by decide
  refine ⟨h1, h2, ?_⟩
  intro hall
  have h0 := (hall CURRENT_STATE_T.STATE_DISCONNECTING exampleMotion
    (Or.inr (Or.inl rfl)) (by decide)).2
  rw [h2] at h0
  exact absurd h0 (by decide)

/-! ## Pairing, continued -/

theorem whiteListOf_append (a b : List SdkCall) :
    whiteListOf (a ++ b) = b.foldl whiteListStep (whiteListOf a) := by
  simp [whiteListOf, List.foldl_append]

/-- C21, as amended: successful pairing bonds the peer. When a pairing-complete
indication with success status is handled in a connected mode (whatever
`localData.bonded` was before), then afterwards `localData.bonded` is TRUE,
`localData.bonded_bd_addr` equals the peer address carried by the event, and
the whitelist as rebuilt by `AppUpdateWhiteList` holds that peer address, and
nothing else, when the address is neither resolvable random nor non-resolvable
random; for a random address of either kind the rebuilt whitelist is empty.
In terms of the calls made: `LsResetWhiteList` is called, and
`LsAddWhiteListDevice` is called after it, with the peer address, only for an
address that is not random. -/
theorem pairing_success_bonds_peer (ev : SM_SIMPLE_PAIRING_COMPLETE_IND_T) (fw : Firmware)
    (hcur : fw.localData.state = CURRENT_STATE_T.STATE_CONNECTED_IDLE ∨
      fw.localData.state = CURRENT_STATE_T.STATE_CONNECTED_MOTION ∨
      fw.localData.state = CURRENT_STATE_T.STATE_CONNECTED_AUDIO)
    (hstatus : ev.status = sm_pairing_status.sys_status_success) :
    (handleSignalSmSimplePairingCompleteInd ev fw).localData.bonded = true ∧
    (handleSignalSmSimplePairingCompleteInd ev fw).localData.bonded_bd_addr = ev.bd_addr ∧
    whiteListOf (handleSignalSmSimplePairingCompleteInd ev fw).sdkCalls
      = (if IsAddressResolvableRandom ev.bd_addr = false ∧
            IsAddressNonResolvableRandom ev.bd_addr = false then [ev.bd_addr]
          else []) ∧
    (handleSignalSmSimplePairingCompleteInd ev fw).sdkCalls
      = fw.sdkCalls
        ++ [SdkCall.Nvm_Write [1] NVM_OFFSET_BONDED_FLAG,
            SdkCall.Nvm_Write_TYPED_BD_ADDR_T ev.bd_addr NVM_OFFSET_BONDED_ADDR,
            SdkCall.LsResetWhiteList]
        ++ (if IsAddressResolvableRandom ev.bd_addr = false ∧
              IsAddressNonResolvableRandom ev.bd_addr = false then
            [SdkCall.LsAddWhiteListDevice ev.bd_addr]
          else [])
        ++ [SdkCall.BatteryUpdateLevel fw.localData.st_ucid] := by
  unfold handleSignalSmSimplePairingCompleteInd
  rw [if_pos hcur, if_pos hstatus]
  refine ⟨by simp, by simp, ?_⟩
  unfold AppUpdateWhiteList
  by_cases hr : IsAddressResolvableRandom ev.bd_addr = false
  · by_cases hn : IsAddressNonResolvableRandom ev.bd_addr = false
    · simp [Firmware.call, whiteListOf_append, List.foldl, whiteListStep, hr, hn]
    · simp [Firmware.call, whiteListOf_append, List.foldl, whiteListStep, hr, hn]
  · simp [Firmware.call, whiteListOf_append, List.foldl, whiteListStep, hr]

/-- C21, witness: the example that is not bonded pairs with a host at a public
address. -/
theorem pairing_success_bonds_peer_witness :
    (handleSignalSmSimplePairingCompleteInd
      { status := sm_pairing_status.sys_status_success, bd_addr := examplePublicAddr }
      exampleUnbonded).localData.bonded = true ∧
    whiteListOf (handleSignalSmSimplePairingCompleteInd
      { status := sm_pairing_status.sys_status_success, bd_addr := examplePublicAddr }
      exampleUnbonded).sdkCalls = [examplePublicAddr] :=
  ⟨(pairing_success_bonds_peer
      { status := sm_pairing_status.sys_status_success, bd_addr := examplePublicAddr }
      exampleUnbonded (Or.inl rfl) rfl).1,
    (pairing_success_bonds_peer
      { status := sm_pairing_status.sys_status_success, bd_addr := examplePublicAddr }
      exampleUnbonded (Or.inl rfl) rfl).2.2.1⟩

/-- C21, the claim as written fails for a peer with a resolvable random
address: the pairing bonds the peer, and `AppUpdateWhiteList` resets the
whitelist and does not add the peer address to it. -/
theorem pairing_success_random_peer_not_in_whitelist :
    whiteListOf (handleSignalSmSimplePairingCompleteInd examplePairingSuccess
      exampleUnbonded).sdkCalls = [] ∧
    (handleSignalSmSimplePairingCompleteInd examplePairingSuccess exampleUnbonded).sdkCalls
      = [SdkCall.Nvm_Write [1] NVM_OFFSET_BONDED_FLAG,
          SdkCall.Nvm_Write_TYPED_BD_ADDR_T exampleResolvableAddr NVM_OFFSET_BONDED_ADDR,
          SdkCall.LsResetWhiteList, SdkCall.BatteryUpdateLevel 1] ∧
    ¬ ∀ (ev : SM_SIMPLE_PAIRING_COMPLETE_IND_T) (fw : Firmware),
      (fw.localData.state = CURRENT_STATE_T.STATE_CONNECTED_IDLE ∨
        fw.localData.state = CURRENT_STATE_T.STATE_CONNECTED_MOTION ∨
        fw.localData.state = CURRENT_STATE_T.STATE_CONNECTED_AUDIO) →
      ev.status = sm_pairing_status.sys_status_success →
      fw.localData.bonded = false →
      (handleSignalSmSimplePairingCompleteInd ev fw).localData.bonded = true ∧
      (handleSignalSmSimplePairingCompleteInd ev fw).localData.bonded_bd_addr = ev.bd_addr ∧
      ev.bd_addr ∈ whiteListOf (handleSignalSmSimplePairingCompleteInd ev fw).sdkCalls := by
  have h : whiteListOf (handleSignalSmSimplePairingCompleteInd examplePairingSuccess
      exampleUnbonded).sdkCalls = [] := by decide
  refine ⟨h, by decide, ?_⟩
  intro hall
  have hmem := (hall examplePairingSuccess exampleUnbonded (Or.inl rfl) rfl rfl).2.2
  rw [h] at hmem
  exact absurd hmem (List.not_mem_nil _)

/-! ## Connection parameter update -/

/-- C25, the code at the cap: with the cap `MAX_NUM_CONN_PARAM_UPDATE_REQS` at
2, two rounds of request and failure leave the count at 2, the cap, and the
retry counter active again; the third round sends a third request, and only
the failure after it leaves the retry counter inactive. -/
theorem conn_param_update_retries_exceed_cap :
    exampleConnParams.MAX_NUM_CONN_PARAM_UPDATE_REQS = 2 ∧
    (exampleRetryRound (exampleRetryRound exampleUpdating)).localData.conn_param_update_count
      = 2 ∧
    (exampleRetryRound (exampleRetryRound exampleUpdating)).localData.conn_param_counter_active
      = true ∧
    (connParamUpdateRequests
      (exampleRetryRound (exampleRetryRound (exampleRetryRound exampleUpdating))).sdkCalls).length
      = 3 ∧
    (exampleRetryRound (exampleRetryRound
      (exampleRetryRound exampleUpdating))).localData.conn_param_counter_active = false := by
  refine ⟨rfl, ?_, ?_, ?_, ?_⟩ <;> decide

/-! ## The gate of the notifications -/

/-- C26, the code when the link is lost before the delay timer of the
notifications fires: the disconnect-complete handler leaves the application
advertising with the notifications blocked, and it does not delete the delay
timer (the timer has the identifier 2, the second of the pool); when the timer
fires, `notificationConnectionDelay` unblocks the notifications while the
application is advertising, and the buffered report is transmitted on the
invalid UCID. -/
theorem notificationConnectionDelay_unblocks_while_advertising :
    exampleLinkLost.localData.state = CURRENT_STATE_T.STATE_FAST_ADVERT ∧
    exampleLinkLost.localData.blockNotifications = true ∧
    exampleLinkLost.notifications.gattCharValueNotifications.length = 0 ∧
    SdkCall.TimerCreate TIMER_PERIOD.NOTIFICATION_DELAY_AFTER_RECONNECTION true
      TIMER_HANDLER.notificationConnectionDelay ∈ exampleLinkLost.sdkCalls ∧
    SdkCall.TimerDelete 2 ∉ exampleLinkLost.sdkCalls ∧
    (notificationConnectionDelay exampleLinkLost).localData.state
      = CURRENT_STATE_T.STATE_FAST_ADVERT ∧
    (notificationConnectionDelay exampleLinkLost).localData.blockNotifications = false ∧
    (notificationConnectionDelay exampleLinkLost).notifications.gattCharValueNotifications.map
      (fun n => (n.cid, n.handle)) = [(GATT_INVALID_UCID, 7)] := by
  refine ⟨?_, ?_, ?_, ?_, ?_, ?_, ?_, ?_⟩ <;> decide

/-! ## The bonding record -/

theorem stateSet_bonded (new_state : CURRENT_STATE_T) (fw : Firmware) :
    (stateSet new_state fw).localData.bonded = fw.localData.bonded :=
  (stateSet_same_fields new_state fw).bonded

theorem stateSet_bonded_bd_addr (new_state : CURRENT_STATE_T) (fw : Firmware) :
    (stateSet new_state fw).localData.bonded_bd_addr = fw.localData.bonded_bd_addr :=
  (stateSet_same_fields new_state fw).bonded_bd_addr

theorem stateSet_central_device_irk (new_state : CURRENT_STATE_T) (fw : Firmware) :
    (stateSet new_state fw).localData.central_device_irk = fw.localData.central_device_irk :=
  (stateSet_same_fields new_state fw).central_device_irk

theorem stateSet_diversifier (new_state : CURRENT_STATE_T) (fw : Firmware) :
    (stateSet new_state fw).localData.diversifier = fw.localData.diversifier :=
  (stateSet_same_fields new_state fw).diversifier

theorem RemoteDataInit_central_device_irk (fw : Firmware) :
    (RemoteDataInit fw).localData.central_device_irk = fw.localData.central_device_irk := by
  simp [RemoteDataInit]

theorem RemoteDataInit_diversifier (fw : Firmware) :
    (RemoteDataInit fw).localData.diversifier = fw.localData.diversifier := by
  simp [RemoteDataInit]

theorem handleSignalGattAddDBCfm_sameBondingRecord (ev : GATT_ADD_DB_CFM_T) (fw : Firmware) :
    SameBondingRecord fw.localData (handleSignalGattAddDBCfm ev fw).localData := by
  unfold handleSignalGattAddDBCfm
  split_ifs
  · exact (stateSet_same_fields _ _).sameBondingRecord
  · exact sameBondingRecord_refl _

theorem handleSignalGattConnectCfm_sameBondingRecord (ev : GATT_CONNECT_CFM_T) (fw : Firmware)
    (h : ¬ (ev.result = HCI_ERROR_DIRECTED_ADVERTISING_TIMEOUT ∧
      fw.localData.pairing_button_pressed = true)) :
    SameBondingRecord fw.localData (handleSignalGattConnectCfm ev fw).localData := by
  unfold handleSignalGattConnectCfm stateSetDisconnect TimerCreate
  simp only []
  split_ifs <;>
    first
    | exact absurd ⟨‹ev.result = HCI_ERROR_DIRECTED_ADVERTISING_TIMEOUT›,
        ‹fw.localData.pairing_button_pressed = true›⟩ h
    | simp [SameBondingRecord, stateSet_bonded, stateSet_bonded_bd_addr,
        stateSet_central_device_irk, stateSet_diversifier]

/-- The cancel-connect confirmation runs `handleClearPairing` when it finds the
pairing button pressed in FAST_ADVERT or SLOW_ADVERT, which clears the bonded
flag and leaves the three other fields of the bonding record; in every other
case it leaves the record alone. -/
theorem handleSignalGattCancelConnectCfm_bonding (fw : Firmware) :
    ((fw.localData.state = CURRENT_STATE_T.STATE_FAST_ADVERT ∨
        fw.localData.state = CURRENT_STATE_T.STATE_SLOW_ADVERT) →
      fw.localData.pairing_button_pressed = true →
      (handleSignalGattCancelConnectCfm fw).localData.bonded = false ∧
      (handleSignalGattCancelConnectCfm fw).localData.bonded_bd_addr
        = fw.localData.bonded_bd_addr ∧
      (handleSignalGattCancelConnectCfm fw).localData.central_device_irk
        = fw.localData.central_device_irk ∧
      (handleSignalGattCancelConnectCfm fw).localData.diversifier
        = fw.localData.diversifier) ∧
    (¬ ((fw.localData.state = CURRENT_STATE_T.STATE_FAST_ADVERT ∨
          fw.localData.state = CURRENT_STATE_T.STATE_SLOW_ADVERT) ∧
        fw.localData.pairing_button_pressed = true) →
      SameBondingRecord fw.localData (handleSignalGattCancelConnectCfm fw).localData) := by
  unfold handleSignalGattCancelConnectCfm
  simp only []
  refine ⟨?_, ?_⟩
  · intro hcur hp
    split_ifs with h1 h2
    · simp [AdvStart_localData, handleClearPairing_localData]
    · simp [stateSet_bonded, stateSet_bonded_bd_addr, stateSet_central_device_irk,
        stateSet_diversifier, handleClearPairing_localData]
    · rcases hcur with h | h
      · exact absurd h h1
      · exact absurd h h2
  · intro hno
    split_ifs with h1 hp h2 hp2
    · exact absurd ⟨Or.inl h1, hp⟩ hno
    · simp [SameBondingRecord, stateSet_bonded, stateSet_bonded_bd_addr,
        stateSet_central_device_irk, stateSet_diversifier]
    · exact absurd ⟨Or.inr h2, hp2⟩ hno
    · simp [SameBondingRecord, stateSet_bonded, stateSet_bonded_bd_addr,
        stateSet_central_device_irk, stateSet_diversifier]
    · exact ⟨rfl, rfl, rfl, rfl⟩

theorem handleSignalLmEvDisconnectComplete_sameBondingRecord
    (ev : HCI_EV_DATA_DISCONNECT_COMPLETE_T) (fw : Firmware) :
    SameBondingRecord fw.localData (handleSignalLmEvDisconnectComplete ev fw).localData := by
  unfold handleSignalLmEvDisconnectComplete
  simp only []
  split_ifs <;>
    simp [SameBondingRecord, stateSet_bonded, stateSet_bonded_bd_addr,
      stateSet_central_device_irk, stateSet_diversifier, RemoteDataInit_central_device_irk,
      RemoteDataInit_diversifier]

theorem handleSignalLMEncryptionChange_sameBondingRecord
    (ev : HCI_EV_DATA_ENCRYPTION_CHANGE_T) (fw : Firmware) :
    SameBondingRecord fw.localData (handleSignalLMEncryptionChange ev fw).localData := by
  unfold handleSignalLMEncryptionChange
  simp only []
  split_ifs <;> simp [SameBondingRecord]

theorem handleSignalLsConnParamUpdateCfm_sameBondingRecord
    (ev : LS_CONNECTION_PARAM_UPDATE_CFM_T) (fw : Firmware) :
    SameBondingRecord fw.localData (handleSignalLsConnParamUpdateCfm ev fw).localData := by
  unfold handleSignalLsConnParamUpdateCfm
  split_ifs <;> exact ⟨rfl, rfl, rfl, rfl⟩

theorem handleSignalLsConnParamUpdateInd_sameBondingRecord
    (ev : LS_CONNECTION_PARAM_UPDATE_IND_T) (fw : Firmware) :
    SameBondingRecord fw.localData (handleSignalLsConnParamUpdateInd ev fw).localData := by
  unfold handleSignalLsConnParamUpdateInd
  split_ifs <;> exact ⟨rfl, rfl, rfl, rfl⟩

theorem handleConnectionUpdateInd_sameBondingRecord
    (ev : LM_EV_CONNECTION_UPDATE_T) (fw : Firmware) :
    SameBondingRecord fw.localData (handleConnectionUpdateInd ev fw).localData := by
  unfold handleConnectionUpdateInd
  split_ifs <;> exact ⟨rfl, rfl, rfl, rfl⟩

theorem handleBackgroundTickInd_sameBondingRecord (fw : Firmware) :
    SameBondingRecord fw.localData (handleBackgroundTickInd fw).localData := by
  have hidle : SameBondingRecord fw.localData (handleBackgroundTickInd_idle fw).localData := by
    unfold handleBackgroundTickInd_idle
    simp only []
    split_ifs
    · exact sameBondingRecord_trans ⟨rfl, rfl, rfl, rfl⟩
        (stateSet_same_fields _ _).sameBondingRecord
    · exact ⟨rfl, rfl, rfl, rfl⟩
    · exact ⟨rfl, rfl, rfl, rfl⟩
  obtain ⟨ticks, cnt, act, h⟩ :=
    handleBackgroundTickInd_conn_param_localData (handleBackgroundTickInd_idle fw)
  unfold handleBackgroundTickInd
  rw [h]
  exact ⟨hidle.1, hidle.2.1, hidle.2.2.1, hidle.2.2.2⟩

theorem handleSignalSmSimplePairingCompleteInd_failure_sameBondingRecord
    (ev : SM_SIMPLE_PAIRING_COMPLETE_IND_T) (fw : Firmware)
    (hfail : ev.status ≠ sm_pairing_status.sys_status_success) :
    SameBondingRecord fw.localData
      (handleSignalSmSimplePairingCompleteInd ev fw).localData := by
  unfold handleSignalSmSimplePairingCompleteInd
  simp only [if_neg hfail]
  split_ifs
  · exact (stateSet_same_fields _ _).sameBondingRecord
  · exact ⟨rfl, rfl, rfl, rfl⟩
  · exact ⟨rfl, rfl, rfl, rfl⟩
  · exact ⟨rfl, rfl, rfl, rfl⟩

/-- C30, as amended: the writers of the bonding record. Of the persisted
fields `localData.bonded`, `bonded_bd_addr`, `central_device_irk` and
`diversifier`: the pairing-complete handler on success in a connected mode
writes `bonded` and `bonded_bd_addr`; the pairing-keys-received handler in a
connected mode writes `diversifier`, and `central_device_irk` when the
connected address is resolvable random; `handleClearPairing` writes `bonded`,
and it is run by the connect handler on a directed-advertising timeout with
the pairing button pressed and by the cancel-connect handler in FAST_ADVERT or
SLOW_ADVERT with the pairing button pressed. Every other handler (database
registration, connect and cancel-connect in every other case,
disconnect-complete, encryption-change, the pairing complete handler on
failure or out of a connected mode, the keys handler out of a connected mode,
the parameter-update confirmation and indication, the connection update, the
background tick, the transmission result) leaves all four fields unchanged. -/
theorem bonding_record_writers (fw : Firmware) :
    (∀ ev : SM_SIMPLE_PAIRING_COMPLETE_IND_T,
      ((fw.localData.state = CURRENT_STATE_T.STATE_CONNECTED_IDLE ∨
          fw.localData.state = CURRENT_STATE_T.STATE_CONNECTED_MOTION ∨
          fw.localData.state = CURRENT_STATE_T.STATE_CONNECTED_AUDIO) →
        ev.status = sm_pairing_status.sys_status_success →
        (handleSignalSmSimplePairingCompleteInd ev fw).localData
          = { fw.localData with bonded := true, bonded_bd_addr := ev.bd_addr }) ∧
      (ev.status ≠ sm_pairing_status.sys_status_success →
        SameBondingRecord fw.localData
          (handleSignalSmSimplePairingCompleteInd ev fw).localData) ∧
      (¬ (fw.localData.state = CURRENT_STATE_T.STATE_CONNECTED_IDLE ∨
          fw.localData.state = CURRENT_STATE_T.STATE_CONNECTED_MOTION ∨
          fw.localData.state = CURRENT_STATE_T.STATE_CONNECTED_AUDIO) →
        handleSignalSmSimplePairingCompleteInd ev fw = fw)) ∧
    (∀ ev : SM_KEYS_IND_T,
      ((fw.localData.state = CURRENT_STATE_T.STATE_CONNECTED_IDLE ∨
          fw.localData.state = CURRENT_STATE_T.STATE_CONNECTED_MOTION ∨
          fw.localData.state = CURRENT_STATE_T.STATE_CONNECTED_AUDIO) →
        (handleSignalSmKeysInd ev fw).localData
          = { fw.localData with
              diversifier := ev.keys.div
              central_device_irk :=
                if IsAddressResolvableRandom fw.localData.con_bd_addr = true then
                  { irk := MemCopy fw.localData.central_device_irk.irk ev.keys.irk
                      MAX_WORDS_IRK }
                else fw.localData.central_device_irk }) ∧
      (¬ (fw.localData.state = CURRENT_STATE_T.STATE_CONNECTED_IDLE ∨
          fw.localData.state = CURRENT_STATE_T.STATE_CONNECTED_MOTION ∨
          fw.localData.state = CURRENT_STATE_T.STATE_CONNECTED_AUDIO) →
        handleSignalSmKeysInd ev fw = fw)) ∧
    (handleClearPairing fw).localData
      = { fw.localData with bonded := false, encrypt_enabled := false } ∧
    (∀ ev : GATT_CONNECT_CFM_T,
      ¬ (ev.result = HCI_ERROR_DIRECTED_ADVERTISING_TIMEOUT ∧
        fw.localData.pairing_button_pressed = true) →
      SameBondingRecord fw.localData (handleSignalGattConnectCfm ev fw).localData) ∧
    ((fw.localData.state = CURRENT_STATE_T.STATE_FAST_ADVERT ∨
        fw.localData.state = CURRENT_STATE_T.STATE_SLOW_ADVERT) →
      fw.localData.pairing_button_pressed = true →
      (handleSignalGattCancelConnectCfm fw).localData.bonded = false ∧
      (handleSignalGattCancelConnectCfm fw).localData.bonded_bd_addr
        = fw.localData.bonded_bd_addr ∧
      (handleSignalGattCancelConnectCfm fw).localData.central_device_irk
        = fw.localData.central_device_irk ∧
      (handleSignalGattCancelConnectCfm fw).localData.diversifier
        = fw.localData.diversifier) ∧
    (¬ ((fw.localData.state = CURRENT_STATE_T.STATE_FAST_ADVERT ∨
          fw.localData.state = CURRENT_STATE_T.STATE_SLOW_ADVERT) ∧
        fw.localData.pairing_button_pressed = true) →
      SameBondingRecord fw.localData (handleSignalGattCancelConnectCfm fw).localData) ∧
    (∀ ev : GATT_ADD_DB_CFM_T,
      SameBondingRecord fw.localData (handleSignalGattAddDBCfm ev fw).localData) ∧
    (∀ ev : HCI_EV_DATA_DISCONNECT_COMPLETE_T,
      SameBondingRecord fw.localData (handleSignalLmEvDisconnectComplete ev fw).localData) ∧
    (∀ ev : HCI_EV_DATA_ENCRYPTION_CHANGE_T,
      SameBondingRecord fw.localData (handleSignalLMEncryptionChange ev fw).localData) ∧
    (∀ ev : LS_CONNECTION_PARAM_UPDATE_CFM_T,
      SameBondingRecord fw.localData (handleSignalLsConnParamUpdateCfm ev fw).localData) ∧
    (∀ ev : LS_CONNECTION_PARAM_UPDATE_IND_T,
      SameBondingRecord fw.localData (handleSignalLsConnParamUpdateInd ev fw).localData) ∧
    (∀ ev : LM_EV_CONNECTION_UPDATE_T,
      SameBondingRecord fw.localData (handleConnectionUpdateInd ev fw).localData) ∧
    SameBondingRecord fw.localData (handleBackgroundTickInd fw).localData ∧
    (∀ cfm : GATT_CHAR_VAL_IND_CFM_T,
      (appHandleCharValIndCfm cfm fw).localData = fw.localData) := by
  refine ⟨?_, ?_, handleClearPairing_localData fw,
    fun ev h => handleSignalGattConnectCfm_sameBondingRecord ev fw h,
    (handleSignalGattCancelConnectCfm_bonding fw).1,
    (handleSignalGattCancelConnectCfm_bonding fw).2,
    fun ev => handleSignalGattAddDBCfm_sameBondingRecord ev fw,
    fun ev => handleSignalLmEvDisconnectComplete_sameBondingRecord ev fw,
    fun ev => handleSignalLMEncryptionChange_sameBondingRecord ev fw,
    fun ev => handleSignalLsConnParamUpdateCfm_sameBondingRecord ev fw,
    fun ev => handleSignalLsConnParamUpdateInd_sameBondingRecord ev fw,
    fun ev => handleConnectionUpdateInd_sameBondingRecord ev fw,
    handleBackgroundTickInd_sameBondingRecord fw, fun _ => rfl⟩
  · intro ev
    refine ⟨?_, handleSignalSmSimplePairingCompleteInd_failure_sameBondingRecord ev fw, ?_⟩
    · intro hcur hstatus
      unfold handleSignalSmSimplePairingCompleteInd
      rw [if_pos hcur, if_pos hstatus]
      simp
    · intro hcur
      unfold handleSignalSmSimplePairingCompleteInd
      rw [if_neg hcur]
  · intro ev
    refine ⟨?_, ?_⟩
    · intro hcur
      unfold handleSignalSmKeysInd
      rw [if_pos hcur]
      by_cases hrr : IsAddressResolvableRandom fw.localData.con_bd_addr = true
      · simp [hrr]
      · simp [hrr]
    · intro hcur
      unfold handleSignalSmKeysInd
      rw [if_neg hcur]

/-- C30, the claim as written fails twice. The pairing-keys-received handler
in a connected mode stores the diversifier of the keys (and the IRK of a peer
with a resolvable random address), and the connect handler, on a
directed-advertising timeout with the pairing button pressed, clears the
bonded flag; so does the cancel-connect handler, which the claim does not
list, when it finds the pairing button pressed while advertising. -/
theorem keys_and_connect_handlers_write_bonding_record :
    exampleConnected.localData.diversifier = 0 ∧
    (handleSignalSmKeysInd exampleKeys exampleConnected).localData.diversifier = 7 ∧
    exampleUnbonded.localData.central_device_irk.irk 0 = 0 ∧
    (handleSignalSmKeysInd exampleKeys exampleUnbonded).localData.central_device_irk.irk 0
      = 1 ∧
    exampleDirected.localData.bonded = true ∧
    (handleSignalGattConnectCfm exampleDirectedTimeout exampleDirected).localData.bonded
      = false ∧
    (handleSignalGattCancelConnectCfm
      { exampleAdvertising with localData.pairing_button_pressed := true }).localData.bonded
      = false ∧
    (¬ ∀ (ev : SM_KEYS_IND_T) (fw : Firmware),
      SameBondingRecord fw.localData (handleSignalSmKeysInd ev fw).localData) ∧
    (¬ ∀ (ev : GATT_CONNECT_CFM_T) (fw : Firmware),
      SameBondingRecord fw.localData (handleSignalGattConnectCfm ev fw).localData) := by
  have h1 : (handleSignalSmKeysInd exampleKeys exampleConnected).localData.diversifier = 7 := by
    decide
  have h2 : (handleSignalGattConnectCfm exampleDirectedTimeout
      exampleDirected).localData.bonded = false := by decide
  refine ⟨rfl, h1, rfl, by decide, rfl, h2, by decide, ?_, ?_⟩
  · intro hall
    have h := (hall exampleKeys exampleConnected).2.2.2
    rw [h1] at h
    exact absurd h (by decide)
  · intro hall
    have h := (hall exampleDirectedTimeout exampleDirected).1
    rw [h2] at h
    exact absurd h (by decide)

/-! ## The ring buffer along the runs of the engine -/

theorem SET_NEXT_POSITION_eq_mod (v : Nat) (h : v < 20) :
    SET_NEXT_POSITION v = (v + 1) % 20 := by
  unfold SET_NEXT_POSITION MAX_BUFFERED_NOTIFICATIONS
  split_ifs <;> omega

theorem SET_PREV_POSITION_eq_mod (v : Nat) (h : v < 20) :
    SET_PREV_POSITION v = (v + 19) % 20 := by
  unfold SET_PREV_POSITION MAX_BUFFERED_NOTIFICATIONS
  split_ifs <;> omega

/-- The number of free positions, for cursors that index the array. -/
theorem notificationBufferRemaining_eq (buf : Nat → NOTIFICATION_ITEM) (w r : Nat)
    (st : NOTIFICATION_STATE) (drop : Bool) (tr : List GattCharValueNotification)
    (hr : r < 20) (hw : w < 20) :
    notificationBufferRemaining
      { notificationBuffer := buf, notificationWritePosition := w,
        notificationReadPosition := r, currentState := st, dropOnNextRegistration := drop,
        gattCharValueNotifications := tr }
      = 20 - (w + 20 - r) % 20 := by
  unfold notificationBufferRemaining
  simp only []
  rw [NUM_BUFFERED_ITEMS_eq_mod _ _ hr hw]
  unfold uint16_sub MAX_BUFFERED_NOTIFICATIONS
  omega

theorem notificationSendNext_wellFormed (localData : LOCAL_DATA_T) (s : NotificationModule)
    (h : RingWellFormed s) : RingWellFormed (notificationSendNext localData s) := by
  by_cases hgate : s.currentState = NOTIFICATION_STATE.ALL_QUIET ∧
      localData.blockNotifications = false ∧
      NUM_BUFFERED_ITEMS s.notificationReadPosition s.notificationWritePosition > 0
  · rw [notificationSendNext_of_gate localData s hgate.1 hgate.2.1 hgate.2.2]
    exact ⟨h.1, fun _ => hgate.2.2⟩
  · rw [notificationSendNext_of_not_gate localData s hgate]
    exact h

/-- The state in which `bufferItem` calls `notificationSendNext`: the engine
with the write cursor and, at most, the buffer changed. The store is not made
in the slot of an outstanding transmission, and leaves that slot as it is when
the payload fits the payload array. -/
theorem bufferItem_before_send (localData : LOCAL_DATA_T) (handle len : Nat) (data : Nat → Nat)
    (force : Bool) (s : NotificationModule) (hwf : RingWellFormed s) :
    ∃ s2, (bufferItem localData handle len data force s).2 = notificationSendNext localData s2 ∧
      RingWellFormed s2 ∧
      s2.currentState = s.currentState ∧
      s2.gattCharValueNotifications = s.gattCharValueNotifications ∧
      s2.dropOnNextRegistration = s.dropOnNextRegistration ∧
      s2.notificationReadPosition = s.notificationReadPosition ∧
      (len ≤ MAX_NOTIFICATION_DATA_LEN_BYTES →
        s.currentState = NOTIFICATION_STATE.NOTIFICATION_OUTSTANDING →
        s2.notificationBuffer s.notificationReadPosition
          = s.notificationBuffer s.notificationReadPosition) := by
  obtain ⟨buf, w, r, st, drop, tr⟩ := s
  obtain ⟨⟨hr, hw⟩, hout⟩ := hwf
  simp only [MAX_BUFFERED_NOTIFICATIONS] at hr hw hout
  have hprev := SET_PREV_POSITION_eq_mod w hw
  have hprevlt : SET_PREV_POSITION w < 20 := by omega
  have hnext := SET_NEXT_POSITION_eq_mod w hw
  have hnext1 := SET_NEXT_POSITION_eq_mod _ hprevlt
  have hnextlt : SET_NEXT_POSITION w < 20 := by omega
  have hnext1lt : SET_NEXT_POSITION (SET_PREV_POSITION w) < 20 := by omega
  have hnum := NUM_BUFFERED_ITEMS_eq_mod r w hr hw
  have hnum1 := NUM_BUFFERED_ITEMS_eq_mod r _ hr hprevlt
  have hnumn := NUM_BUFFERED_ITEMS_eq_mod r _ hr hnextlt
  have hnumn1 := NUM_BUFFERED_ITEMS_eq_mod r _ hr hnext1lt
  have hrem := notificationBufferRemaining_eq buf w r st drop tr hr hw
  have hrem1 := notificationBufferRemaining_eq buf (SET_PREV_POSITION w) r st drop tr hr hprevlt
  unfold bufferItem
  simp only []
  split_ifs with h1 h2 h3
  · -- the newest entry is overwritten
    have h11 := h1.1
    refine ⟨_, rfl, ⟨⟨hr, hnext1lt⟩, ?_⟩, rfl, rfl, rfl, rfl, ?_⟩
    · intro _
      show NUM_BUFFERED_ITEMS r (SET_NEXT_POSITION (SET_PREV_POSITION w)) > 0
      omega
    · intro hlen ho
      have := hout ho
      show copyNotification buf (SET_PREV_POSITION w) handle len data r = buf r
      rw [copyNotification_of_le _ _ _ _ _ hlen, Function.update_noteq]
      omega
  · have h11 := h1.1
    refine ⟨_, rfl, ⟨⟨hr, hprevlt⟩, ?_⟩, rfl, rfl, rfl, rfl, fun _ _ => rfl⟩
    intro ho
    have := hout ho
    show NUM_BUFFERED_ITEMS r (SET_PREV_POSITION w) > 0
    omega
  · refine ⟨_, rfl, ⟨⟨hr, hnextlt⟩, ?_⟩, rfl, rfl, rfl, rfl, ?_⟩
    · intro _
      show NUM_BUFFERED_ITEMS r (SET_NEXT_POSITION w) > 0
      omega
    · intro hlen ho
      have := hout ho
      show copyNotification buf w handle len data r = buf r
      rw [copyNotification_of_le _ _ _ _ _ hlen, Function.update_noteq]
      omega
  · exact ⟨_, rfl, ⟨⟨hr, hw⟩, hout⟩, rfl, rfl, rfl, rfl, fun _ _ => rfl⟩

theorem notificationDropAll_wellFormed (s : NotificationModule) (h : RingWellFormed s) :
    RingWellFormed (notificationDropAll s) := by
  unfold notificationDropAll
  split_ifs with hq
  · refine ⟨⟨?_, ?_⟩, ?_⟩
    · show (0 : Nat) < 20
      omega
    · show (0 : Nat) < 20
      omega
    · intro ho
      exact absurd (hq.symm.trans ho) (by decide)
  · exact ⟨h.1, h.2⟩

theorem notificationRegisterResult_wellFormed (b : Bool) (s : NotificationModule)
    (h : RingWellFormed s) : RingWellFormed (notificationRegisterResult b s) := by
  obtain ⟨⟨hr, hw⟩, _⟩ := h
  unfold MAX_BUFFERED_NOTIFICATIONS at hr hw
  have hnext := SET_NEXT_POSITION_eq_mod _ hr
  have hnextlt : SET_NEXT_POSITION s.notificationReadPosition < 20 := by omega
  have h0 : (0 : Nat) < 20 := by omega
  unfold notificationRegisterResult notificationDropAll
  simp only []
  split_ifs <;>
    first
    | exact ⟨⟨h0, h0⟩, fun ho => NOTIFICATION_STATE.noConfusion ho⟩
    | exact ⟨⟨hnextlt, hw⟩, fun ho => NOTIFICATION_STATE.noConfusion ho⟩
    | exact ⟨⟨hr, hw⟩, fun ho => NOTIFICATION_STATE.noConfusion ho⟩

/-- Every call of the interface keeps the ring buffer well formed, whatever
the length of the payload of an enqueue. -/
theorem applyOp_wellFormed (localData : LOCAL_DATA_T) (op : EngineOp) (s : NotificationModule)
    (hwf : RingWellFormed s) : RingWellFormed (applyOp localData op s) := by
  cases op with
  | bufferItem handle len data =>
    obtain ⟨s2, h, hwf2, _⟩ := bufferItem_before_send localData handle len data false s hwf
    show RingWellFormed (bufferItem localData handle len data false s).2
    rw [h]
    exact notificationSendNext_wellFormed localData s2 hwf2
  | forceBufferItem handle len data =>
    obtain ⟨s2, h, hwf2, _⟩ := bufferItem_before_send localData handle len data true s hwf
    show RingWellFormed (bufferItem localData handle len data true s).2
    rw [h]
    exact notificationSendNext_wellFormed localData s2 hwf2
  | sendNext => exact notificationSendNext_wellFormed localData s hwf
  | dropAll => exact notificationDropAll_wellFormed s hwf
  | registerResult b => exact notificationRegisterResult_wellFormed b s hwf

theorem initialModule_wellFormed : RingWellFormed initialModule := by
  refine ⟨⟨?_, ?_⟩, ?_⟩
  · show (0 : Nat) < 20
    omega
  · show (0 : Nat) < 20
    omega
  · intro ho
    exact NOTIFICATION_STATE.noConfusion ho

theorem applyOps_wellFormed (ops : List (LOCAL_DATA_T × EngineOp)) :
    ∀ (s0 : NotificationModule), RingWellFormed s0 → RingWellFormed (applyOps ops s0) := by
  induction ops with
  | nil =>
    intro s0 hwf
    exact hwf
  | cons p rest ih =>
    intro s0 hwf
    obtain ⟨localData, op⟩ := p
    exact ih _ (applyOp_wellFormed localData op s0 hwf)

theorem runOps_wellFormed (ops : List (LOCAL_DATA_T × EngineOp)) :
    ∀ (s0 s : NotificationModule), RingWellFormed s0 →
      runOps ops s0 = some s → RingWellFormed s := by
  induction ops with
  | nil =>
    intro s0 s hwf hrun
    simp only [runOps, Option.some.injEq] at hrun
    exact hrun ▸ hwf
  | cons p rest ih =>
    intro s0 s hwf hrun
    obtain ⟨localData, op⟩ := p
    simp only [runOps] at hrun
    split_ifs at hrun
    exact ih _ s (applyOp_wellFormed localData op s0 hwf) hrun

/-- What a well-formed ring buffer gives on the cursors. -/
theorem RingWellFormed.bounds {s : NotificationModule} (h : RingWellFormed s) :
    NUM_BUFFERED_ITEMS s.notificationReadPosition s.notificationWritePosition
      = (s.notificationWritePosition + 20 - s.notificationReadPosition) % 20 ∧
    NUM_BUFFERED_ITEMS s.notificationReadPosition s.notificationWritePosition ≤ 19 ∧
    1 ≤ notificationBufferRemaining s ∧ notificationBufferRemaining s ≤ 20 ∧
    (NUM_BUFFERED_ITEMS s.notificationReadPosition s.notificationWritePosition = 0 ↔
      s.notificationReadPosition = s.notificationWritePosition) := by
  obtain ⟨buf, w, r, st, drop, tr⟩ := s
  obtain ⟨⟨hr, hw⟩, _⟩ := h
  simp only [MAX_BUFFERED_NOTIFICATIONS] at hr hw
  have hnum := NUM_BUFFERED_ITEMS_eq_mod r w hr hw
  have hrem := notificationBufferRemaining_eq buf w r st drop tr hr hw
  simp only []
  refine ⟨hnum, ?_, ?_, ?_, ?_⟩ <;> omega

/-- While a transmission is outstanding, an enqueue, a forced enqueue or a drop
leaves the transmission outstanding and the read position where it is; it
leaves the slot at the read position as it is when its payload fits the
payload array. -/
theorem applyOp_keeps_slot_in_flight (localData : LOCAL_DATA_T) (op : EngineOp)
    (s : NotificationModule) (hwf : RingWellFormed s)
    (hout : s.currentState = NOTIFICATION_STATE.NOTIFICATION_OUTSTANDING)
    (hop : op.isEnqueueOrDropAll = true) :
    (applyOp localData op s).currentState = NOTIFICATION_STATE.NOTIFICATION_OUTSTANDING ∧
    (applyOp localData op s).notificationReadPosition = s.notificationReadPosition ∧
    (op.fitsPayload = true →
      (applyOp localData op s).notificationBuffer s.notificationReadPosition
        = s.notificationBuffer s.notificationReadPosition) := by
  have hsend : ∀ s2 : NotificationModule, s2.currentState = s.currentState →
      notificationSendNext localData s2 = s2 := by
    intro s2 h2
    apply notificationSendNext_of_not_gate
    intro hg
    rw [hg.1] at h2
    rw [← h2] at hout
    exact NOTIFICATION_STATE.noConfusion hout
  cases op with
  | bufferItem handle len data =>
    obtain ⟨s2, h, _, hst, _, _, hrd, hslot⟩ :=
      bufferItem_before_send localData handle len data false s hwf
    show (bufferItem localData handle len data false s).2.currentState = _ ∧
      (bufferItem localData handle len data false s).2.notificationReadPosition = _ ∧
      (_ → (bufferItem localData handle len data false s).2.notificationBuffer _ = _)
    rw [h, hsend s2 hst]
    exact ⟨hst.trans hout, hrd, fun hfit => hslot (of_decide_eq_true hfit) hout⟩
  | forceBufferItem handle len data =>
    obtain ⟨s2, h, _, hst, _, _, hrd, hslot⟩ :=
      bufferItem_before_send localData handle len data true s hwf
    show (bufferItem localData handle len data true s).2.currentState = _ ∧
      (bufferItem localData handle len data true s).2.notificationReadPosition = _ ∧
      (_ → (bufferItem localData handle len data true s).2.notificationBuffer _ = _)
    rw [h, hsend s2 hst]
    exact ⟨hst.trans hout, hrd, fun hfit => hslot (of_decide_eq_true hfit) hout⟩
  | sendNext => exact Bool.noConfusion hop
  | dropAll =>
    have hd : applyOp localData EngineOp.dropAll s = { s with dropOnNextRegistration := true } := by
      show notificationDropAll s = _
      unfold notificationDropAll
      rw [if_neg (by rw [hout]; decide)]
    rw [hd]
    exact ⟨hout, rfl, fun _ => rfl⟩
  | registerResult b => exact Bool.noConfusion hop

theorem applyOps_keeps_slot_in_flight (calls : List (LOCAL_DATA_T × EngineOp)) :
    ∀ (s : NotificationModule), RingWellFormed s →
      s.currentState = NOTIFICATION_STATE.NOTIFICATION_OUTSTANDING →
      calls.all (fun p => p.2.isEnqueueOrDropAll) = true →
      (applyOps calls s).currentState = NOTIFICATION_STATE.NOTIFICATION_OUTSTANDING ∧
      (applyOps calls s).notificationReadPosition = s.notificationReadPosition ∧
      (calls.all (fun p => p.2.fitsPayload) = true →
        (applyOps calls s).notificationBuffer s.notificationReadPosition
          = s.notificationBuffer s.notificationReadPosition) := by
  induction calls with
  | nil =>
    intro s _ hout _
    exact ⟨hout, rfl, fun _ => rfl⟩
  | cons p rest ih =>
    intro s hwf hout hall
    obtain ⟨localData, op⟩ := p
    simp only [List.all_cons, Bool.and_eq_true] at hall
    obtain ⟨h1, h2, h3⟩ := applyOp_keeps_slot_in_flight localData op s hwf hout hall.1
    obtain ⟨k1, k2, k3⟩ := ih (applyOp localData op s)
      (applyOp_wellFormed localData op s hwf) h1 hall.2
    show (applyOps rest (applyOp localData op s)).currentState = _ ∧
      (applyOps rest (applyOp localData op s)).notificationReadPosition = _ ∧
      (_ → (applyOps rest (applyOp localData op s)).notificationBuffer _ = _)
    rw [h2] at k2 k3
    refine ⟨k1, k2, ?_⟩
    intro hfit
    simp only [List.all_cons, Bool.and_eq_true] at hfit
    exact (k3 hfit.2).trans (h3 hfit.1)

theorem bufferItem_buffer_cases (localData : LOCAL_DATA_T) (handle len : Nat)
    (data : Nat → Nat) (force : Bool) (s : NotificationModule) :
    (bufferItem localData handle len data force s).2.notificationBuffer = s.notificationBuffer ∨
    (bufferItem localData handle len data force s).2.notificationBuffer
      = copyNotification s.notificationBuffer s.notificationWritePosition handle len data ∨
    (force = true ∧
      (bufferItem localData handle len data force s).2.notificationBuffer
        = copyNotification s.notificationBuffer (SET_PREV_POSITION s.notificationWritePosition)
            handle len data) := by
  unfold bufferItem
  simp only []
  split_ifs with h1
  · exact Or.inr (Or.inr ⟨h1.2, by rw [notificationSendNext_buffer]⟩)
  · exact Or.inl (by rw [notificationSendNext_buffer])
  · exact Or.inr (Or.inl (by rw [notificationSendNext_buffer]))
  · exact Or.inl (by rw [notificationSendNext_buffer])

/-- The words of an item that lie outside its payload array are not written by
a store, whatever its length. -/
theorem copyNotification_outside (buf : Nat → NOTIFICATION_ITEM) (pos handle len : Nat)
    (data : Nat → Nat) (i j : Nat) (hj : MAX_NOTIFICATION_DATA_LEN_BYTES ≤ j) :
    (copyNotification buf pos handle len data i).notification j = (buf i).notification j := by
  have hj0 : j ≠ 0 := by
    unfold MAX_NOTIFICATION_DATA_LEN_BYTES at hj
    omega
  have hnj : ¬ j < MAX_NOTIFICATION_DATA_LEN_BYTES := by omega
  unfold copyNotification
  simp only []
  split_ifs
  · unfold MemCopyToBuffer
    simp only [if_neg hnj]
    by_cases hi : i = pos
    · rw [hi, Function.update_same]
    · rw [Function.update_noteq hi]
  · by_cases hi : i = pos
    · rw [hi]
      simp only [Function.update_same]
      exact Function.update_noteq hj0 _ _
    · rw [Function.update_noteq hi, Function.update_noteq hi]

theorem bufferItem_within_array (localData : LOCAL_DATA_T) (handle len : Nat)
    (data : Nat → Nat) (force : Bool) (s : NotificationModule)
    (hlen : len ≤ MAX_NOTIFICATION_DATA_LEN_BYTES)
    (hitems : ∀ i, (s.notificationBuffer i).dataLenInBytes ≤ MAX_NOTIFICATION_DATA_LEN_BYTES) :
    (∀ i, ((bufferItem localData handle len data force s).2.notificationBuffer i).dataLenInBytes
      ≤ MAX_NOTIFICATION_DATA_LEN_BYTES) ∧
    (∀ i j, MAX_NOTIFICATION_DATA_LEN_BYTES ≤ j →
      ((bufferItem localData handle len data force s).2.notificationBuffer i).notification j
        = (s.notificationBuffer i).notification j) ∧
    ∀ i, i ≠ s.notificationWritePosition →
      (force = true → i ≠ SET_PREV_POSITION s.notificationWritePosition) →
      (bufferItem localData handle len data force s).2.notificationBuffer i
        = s.notificationBuffer i := by
  have hstore : ∀ slot i, (copyNotification s.notificationBuffer slot handle len data
      i).dataLenInBytes ≤ MAX_NOTIFICATION_DATA_LEN_BYTES := by
    intro slot i
    rw [copyNotification_of_le _ _ _ _ _ hlen]
    by_cases hi : i = slot
    · rw [hi, Function.update_same]
      exact hlen
    · rw [Function.update_noteq hi]
      exact hitems i
  rcases bufferItem_buffer_cases localData handle len data force s with h | h | ⟨hf, h⟩
  · rw [h]
    exact ⟨hitems, fun _ _ _ => rfl, fun _ _ _ => rfl⟩
  · rw [h]
    refine ⟨hstore _, fun i j hj => copyNotification_outside _ _ _ _ _ i j hj, ?_⟩
    intro i hi _
    rw [copyNotification_of_le _ _ _ _ _ hlen, Function.update_noteq hi]
  · rw [h]
    refine ⟨hstore _, fun i j hj => copyNotification_outside _ _ _ _ _ i j hj, ?_⟩
    intro i _ hi
    rw [copyNotification_of_le _ _ _ _ _ hlen, Function.update_noteq (hi hf)]

/-- C33, as amended: stored payloads never exceed 20 bytes when the callers
keep to 20. For every call of `notificationBufferItem` or
`notificationForceBufferItem` with `dataLenInBytes` at most 20, on a buffer
whose items have a length of at most 20, every item held in the buffer
afterwards has `dataLenInBytes <= 20`, and the copy of the payload writes only
within the payload array of the item: nothing is written outside the indices
0..19 of a payload, and every item but the one stored, which is the item at
the write position or, for a forced enqueue, the one before it, is as
before. -/
theorem stored_payload_within_array (localData : LOCAL_DATA_T) (handle dataLenInBytes : Nat)
    (data : Nat → Nat) (s : NotificationModule)
    (hlen : dataLenInBytes ≤ MAX_NOTIFICATION_DATA_LEN_BYTES)
    (hitems : ∀ i, (s.notificationBuffer i).dataLenInBytes ≤ MAX_NOTIFICATION_DATA_LEN_BYTES) :
    ((∀ i, ((notificationBufferItem localData handle dataLenInBytes data
          s).2.notificationBuffer i).dataLenInBytes ≤ MAX_NOTIFICATION_DATA_LEN_BYTES) ∧
      (∀ i j, MAX_NOTIFICATION_DATA_LEN_BYTES ≤ j →
        ((notificationBufferItem localData handle dataLenInBytes data
          s).2.notificationBuffer i).notification j = (s.notificationBuffer i).notification j) ∧
      ∀ i, i ≠ s.notificationWritePosition →
        (notificationBufferItem localData handle dataLenInBytes data s).2.notificationBuffer i
          = s.notificationBuffer i) ∧
    ((∀ i, ((notificationForceBufferItem localData handle dataLenInBytes data
          s).2.notificationBuffer i).dataLenInBytes ≤ MAX_NOTIFICATION_DATA_LEN_BYTES) ∧
      (∀ i j, MAX_NOTIFICATION_DATA_LEN_BYTES ≤ j →
        ((notificationForceBufferItem localData handle dataLenInBytes data
          s).2.notificationBuffer i).notification j = (s.notificationBuffer i).notification j) ∧
      ∀ i, i ≠ s.notificationWritePosition →
        i ≠ SET_PREV_POSITION s.notificationWritePosition →
        (notificationForceBufferItem localData handle dataLenInBytes data
          s).2.notificationBuffer i = s.notificationBuffer i) := by
  obtain ⟨a1, a2, a3⟩ :=
    bufferItem_within_array localData handle dataLenInBytes data false s hlen hitems
  obtain ⟨b1, b2, b3⟩ :=
    bufferItem_within_array localData handle dataLenInBytes data true s hlen hitems
  exact ⟨⟨a1, a2, fun i hi => a3 i hi (fun h => Bool.noConfusion h)⟩,
    ⟨b1, b2, fun i hi hp => b3 i hi (fun _ => hp)⟩⟩

/-- C33, witness: a two-byte report is enqueued in the empty buffer. -/
theorem stored_payload_within_array_witness :
    ((notificationBufferItem exampleLocalData 7 2 exampleReport
      initialModule).2.notificationBuffer 0).dataLenInBytes ≤ MAX_NOTIFICATION_DATA_LEN_BYTES ∧
    (notificationBufferItem exampleLocalData 7 2 exampleReport
      initialModule).2.notificationBuffer 1 = initialModule.notificationBuffer 1 :=
  ⟨(stored_payload_within_array exampleLocalData 7 2 exampleReport initialModule (by decide)
      (fun _ => Nat.zero_le _)).1.1 0,
    (stored_payload_within_array exampleLocalData 7 2 exampleReport initialModule (by decide)
      (fun _ => Nat.zero_le _)).1.2.2 1 (by decide)⟩

/-- C33, the claim as written fails: `bufferItem` does not check the length. An
enqueue of 21 bytes in the empty buffer leaves an item of length 21 in slot 0,
and the copy has written the word that follows the payload array of the
item, which is the handle of the item in slot 1. -/
theorem overlong_payload_is_stored :
    ((notificationBufferItem exampleLocalData 7 21 exampleLongReport
      initialModule).2.notificationBuffer 0).dataLenInBytes = 21 ∧
    (initialModule.notificationBuffer 1).handle = 0 ∧
    ((notificationBufferItem exampleLocalData 7 21 exampleLongReport
      initialModule).2.notificationBuffer 1).handle = 0x55 ∧
    ¬ ∀ (localData : LOCAL_DATA_T) (handle dataLenInBytes : Nat) (data : Nat → Nat)
        (s : NotificationModule),
      dataLenInBytes < 65536 →
      (∀ i, (s.notificationBuffer i).dataLenInBytes ≤ MAX_NOTIFICATION_DATA_LEN_BYTES) →
      ∀ i, ((notificationBufferItem localData handle dataLenInBytes data
        s).2.notificationBuffer i).dataLenInBytes ≤ MAX_NOTIFICATION_DATA_LEN_BYTES := by
  have h : ((notificationBufferItem exampleLocalData 7 21 exampleLongReport
      initialModule).2.notificationBuffer 0).dataLenInBytes = 21 := by decide
  refine ⟨h, rfl, by decide, ?_⟩
  intro hall
  have h20 := hall exampleLocalData 7 21 exampleLongReport initialModule (by decide)
    (fun _ => Nat.zero_le _) 0
  rw [h] at h20
  exact absurd h20 (by decide)

/-! ## Entry actions -/

@[simp] theorem exitAction_advertising_tid (fw : Firmware) :
    (exitAction fw).localData.advertising_tid = fw.localData.advertising_tid := by
  unfold exitAction
  split <;> simp [exitInitState, exitConnectedState, handleResetIdleTimer, exitMotionState,
    exitIdleState]

@[simp] theorem exitAction_timerPool (fw : Firmware) :
    (exitAction fw).timerPool = fw.timerPool := by
  unfold exitAction
  split
  · unfold exitInitState AppUpdateWhiteList
    simp only []
    split_ifs <;> rfl
  · rfl
  · rfl
  · rfl
  · rfl
  · rfl

theorem exitAction_next_report_timer_id (fw : Firmware)
    (h : fw.localData.state ≠ CURRENT_STATE_T.STATE_CONNECTED_MOTION) :
    (exitAction fw).localData.next_report_timer_id = fw.localData.next_report_timer_id := by
  unfold exitAction
  split
  · simp [exitInitState]
  · rfl
  · rfl
  · rename_i hm
    exact absurd hm h
  · rfl
  · rfl

/-- The entry action of the advertising states, by the parameters it hands to
`AdvStart`. -/
theorem AdvStart_sdkCalls (fast : Bool) (mode : gap_mode_connect) (fw : Firmware) :
    ∃ flags : List L2CAP_CONNECT_FLAG,
      (AdvStart fast mode fw).sdkCalls
        = fw.sdkCalls
          ++ [SdkCall.setAdvertisingParameters fast mode, SdkCall.GattConnectReq flags]
          ++ (if mode = gap_mode_connect.gap_mode_connect_undirected then
              [SdkCall.TimerDelete fw.localData.advertising_tid,
                SdkCall.TimerCreate
                  (if fast = true then TIMER_PERIOD.FAST_CONNECTION_ADVERT_TIMEOUT_VALUE
                    else TIMER_PERIOD.SLOW_CONNECTION_ADVERT_TIMEOUT_VALUE)
                  true TIMER_HANDLER.advertisingTimerHandler]
            else []) := by
  refine ⟨(if fw.localData.bonded = true ∧
      (!IsAddressResolvableRandom fw.localData.bonded_bd_addr) = true then
      if mode = gap_mode_connect.gap_mode_connect_directed then
        [L2CAP_CONNECT_FLAG.L2CAP_CONNECTION_SLAVE_WHITELIST,
          L2CAP_CONNECT_FLAG.L2CAP_OWN_ADDR_TYPE_PUBLIC,
          L2CAP_CONNECT_FLAG.L2CAP_CONNECTION_SLAVE_DIRECTED]
      else
        [L2CAP_CONNECT_FLAG.L2CAP_CONNECTION_SLAVE_WHITELIST,
          L2CAP_CONNECT_FLAG.L2CAP_OWN_ADDR_TYPE_PUBLIC]
    else
      [L2CAP_CONNECT_FLAG.L2CAP_CONNECTION_SLAVE_UNDIRECTED,
        L2CAP_CONNECT_FLAG.L2CAP_OWN_ADDR_TYPE_PUBLIC]), ?_⟩
  unfold AdvStart TimerCreate
  cases mode <;> cases fast <;> simp [Firmware.call]

/-- C34, as amended: the advertising entry actions by mode. Entering
DirectedAdvertising through `stateSet` starts directed advertising and creates
no advertising timer; entering FastAdvertising starts fast undirected
advertising and re-arms the advertising timer with the fast timeout; entering
SlowAdvertising starts slow undirected advertising and re-arms the advertising
timer with the slow timeout. So `localData.advertising_tid` is re-armed on
entry (the old timer deleted, a new one created and its identifier stored) if
and only if the new state is FastAdvertising or SlowAdvertising. -/
theorem advertising_entry_actions (new_state : CURRENT_STATE_T) (fw : Firmware)
    (hnew : new_state = CURRENT_STATE_T.STATE_DIRECT_ADVERT ∨
      new_state = CURRENT_STATE_T.STATE_FAST_ADVERT ∨
      new_state = CURRENT_STATE_T.STATE_SLOW_ADVERT)
    (hcur : fw.localData.state ≠ new_state) :
    (stateSet new_state fw).localData.state = new_state ∧
    (∃ flags : List L2CAP_CONNECT_FLAG,
      (stateSet new_state fw).sdkCalls
        = (exitAction fw).sdkCalls
          ++ [SdkCall.setAdvertisingParameters
                (decide (new_state = CURRENT_STATE_T.STATE_FAST_ADVERT))
                (if new_state = CURRENT_STATE_T.STATE_DIRECT_ADVERT then
                  gap_mode_connect.gap_mode_connect_directed
                else gap_mode_connect.gap_mode_connect_undirected),
              SdkCall.GattConnectReq flags]
          ++ (if new_state = CURRENT_STATE_T.STATE_DIRECT_ADVERT then []
            else
              [SdkCall.TimerDelete fw.localData.advertising_tid,
                SdkCall.TimerCreate
                  (if new_state = CURRENT_STATE_T.STATE_FAST_ADVERT then
                    TIMER_PERIOD.FAST_CONNECTION_ADVERT_TIMEOUT_VALUE
                  else TIMER_PERIOD.SLOW_CONNECTION_ADVERT_TIMEOUT_VALUE)
                  true TIMER_HANDLER.advertisingTimerHandler])) ∧
    (stateSet new_state fw).localData.advertising_tid
      = (if new_state = CURRENT_STATE_T.STATE_DIRECT_ADVERT then fw.localData.advertising_tid
        else fw.timerPool 0) := by
  rw [stateSet_advert new_state fw hnew hcur]
  unfold enterAdvertisingState
  rcases hnew with rfl | rfl | rfl
  · refine ⟨by simp [AdvStart_localData], ?_, by simp [AdvStart_localData]⟩
    obtain ⟨flags, h⟩ := AdvStart_sdkCalls false gap_mode_connect.gap_mode_connect_directed
      { exitAction fw with localData.state := CURRENT_STATE_T.STATE_DIRECT_ADVERT }
    exact ⟨flags, by simpa using h⟩
  · refine ⟨by simp [AdvStart_localData], ?_, by simp [AdvStart_localData]⟩
    obtain ⟨flags, h⟩ := AdvStart_sdkCalls true gap_mode_connect.gap_mode_connect_undirected
      { exitAction fw with localData.state := CURRENT_STATE_T.STATE_FAST_ADVERT }
    exact ⟨flags, by simpa using h⟩
  · refine ⟨by simp [AdvStart_localData], ?_, by simp [AdvStart_localData]⟩
    obtain ⟨flags, h⟩ := AdvStart_sdkCalls false gap_mode_connect.gap_mode_connect_undirected
      { exitAction fw with localData.state := CURRENT_STATE_T.STATE_SLOW_ADVERT }
    exact ⟨flags, by simpa using h⟩

/-- C34, witness: the application in Idle is asked for FastAdvertising. -/
theorem advertising_entry_actions_witness :
    (stateSet CURRENT_STATE_T.STATE_FAST_ADVERT
      { exampleConnected with localData.state := CURRENT_STATE_T.STATE_IDLE }).localData.state
      = CURRENT_STATE_T.STATE_FAST_ADVERT ∧
    (stateSet CURRENT_STATE_T.STATE_FAST_ADVERT
      { exampleConnected with
        localData.state := CURRENT_STATE_T.STATE_IDLE }).localData.advertising_tid = 1 :=
  ⟨(advertising_entry_actions CURRENT_STATE_T.STATE_FAST_ADVERT
      { exampleConnected with localData.state := CURRENT_STATE_T.STATE_IDLE }
      (Or.inr (Or.inl rfl)) (by decide)).1,
    (advertising_entry_actions CURRENT_STATE_T.STATE_FAST_ADVERT
      { exampleConnected with localData.state := CURRENT_STATE_T.STATE_IDLE }
      (Or.inr (Or.inl rfl)) (by decide)).2.2⟩

/-- C34, the claim as written fails for SlowAdvertising: the entry from
FastAdvertising deletes the advertising timer and creates it again, with the
slow timeout, and stores the new identifier. -/
theorem slow_advertising_arms_timer :
    (stateSet CURRENT_STATE_T.STATE_SLOW_ADVERT exampleAdvertising).localData.state
      = CURRENT_STATE_T.STATE_SLOW_ADVERT ∧
    (stateSet CURRENT_STATE_T.STATE_SLOW_ADVERT exampleAdvertising).sdkCalls
      = [SdkCall.setAdvertisingParameters false gap_mode_connect.gap_mode_connect_undirected,
          SdkCall.GattConnectReq [L2CAP_CONNECT_FLAG.L2CAP_CONNECTION_SLAVE_UNDIRECTED,
            L2CAP_CONNECT_FLAG.L2CAP_OWN_ADDR_TYPE_PUBLIC],
          SdkCall.TimerDelete 0,
          SdkCall.TimerCreate TIMER_PERIOD.SLOW_CONNECTION_ADVERT_TIMEOUT_VALUE true
            TIMER_HANDLER.advertisingTimerHandler] ∧
    exampleAdvertising.localData.advertising_tid = 0 ∧
    (stateSet CURRENT_STATE_T.STATE_SLOW_ADVERT exampleAdvertising).localData.advertising_tid
      = 1 ∧
    ¬ ∀ (fw : Firmware), fw.localData.state ≠ CURRENT_STATE_T.STATE_SLOW_ADVERT →
      ∀ timeout : TIMER_PERIOD,
        SdkCall.TimerCreate timeout true TIMER_HANDLER.advertisingTimerHandler
          ∉ (stateSet CURRENT_STATE_T.STATE_SLOW_ADVERT fw).sdkCalls := by
  have h : (stateSet CURRENT_STATE_T.STATE_SLOW_ADVERT exampleAdvertising).sdkCalls
      = [SdkCall.setAdvertisingParameters false gap_mode_connect.gap_mode_connect_undirected,
          SdkCall.GattConnectReq [L2CAP_CONNECT_FLAG.L2CAP_CONNECTION_SLAVE_UNDIRECTED,
            L2CAP_CONNECT_FLAG.L2CAP_OWN_ADDR_TYPE_PUBLIC],
          SdkCall.TimerDelete 0,
          SdkCall.TimerCreate TIMER_PERIOD.SLOW_CONNECTION_ADVERT_TIMEOUT_VALUE true
            TIMER_HANDLER.advertisingTimerHandler] := by decide
  refine ⟨by decide, h, rfl, by decide, ?_⟩
  intro hall
  have hno := hall exampleAdvertising (by decide)
    TIMER_PERIOD.SLOW_CONNECTION_ADVERT_TIMEOUT_VALUE
  rw [h] at hno
  exact hno (by decide)

/-- C35: ConnectedMotion falls back to ConnectedIdle. For every current state
other than ConnectedMotion, `stateSet STATE_CONNECTED_MOTION` returns with
`localData.state` equal to ConnectedIdle, having run, after the exit action of
the current state, the exit action of ConnectedMotion (radio events disabled,
the report timer deleted and its identifier invalidated) and the entry action
of ConnectedIdle (the idle-disconnect counter reset to 0, the background tick
enabled). -/
theorem motion_falls_back_to_idle (fw : Firmware)
    (hcur : fw.localData.state ≠ CURRENT_STATE_T.STATE_CONNECTED_MOTION) :
    (stateSet CURRENT_STATE_T.STATE_CONNECTED_MOTION fw).localData.state
      = CURRENT_STATE_T.STATE_CONNECTED_IDLE ∧
    stateSet CURRENT_STATE_T.STATE_CONNECTED_MOTION fw
      = enterConnectedIdleState
          { exitMotionState
              { exitAction fw with localData.state := CURRENT_STATE_T.STATE_CONNECTED_MOTION }
            with localData.state := CURRENT_STATE_T.STATE_CONNECTED_IDLE } ∧
    (stateSet CURRENT_STATE_T.STATE_CONNECTED_MOTION fw).sdkCalls
      = (exitAction fw).sdkCalls
        ++ [SdkCall.LsRadioEventNotification fw.localData.st_ucid radio_event.radio_event_none,
            SdkCall.TimerDelete fw.localData.next_report_timer_id,
            SdkCall.AppBackgroundTick true] ∧
    (stateSet CURRENT_STATE_T.STATE_CONNECTED_MOTION fw).localData.next_report_timer_id
      = TIMER_INVALID ∧
    (stateSet CURRENT_STATE_T.STATE_CONNECTED_MOTION fw).localData.disconnect_counter = 0 := by
  have h := stateSet_CONNECTED_MOTION fw hcur
  refine ⟨?_, h, ?_, ?_, ?_⟩
  · rw [h]; rfl
  · rw [h]
    simp [enterConnectedIdleState, handleResetIdleTimer, exitMotionState, Firmware.call,
      exitAction_next_report_timer_id fw hcur]
  · rw [h]; rfl
  · rw [h]; rfl

/-- C35, witness: the connected example is asked for ConnectedMotion. -/
theorem motion_falls_back_to_idle_witness :
    (stateSet CURRENT_STATE_T.STATE_CONNECTED_MOTION exampleConnected).localData.state
      = CURRENT_STATE_T.STATE_CONNECTED_IDLE :=
  (motion_falls_back_to_idle exampleConnected (by decide)).1

/-- C36: `stateSet` always terminates. For every current state and every
requested state the body of `stateSet` returns with a depth of two calls (and
with every larger depth, with the same result): at most one nested call. A
depth of one call is not enough exactly for the request for ConnectedMotion
from another state: the nested call is the one that the entry action of
ConnectedMotion makes for ConnectedIdle, and that call, made after the state
was assigned ConnectedMotion, returns with a depth of one call, so it makes no
further call of `stateSet`. -/
theorem stateSet_terminates (new_state : CURRENT_STATE_T) (fw : Firmware) :
    (∀ n, stateSetFuel (n + 2) new_state fw = some (stateSet new_state fw)) ∧
    (stateSetFuel 1 new_state fw = none ↔
      (new_state = CURRENT_STATE_T.STATE_CONNECTED_MOTION ∧
        fw.localData.state ≠ CURRENT_STATE_T.STATE_CONNECTED_MOTION)) ∧
    (new_state = CURRENT_STATE_T.STATE_CONNECTED_MOTION →
      fw.localData.state ≠ CURRENT_STATE_T.STATE_CONNECTED_MOTION →
      stateSetFuel 2 new_state fw
        = stateSetFuel 1 CURRENT_STATE_T.STATE_CONNECTED_IDLE
            { exitAction fw with localData.state := CURRENT_STATE_T.STATE_CONNECTED_MOTION } ∧
      ∃ r, stateSetFuel 1 CURRENT_STATE_T.STATE_CONNECTED_IDLE
            { exitAction fw with localData.state := CURRENT_STATE_T.STATE_CONNECTED_MOTION }
          = some r) := by
  refine ⟨fun n => stateSetFuel_eq_stateSet n new_state fw, ⟨?_, ?_⟩, ?_⟩
  · intro hnone
    by_cases hm : new_state = CURRENT_STATE_T.STATE_CONNECTED_MOTION
    · refine ⟨hm, ?_⟩
      intro hst
      subst hm
      simp [stateSetFuel, hst] at hnone
    · obtain ⟨r, hr⟩ := stateSetFuel_one_isSome new_state fw hm
      rw [hr] at hnone
      exact absurd hnone (by simp)
  · rintro ⟨rfl, hst⟩
    have hst2 : CURRENT_STATE_T.STATE_CONNECTED_MOTION ≠ fw.localData.state :=
      fun e => hst e.symm
    simp [stateSetFuel, hst2, enterConnectedMotionState]
  · rintro rfl hst
    have hst2 : CURRENT_STATE_T.STATE_CONNECTED_MOTION ≠ fw.localData.state :=
      fun e => hst e.symm
    refine ⟨?_, stateSetFuel_one_isSome _ _ (by decide)⟩
    rw [stateSetFuel_motion_step 0, if_pos hst2]

/-! ## The background tick and the connection parameters -/

/-- The first part of the tick handler leaves alone what the second part
reads and writes. -/
theorem handleBackgroundTickInd_idle_frame (fw : Firmware) :
    (handleBackgroundTickInd_idle fw).hid_data = fw.hid_data ∧
    (handleBackgroundTickInd_idle fw).gap_conn_params = fw.gap_conn_params ∧
    connParamUpdateRequests (handleBackgroundTickInd_idle fw).sdkCalls
      = connParamUpdateRequests fw.sdkCalls ∧
    ∃ (st : CURRENT_STATE_T) (ucid atid dc nrt : Nat) (dr : ls_err),
      (handleBackgroundTickInd_idle fw).localData
        = { fw.localData with
            state := st, st_ucid := ucid, advertising_tid := atid, disconnect_counter := dc,
            next_report_timer_id := nrt, disconnect_reason := dr } := by
  unfold handleBackgroundTickInd_idle
  simp only []
  split_ifs with hth hcur
  · have hne : ({ fw with
          localData.disconnect_counter := uint8_add fw.localData.disconnect_counter 1 } :
        Firmware).localData.state ≠ CURRENT_STATE_T.STATE_DISCONNECTING := by
      rw [hcur]; decide
    have hex : exitAction ({ fw with
          localData.disconnect_counter := uint8_add fw.localData.disconnect_counter 1 } :
        Firmware)
        = handleResetIdleTimer { fw with
          localData.disconnect_counter := uint8_add fw.localData.disconnect_counter 1 } := by
      unfold exitAction
      rw [hcur]
      rfl
    rw [stateSet_DISCONNECTING _ hne, hex]
    refine ⟨rfl, rfl, ?_, ⟨_, _, _, _, _, _, rfl⟩⟩
    simp [enterDisconnectingState, handleResetIdleTimer, Firmware.call, connParamUpdateRequests,
      List.filterMap_append]
  · exact ⟨rfl, rfl, rfl, ⟨_, _, _, 0, _, _, rfl⟩⟩
  · exact ⟨rfl, rfl, rfl, ⟨_, _, _, uint8_add fw.localData.disconnect_counter 1, _, _, rfl⟩⟩

theorem connectionParamUpdateTicks_eq : connectionParamUpdateTicks = 3 := by decide

/-- The second part of the tick handler, while the application waits to update
the connection parameters. -/
theorem handleBackgroundTickInd_conn_param_active (fw : Firmware)
    (hactive : fw.localData.conn_param_counter_active = true)
    (htick : fw.localData.conn_param_update_tick_count + 1 < 65536)
    (hcount : fw.localData.conn_param_update_count + 1 < 65536) :
    (handleBackgroundTickInd_conn_param fw).localData.conn_param_update_tick_count
      = fw.localData.conn_param_update_tick_count + 1 ∧
    ((fw.localData.conn_param_update_tick_count + 1 ≥ 3 ∧
        fw.hid_data.suspended = false ∧
        (fw.localData.actual_latency > fw.gap_conn_params.PREFERRED_SLAVE_LATENCY ∨
          fw.localData.actual_timeout > fw.gap_conn_params.PREFERRED_SUPERVISION_TIMEOUT ∨
          fw.localData.actual_interval > fw.gap_conn_params.PREFERRED_MAX_CON_INTERVAL)) →
      (handleBackgroundTickInd_conn_param fw).sdkCalls
        = fw.sdkCalls ++ [SdkCall.LsConnectionParamUpdateReq fw.localData.con_bd_addr
            { con_max_interval := fw.gap_conn_params.PREFERRED_MAX_CON_INTERVAL
              con_min_interval := fw.gap_conn_params.PREFERRED_MIN_CON_INTERVAL
              con_slave_latency := fw.gap_conn_params.PREFERRED_SLAVE_LATENCY
              con_super_timeout := fw.gap_conn_params.PREFERRED_SUPERVISION_TIMEOUT }] ∧
      (handleBackgroundTickInd_conn_param fw).localData.conn_param_update_count
        = fw.localData.conn_param_update_count + 1 ∧
      (handleBackgroundTickInd_conn_param fw).localData.conn_param_counter_active = false) ∧
    (¬ (fw.localData.conn_param_update_tick_count + 1 ≥ 3 ∧
        fw.hid_data.suspended = false ∧
        (fw.localData.actual_latency > fw.gap_conn_params.PREFERRED_SLAVE_LATENCY ∨
          fw.localData.actual_timeout > fw.gap_conn_params.PREFERRED_SUPERVISION_TIMEOUT ∨
          fw.localData.actual_interval > fw.gap_conn_params.PREFERRED_MAX_CON_INTERVAL)) →
      (handleBackgroundTickInd_conn_param fw).sdkCalls = fw.sdkCalls ∧
      (handleBackgroundTickInd_conn_param fw).localData.conn_param_update_count
        = fw.localData.conn_param_update_count ∧
      (handleBackgroundTickInd_conn_param fw).localData.conn_param_counter_active = true) := by
  have ht := uint8_add_one_of_lt _ htick
  have hc := uint8_add_one_of_lt _ hcount
  unfold handleBackgroundTickInd_conn_param requestConnParamUpdate HidIsStateSuspended
  simp only [hactive, if_true, connectionParamUpdateTicks_eq, ht]
  refine ⟨?_, ?_, ?_⟩
  · split_ifs <;> rfl
  · rintro ⟨h3, hs, hv⟩
    rw [if_pos h3, if_pos hs, if_pos hv]
    exact ⟨rfl, hc, rfl⟩
  · intro hno
    split_ifs with h3 hs hv
    · exact absurd ⟨h3, hs, hv⟩ hno
    · exact ⟨rfl, rfl, rfl⟩
    · exact ⟨rfl, rfl, rfl⟩
    · exact ⟨rfl, rfl, rfl⟩

/-- C37, as amended: the re-issue of the parameter update on ticks. When
`handleBackgroundTickInd` runs with `conn_param_counter_active` TRUE and
neither the tick count nor the count of the requests at 65535, the largest
value of the 16-bit word that holds it, it increments the tick count, and once
the count has reached
the threshold `connectionParamUpdateTicks`, which is 3, it issues a
parameter-update request if and only if the HID host is not suspended and the
actual parameters of the link violate the preferred bounds (latency, timeout
or interval above the preferred value): then exactly one request is sent, with
the preferred parameters, `conn_param_update_count` increases by one and the
counter is deactivated; when no request is issued none is sent, the count is
unchanged and the counter stays active. -/
theorem tick_reissues_parameter_update (fw : Firmware)
    (hactive : fw.localData.conn_param_counter_active = true)
    (htick : fw.localData.conn_param_update_tick_count + 1 < 65536)
    (hcount : fw.localData.conn_param_update_count + 1 < 65536) :
    connectionParamUpdateTicks = 3 ∧
    (handleBackgroundTickInd fw).localData.conn_param_update_tick_count
      = fw.localData.conn_param_update_tick_count + 1 ∧
    ((fw.localData.conn_param_update_tick_count + 1 ≥ connectionParamUpdateTicks ∧
        fw.hid_data.suspended = false ∧
        (fw.localData.actual_latency > fw.gap_conn_params.PREFERRED_SLAVE_LATENCY ∨
          fw.localData.actual_timeout > fw.gap_conn_params.PREFERRED_SUPERVISION_TIMEOUT ∨
          fw.localData.actual_interval > fw.gap_conn_params.PREFERRED_MAX_CON_INTERVAL)) →
      connParamUpdateRequests (handleBackgroundTickInd fw).sdkCalls
        = connParamUpdateRequests fw.sdkCalls
          ++ [{ con_max_interval := fw.gap_conn_params.PREFERRED_MAX_CON_INTERVAL
                con_min_interval := fw.gap_conn_params.PREFERRED_MIN_CON_INTERVAL
                con_slave_latency := fw.gap_conn_params.PREFERRED_SLAVE_LATENCY
                con_super_timeout := fw.gap_conn_params.PREFERRED_SUPERVISION_TIMEOUT }] ∧
      (handleBackgroundTickInd fw).localData.conn_param_update_count
        = fw.localData.conn_param_update_count + 1 ∧
      (handleBackgroundTickInd fw).localData.conn_param_counter_active = false) ∧
    (¬ (fw.localData.conn_param_update_tick_count + 1 ≥ connectionParamUpdateTicks ∧
        fw.hid_data.suspended = false ∧
        (fw.localData.actual_latency > fw.gap_conn_params.PREFERRED_SLAVE_LATENCY ∨
          fw.localData.actual_timeout > fw.gap_conn_params.PREFERRED_SUPERVISION_TIMEOUT ∨
          fw.localData.actual_interval > fw.gap_conn_params.PREFERRED_MAX_CON_INTERVAL)) →
      connParamUpdateRequests (handleBackgroundTickInd fw).sdkCalls
        = connParamUpdateRequests fw.sdkCalls ∧
      (handleBackgroundTickInd fw).localData.conn_param_update_count
        = fw.localData.conn_param_update_count ∧
      (handleBackgroundTickInd fw).localData.conn_param_counter_active = true) := by
  obtain ⟨hhid, hgap, hreq, st, ucid, atid, dc, nrt, dr, hld⟩ :=
    handleBackgroundTickInd_idle_frame fw
  have h1 : (handleBackgroundTickInd_idle fw).localData.conn_param_counter_active
      = fw.localData.conn_param_counter_active := by rw [hld]
  have h2 : (handleBackgroundTickInd_idle fw).localData.conn_param_update_tick_count
      = fw.localData.conn_param_update_tick_count := by rw [hld]
  have h3 : (handleBackgroundTickInd_idle fw).localData.conn_param_update_count
      = fw.localData.conn_param_update_count := by rw [hld]
  have h4 : (handleBackgroundTickInd_idle fw).localData.actual_latency
      = fw.localData.actual_latency := by rw [hld]
  have h5 : (handleBackgroundTickInd_idle fw).localData.actual_timeout
      = fw.localData.actual_timeout := by rw [hld]
  have h6 : (handleBackgroundTickInd_idle fw).localData.actual_interval
      = fw.localData.actual_interval := by rw [hld]
  have key := handleBackgroundTickInd_conn_param_active (handleBackgroundTickInd_idle fw)
    (h1.trans hactive) (by rw [h2]; exact htick) (by rw [h3]; exact hcount)
  rw [h2, h3, h4, h5, h6, hhid, hgap] at key
  unfold handleBackgroundTickInd
  rw [connectionParamUpdateTicks_eq]
  refine ⟨rfl, key.1, ?_, ?_⟩
  · intro hissue
    obtain ⟨k1, k2, k3⟩ := key.2.1 hissue
    refine ⟨?_, k2, k3⟩
    rw [k1, ← hreq]
    simp [connParamUpdateRequests, List.filterMap_append]
  · intro hno
    obtain ⟨k1, k2, k3⟩ := key.2.2 hno
    exact ⟨by rw [k1, hreq], k2, k3⟩

/-- C37, witness: the third tick of the example that waits to update the
connection parameters. -/
theorem tick_reissues_parameter_update_witness :
    connParamUpdateRequests (handleBackgroundTickInd
      { exampleUpdating with localData.conn_param_update_tick_count := 2 }).sdkCalls
      = [{ con_max_interval := 16, con_min_interval := 16, con_slave_latency := 100,
           con_super_timeout := 600 }] ∧
    (handleBackgroundTickInd
      { exampleUpdating with
        localData.conn_param_update_tick_count := 2 }).localData.conn_param_update_count = 1 :=
  ⟨((tick_reissues_parameter_update
      { exampleUpdating with localData.conn_param_update_tick_count := 2 } rfl (by decide)
      (by decide)).2.2.1 (by decide)).1,
    ((tick_reissues_parameter_update
      { exampleUpdating with localData.conn_param_update_tick_count := 2 } rfl (by decide)
      (by decide)).2.2.1 (by decide)).2.1⟩

/-- C37, as stated for every tick, fails where a count wraps. On the example
that waits to update the connection parameters (host not suspended, actual
latency above the preferred one) with the tick count at 65535, the tick takes
the count to 0 instead of incrementing it and, the count being below the
threshold again, no request is issued; with the tick count at 2 and
`conn_param_update_count` at 65535 the request is issued and the count of the
requests becomes 0 instead of increasing by one. -/
theorem tick_counts_wrap :
    ({ exampleUpdating with localData.conn_param_update_tick_count := 65535 } :
      Firmware).localData.conn_param_counter_active = true ∧
    exampleUpdating.hid_data.suspended = false ∧
    exampleUpdating.localData.actual_latency
      > exampleUpdating.gap_conn_params.PREFERRED_SLAVE_LATENCY ∧
    (handleBackgroundTickInd
      { exampleUpdating with
        localData.conn_param_update_tick_count := 65535 }).localData.conn_param_update_tick_count
      = 0 ∧
    connParamUpdateRequests (handleBackgroundTickInd
      { exampleUpdating with localData.conn_param_update_tick_count := 65535 }).sdkCalls
      = connParamUpdateRequests exampleUpdating.sdkCalls ∧
    (connParamUpdateRequests (handleBackgroundTickInd
      { exampleUpdating with
        localData.conn_param_update_tick_count := 2
        localData.conn_param_update_count := 65535 }).sdkCalls).length
      = (connParamUpdateRequests exampleUpdating.sdkCalls).length + 1 ∧
    (handleBackgroundTickInd
      { exampleUpdating with
        localData.conn_param_update_tick_count := 2
        localData.conn_param_update_count := 65535 }).localData.conn_param_update_count
      = 0 ∧
    (¬ ∀ fw : Firmware, fw.localData.conn_param_counter_active = true →
      (handleBackgroundTickInd fw).localData.conn_param_update_tick_count
        = fw.localData.conn_param_update_tick_count + 1) := by
  have h1 : (handleBackgroundTickInd
      { exampleUpdating with
        localData.conn_param_update_tick_count := 65535 }).localData.conn_param_update_tick_count
      = 0 := by decide
  refine ⟨rfl, rfl, by decide, h1, by decide, by decide, by decide, ?_⟩
  intro hall
  have h := hall { exampleUpdating with localData.conn_param_update_tick_count := 65535 } rfl
  rw [h1] at h
  exact absurd h (by decide)

/-! ## The grace window after a connection -/

/-- The request for CONNECTED_IDLE from an advertising state. -/
theorem stateSet_CONNECTED_IDLE_of_advertising (fw : Firmware)
    (hcur : fw.localData.state = CURRENT_STATE_T.STATE_FAST_ADVERT ∨
      fw.localData.state = CURRENT_STATE_T.STATE_SLOW_ADVERT ∨
      fw.localData.state = CURRENT_STATE_T.STATE_DIRECT_ADVERT) :
    stateSet CURRENT_STATE_T.STATE_CONNECTED_IDLE fw
      = enterConnectedIdleState
          { fw with localData.state := CURRENT_STATE_T.STATE_CONNECTED_IDLE } := by
  have hne : fw.localData.state ≠ CURRENT_STATE_T.STATE_CONNECTED_IDLE := by
    rcases hcur with h | h | h <;> rw [h] <;> decide
  rw [stateSet_CONNECTED_IDLE fw hne, exitAction_of_advertising fw hcur]

/-- What the timer callback `notificationConnectionDelay` does. -/
theorem notificationConnectionDelay_spec (fw : Firmware) :
    (notificationConnectionDelay fw).localData.blockNotifications = false ∧
    (fw.notifications.currentState = NOTIFICATION_STATE.ALL_QUIET →
      NUM_BUFFERED_ITEMS fw.notifications.notificationReadPosition
        fw.notifications.notificationWritePosition > 0 →
      (notificationConnectionDelay fw).notifications
        = { fw.notifications with
            gattCharValueNotifications := fw.notifications.gattCharValueNotifications ++
              [{ cid := fw.localData.st_ucid
                 handle := (fw.notifications.notificationBuffer
                   fw.notifications.notificationReadPosition).handle
                 size_value := (fw.notifications.notificationBuffer
                   fw.notifications.notificationReadPosition).dataLenInBytes
                 value := (fw.notifications.notificationBuffer
                   fw.notifications.notificationReadPosition).notification }]
            currentState := NOTIFICATION_STATE.NOTIFICATION_OUTSTANDING }) := by
  refine ⟨rfl, ?_⟩
  intro hq hn
  unfold notificationConnectionDelay
  simp only []
  rw [notificationSendNext_of_gate _ _ hq rfl hn]

/-- C38: the grace window after a reconnection. When a successful connect
confirmation is accepted in an advertising state with `blockNotifications`
TRUE, the machine enters ConnectedIdle and the handler leaves the notification
engine as it was: it transmits no buffered notification. If the delay timer is
created (`TimerCreate` returns a valid identifier), the call of `TimerCreate`
for `notificationConnectionDelay` is the last call of the handler and
`blockNotifications` is still TRUE when the handler returns; if the timer
cannot be created, `blockNotifications` is FALSE when the handler returns.
Whenever the timer callback `notificationConnectionDelay` runs,
`blockNotifications` becomes FALSE and, if the engine is quiet and the buffer
is not empty, the item at the read position is transmitted. -/
theorem connect_starts_grace_window (ev : GATT_CONNECT_CFM_T) (fw : Firmware)
    (hcur : fw.localData.state = CURRENT_STATE_T.STATE_FAST_ADVERT ∨
      fw.localData.state = CURRENT_STATE_T.STATE_SLOW_ADVERT ∨
      fw.localData.state = CURRENT_STATE_T.STATE_DIRECT_ADVERT)
    (hresult : ev.result = sys_status_success)
    (haccept : ¬ (fw.localData.bonded = true ∧
      IsAddressResolvableRandom fw.localData.bonded_bd_addr = true ∧
      fw.SMPrivacyMatchAddress ev.bd_addr fw.localData.central_device_irk.irk < 0))
    (hblock : fw.localData.blockNotifications = true) :
    (handleSignalGattConnectCfm ev fw).localData.state = CURRENT_STATE_T.STATE_CONNECTED_IDLE ∧
    (handleSignalGattConnectCfm ev fw).notifications = fw.notifications ∧
    (fw.timerPool 0 ≠ TIMER_INVALID →
      (handleSignalGattConnectCfm ev fw).localData.blockNotifications = true ∧
      ∃ calls, (handleSignalGattConnectCfm ev fw).sdkCalls
        = calls ++ [SdkCall.TimerCreate TIMER_PERIOD.NOTIFICATION_DELAY_AFTER_RECONNECTION true
            TIMER_HANDLER.notificationConnectionDelay]) ∧
    (fw.timerPool 0 = TIMER_INVALID →
      (handleSignalGattConnectCfm ev fw).localData.blockNotifications = false) ∧
    (∀ later : Firmware,
      (notificationConnectionDelay later).localData.blockNotifications = false ∧
      (later.notifications.currentState = NOTIFICATION_STATE.ALL_QUIET →
        NUM_BUFFERED_ITEMS later.notifications.notificationReadPosition
          later.notifications.notificationWritePosition > 0 →
        (notificationConnectionDelay later).notifications
          = { later.notifications with
              gattCharValueNotifications := later.notifications.gattCharValueNotifications ++
                [{ cid := later.localData.st_ucid
                   handle := (later.notifications.notificationBuffer
                     later.notifications.notificationReadPosition).handle
                   size_value := (later.notifications.notificationBuffer
                     later.notifications.notificationReadPosition).dataLenInBytes
                   value := (later.notifications.notificationBuffer
                     later.notifications.notificationReadPosition).notification }]
              currentState := NOTIFICATION_STATE.NOTIFICATION_OUTSTANDING })) := by
  have key : ∀ F : Firmware, F.localData.state = fw.localData.state →
      F.notifications = fw.notifications → F.timerPool = fw.timerPool →
      F.localData.blockNotifications = true →
      let created := TimerCreate TIMER_PERIOD.NOTIFICATION_DELAY_AFTER_RECONNECTION true
        TIMER_HANDLER.notificationConnectionDelay
        (stateSet CURRENT_STATE_T.STATE_CONNECTED_IDLE F)
      let R : Firmware :=
        if created.1 = TIMER_INVALID then
          { created.2 with localData.blockNotifications := false }
        else created.2
      R.localData.state = CURRENT_STATE_T.STATE_CONNECTED_IDLE ∧
      R.notifications = fw.notifications ∧
      (fw.timerPool 0 ≠ TIMER_INVALID →
        R.localData.blockNotifications = true ∧
        ∃ calls, R.sdkCalls
          = calls ++ [SdkCall.TimerCreate TIMER_PERIOD.NOTIFICATION_DELAY_AFTER_RECONNECTION
              true TIMER_HANDLER.notificationConnectionDelay]) ∧
      (fw.timerPool 0 = TIMER_INVALID → R.localData.blockNotifications = false) := by
    intro F hst hnot hpool hb
    have hF : F.localData.state = CURRENT_STATE_T.STATE_FAST_ADVERT ∨
        F.localData.state = CURRENT_STATE_T.STATE_SLOW_ADVERT ∨
        F.localData.state = CURRENT_STATE_T.STATE_DIRECT_ADVERT := by rw [hst]; exact hcur
    rw [stateSet_CONNECTED_IDLE_of_advertising F hF]
    simp only [TimerCreate, enterConnectedIdleState, handleResetIdleTimer, Firmware.call, hpool]
    by_cases hp : fw.timerPool 0 = TIMER_INVALID
    · simp [hp, hnot]
    · rw [if_neg hp]
      exact ⟨rfl, hnot,
        fun _ => ⟨hb, F.sdkCalls ++ [SdkCall.AppBackgroundTick true], by simp⟩,
        fun h => absurd h hp⟩
  have hrun : ∃ F : Firmware, F.localData.state = fw.localData.state ∧
      F.notifications = fw.notifications ∧ F.timerPool = fw.timerPool ∧
      F.localData.blockNotifications = true ∧
      handleSignalGattConnectCfm ev fw
        = if (TimerCreate TIMER_PERIOD.NOTIFICATION_DELAY_AFTER_RECONNECTION true
              TIMER_HANDLER.notificationConnectionDelay
              (stateSet CURRENT_STATE_T.STATE_CONNECTED_IDLE F)).1 = TIMER_INVALID then
            { (TimerCreate TIMER_PERIOD.NOTIFICATION_DELAY_AFTER_RECONNECTION true
                TIMER_HANDLER.notificationConnectionDelay
                (stateSet CURRENT_STATE_T.STATE_CONNECTED_IDLE F)).2 with
              localData.blockNotifications := false }
          else
            (TimerCreate TIMER_PERIOD.NOTIFICATION_DELAY_AFTER_RECONNECTION true
              TIMER_HANDLER.notificationConnectionDelay
              (stateSet CURRENT_STATE_T.STATE_CONNECTED_IDLE F)).2 := by
    unfold handleSignalGattConnectCfm
    simp only [hcur, hresult, if_true, haccept, if_false]
    refine ⟨_, ?_, ?_, ?_, ?_, rfl⟩
    · split_ifs <;> rfl
    · split_ifs <;> rfl
    · split_ifs <;> rfl
    · split_ifs <;> exact hblock
  obtain ⟨F, h1, h2, h3, h4, hF⟩ := hrun
  rw [hF]
  exact ⟨(key F h1 h2 h3 h4).1, (key F h1 h2 h3 h4).2.1, (key F h1 h2 h3 h4).2.2.1,
    (key F h1 h2 h3 h4).2.2.2, fun later => notificationConnectionDelay_spec later⟩

/-- C38, witness: a host with a public address connects to the example that
advertises after start-up; and the same when no timer is left. -/
theorem connect_starts_grace_window_witness :
    (handleSignalGattConnectCfm
      { result := sys_status_success, cid := 3, bd_addr := examplePublicAddr }
      (handleSignalGattAddDBCfm { result := sys_status_success }
        exampleAfterInit)).localData.blockNotifications = true ∧
    (handleSignalGattConnectCfm
      { result := sys_status_success, cid := 3, bd_addr := examplePublicAddr }
      { handleSignalGattAddDBCfm { result := sys_status_success } exampleAfterInit with
        timerPool := fun _ => TIMER_INVALID }).localData.blockNotifications = false :=
  ⟨((connect_starts_grace_window
      { result := sys_status_success, cid := 3, bd_addr := examplePublicAddr }
      (handleSignalGattAddDBCfm { result := sys_status_success } exampleAfterInit)
      (by decide) rfl (by decide) (by decide)).2.2.1 (by decide)).1,
    (connect_starts_grace_window
      { result := sys_status_success, cid := 3, bd_addr := examplePublicAddr }
      { handleSignalGattAddDBCfm { result := sys_status_success } exampleAfterInit with
        timerPool := fun _ => TIMER_INVALID }
      (by decide) rfl (by decide) (by decide)).2.2.2.1 rfl⟩

/-! ## What clears the outstanding transmission -/

theorem notificationDropAll_keeps_outstanding (s n : NotificationModule)
    (h : s.currentState = NOTIFICATION_STATE.NOTIFICATION_OUTSTANDING ∧
      s.gattCharValueNotifications = n.gattCharValueNotifications) :
    (notificationDropAll s).currentState = NOTIFICATION_STATE.NOTIFICATION_OUTSTANDING ∧
    (notificationDropAll s).gattCharValueNotifications = n.gattCharValueNotifications := by
  unfold notificationDropAll
  split_ifs <;> exact h

theorem notificationSendNext_keeps_outstanding (localData : LOCAL_DATA_T)
    (s n : NotificationModule)
    (h : s.currentState = NOTIFICATION_STATE.NOTIFICATION_OUTSTANDING ∧
      s.gattCharValueNotifications = n.gattCharValueNotifications) :
    (notificationSendNext localData s).currentState
      = NOTIFICATION_STATE.NOTIFICATION_OUTSTANDING ∧
    (notificationSendNext localData s).gattCharValueNotifications
      = n.gattCharValueNotifications := by
  rw [notificationSendNext_of_not_gate]
  · exact h
  · intro hg
    rw [h.1] at hg
    exact NOTIFICATION_STATE.noConfusion hg.1

theorem bufferItem_keeps_outstanding (localData : LOCAL_DATA_T) (handle len : Nat)
    (data : Nat → Nat) (force : Bool) (s : NotificationModule)
    (h : s.currentState = NOTIFICATION_STATE.NOTIFICATION_OUTSTANDING) :
    (bufferItem localData handle len data force s).2.currentState
      = NOTIFICATION_STATE.NOTIFICATION_OUTSTANDING ∧
    (bufferItem localData handle len data force s).2.gattCharValueNotifications
      = s.gattCharValueNotifications := by
  obtain ⟨s2, h2, hst, htr, _, _⟩ := bufferItem_snd localData handle len data force s
  rw [h2]
  exact notificationSendNext_keeps_outstanding localData s2 s ⟨hst.trans h, htr⟩

/-- A request to the state machine leaves the engine as it is or drops its
buffer. -/
theorem stateSet_notifications_cases (new_state : CURRENT_STATE_T) (fw : Firmware) :
    (stateSet new_state fw).notifications = fw.notifications ∨
    (stateSet new_state fw).notifications = notificationDropAll fw.notifications := by
  by_cases hn : new_state = CURRENT_STATE_T.STATE_IDLE
  · by_cases hs : fw.localData.state = CURRENT_STATE_T.STATE_IDLE
    · left
      rw [stateSet_same new_state fw (hs.trans hn.symm)]
    · right
      rw [hn]
      exact stateSet_IDLE_notifications fw hs
  · exact Or.inl (stateSet_notifications new_state fw hn)

theorem stateSet_keeps_outstanding (new_state : CURRENT_STATE_T) (fw : Firmware)
    (n : NotificationModule)
    (h : fw.notifications.currentState = NOTIFICATION_STATE.NOTIFICATION_OUTSTANDING ∧
      fw.notifications.gattCharValueNotifications = n.gattCharValueNotifications) :
    (stateSet new_state fw).notifications.currentState
      = NOTIFICATION_STATE.NOTIFICATION_OUTSTANDING ∧
    (stateSet new_state fw).notifications.gattCharValueNotifications
      = n.gattCharValueNotifications := by
  rcases stateSet_notifications_cases new_state fw with hc | hc
  · rw [hc]
    exact h
  · rw [hc]
    exact notificationDropAll_keeps_outstanding _ n h

theorem handleSignalLmEvDisconnectComplete_keeps_outstanding
    (ev : HCI_EV_DATA_DISCONNECT_COMPLETE_T) (fw : Firmware)
    (h : fw.notifications.currentState = NOTIFICATION_STATE.NOTIFICATION_OUTSTANDING) :
    (handleSignalLmEvDisconnectComplete ev fw).notifications.currentState
      = NOTIFICATION_STATE.NOTIFICATION_OUTSTANDING ∧
    (handleSignalLmEvDisconnectComplete ev fw).notifications.gattCharValueNotifications
      = fw.notifications.gattCharValueNotifications := by
  unfold handleSignalLmEvDisconnectComplete
  simp only []
  split_ifs
  · exact ⟨h, rfl⟩
  · exact stateSet_keeps_outstanding _ _ _ (by simpa using h)
  · exact stateSet_keeps_outstanding _ _ _ (by simpa using h)
  · exact ⟨h, rfl⟩

theorem handleSignalGattConnectCfm_keeps_outstanding (ev : GATT_CONNECT_CFM_T) (fw : Firmware)
    (h : fw.notifications.currentState = NOTIFICATION_STATE.NOTIFICATION_OUTSTANDING) :
    (handleSignalGattConnectCfm ev fw).notifications.currentState
      = NOTIFICATION_STATE.NOTIFICATION_OUTSTANDING ∧
    (handleSignalGattConnectCfm ev fw).notifications.gattCharValueNotifications
      = fw.notifications.gattCharValueNotifications := by
  unfold handleSignalGattConnectCfm stateSetDisconnect TimerCreate
  simp only []
  split_ifs <;>
    first
    | exact ⟨h, rfl⟩
    | exact stateSet_keeps_outstanding _ _ _ ⟨h, rfl⟩
    | exact stateSet_keeps_outstanding _ _ _
        (notificationDropAll_keeps_outstanding _ _ ⟨h, rfl⟩)

theorem applyAppOp_keeps_outstanding (op : AppOp) (fw : Firmware)
    (h : fw.notifications.currentState = NOTIFICATION_STATE.NOTIFICATION_OUTSTANDING) :
    (applyAppOp op fw).notifications.currentState
      = NOTIFICATION_STATE.NOTIFICATION_OUTSTANDING ∧
    (applyAppOp op fw).notifications.gattCharValueNotifications
      = fw.notifications.gattCharValueNotifications := by
  cases op with
  | stateSet new_state => exact stateSet_keeps_outstanding new_state fw _ ⟨h, rfl⟩
  | handleSignalLmEvDisconnectComplete ev =>
    exact handleSignalLmEvDisconnectComplete_keeps_outstanding ev fw h
  | handleSignalGattConnectCfm ev => exact handleSignalGattConnectCfm_keeps_outstanding ev fw h
  | notificationBufferItem handle len data =>
    exact bufferItem_keeps_outstanding fw.localData handle len data false fw.notifications h
  | notificationForceBufferItem handle len data =>
    exact bufferItem_keeps_outstanding fw.localData handle len data true fw.notifications h
  | notificationSendNext =>
    exact notificationSendNext_keeps_outstanding fw.localData fw.notifications _ ⟨h, rfl⟩
  | notificationDropAll =>
    exact notificationDropAll_keeps_outstanding fw.notifications _ ⟨h, rfl⟩

/-- C40, the code after a link loss: the application advertises again, with
the background tick still enabled and the wait for the update of the
connection parameters still active, since neither the disconnect-complete
handler nor `RemoteDataInit` clears `conn_param_counter_active`. The third tick
handled in FastAdvertising issues a connection parameter update request and
counts it. -/
theorem tick_without_link_requests_parameter_update :
    exampleLinkLostWaiting.localData.state = CURRENT_STATE_T.STATE_FAST_ADVERT ∧
    exampleLinkLostWaiting.localData.st_ucid = GATT_INVALID_UCID ∧
    exampleLinkLostWaiting.localData.conn_param_counter_active = true ∧
    exampleLinkLostWaiting.localData.conn_param_update_count = 0 ∧
    connParamUpdateRequests exampleLinkLostWaiting.sdkCalls = [] ∧
    SdkCall.AppBackgroundTick true ∈ exampleLinkLostWaiting.sdkCalls ∧
    SdkCall.AppBackgroundTick false ∉ exampleLinkLostWaiting.sdkCalls ∧
    (handleBackgroundTickInd (handleBackgroundTickInd exampleLinkLostWaiting)).localData.state
      = CURRENT_STATE_T.STATE_FAST_ADVERT ∧
    connParamUpdateRequests (handleBackgroundTickInd
      (handleBackgroundTickInd exampleLinkLostWaiting)).sdkCalls = [] ∧
    (handleBackgroundTickInd (handleBackgroundTickInd
      (handleBackgroundTickInd exampleLinkLostWaiting))).localData.state
      = CURRENT_STATE_T.STATE_FAST_ADVERT ∧
    connParamUpdateRequests (handleBackgroundTickInd (handleBackgroundTickInd
      (handleBackgroundTickInd exampleLinkLostWaiting))).sdkCalls
      = [{ con_max_interval := 16, con_min_interval := 16, con_slave_latency := 100,
           con_super_timeout := 600 }] ∧
    (handleBackgroundTickInd (handleBackgroundTickInd
      (handleBackgroundTickInd exampleLinkLostWaiting))).localData.conn_param_update_count
      = 1 := by
  refine ⟨?_, ?_, ?_, ?_, ?_, ?_, ?_, ?_, ?_, ?_, ?_, ?_⟩ <;> decide

end Remote
